import Mathlib

/-!
# OptiScaler frame-generation pipeline (Vulkan / FSR-FG back end)

A shallow embedding of the frame counter state, the drift-correcting dispatch
indexer, the per-slot resource registry and the context lifecycle of

* `OptiScaler/framegen/IFGFeature.cpp`
* `OptiScaler/framegen/IFGFeature_Vk.cpp`, `IFGFeature_Vk.h`
* `OptiScaler/framegen/ffx/FSRFG_Vk.cpp`, `FSRFG_Vk.h`

Conventions of the embedding.

* The C++ object is an explicit record `FGState`; every member function takes
  the record and returns the new record together with its C++ result.
* `UINT64` members are natural numbers; every `+` and `-` of the source on them
  is taken modulo `2^64` (`u64add`, `u64sub`).
* `int` values are integers; a result formed in `int` is taken modulo `2^32` as
  a signed number (`toInt32`), and an `int` that meets a `UINT64` operand is
  converted modulo `2^64` (`toU64`).
* Vulkan and FidelityFX handles are natural numbers, `0` being
  `VK_NULL_HANDLE` / `nullptr`.
* The per-slot arrays `T x[BUFFER_COUNT]` are functions on the slot index.
* Calls into the graphics API and into the generation back end are not
  executed: the value each call hands back is an argument of the embedded
  function (the `...Env` records and `ret` arguments below).  Command pools,
  command lists and their reset flags, fences and queue submission are not
  part of the record; `_mvFlip`, `_depthFlip`, `_hudlessCompare`,
  `_hudlessTransfer[i]` and `_uiTransfer[i]` record whether the owning pointer
  is non-null.  Floating-point members (jitter, camera, motion-vector scale)
  are left out.
-/

namespace OptiScaler

/-! ## Constants and machine arithmetic -/

/-- Ring size.  `IFGFeature.h` is not among the sources; the value is fixed by
the four-element initialiser of `bool _uiCommandListResetted[BUFFER_COUNT]` in
`IFGFeature_Vk.h`. -/
def BUFFER_COUNT : Nat := 4

/-- Number of values of a `UINT64`. -/
def U64_MOD : Nat := 18446744073709551616

/-- Wrapping `a + b` on `UINT64`. -/
def u64add (a b : Nat) : Nat := (a + b) % U64_MOD

/-- Wrapping `a - b` on `UINT64`. -/
def u64sub (a b : Nat) : Nat := (a % U64_MOD + (U64_MOD - b % U64_MOD)) % U64_MOD

/-- The value of `static_cast<int>(n)` for an integer `n`: `n` modulo `2^32`,
read as a signed 32-bit number.  It is also the value an `int` product or
difference takes when the exact result is `n`. -/
def toInt32 (n : Int) : Int := (n + 2147483648) % 4294967296 - 2147483648

/-- The value of an `int` converted to `UINT64`, as the usual arithmetic
conversions do when an `int` meets a `UINT64` operand: `n` modulo `2^64`. -/
def toU64 (n : Int) : Nat := (n % (U64_MOD : Int)).toNat

/-- `FFX_API_RETURN_OK` of the FidelityFX API. -/
def FFX_API_RETURN_OK : Nat := 0

/-- `FFX_API_SURFACE_FORMAT_UNKNOWN` of the FidelityFX API. -/
def FFX_API_SURFACE_FORMAT_UNKNOWN : Int := 0

/-- `VK_NULL_HANDLE`. -/
def VK_NULL_HANDLE : Nat := 0

/-- `VK_IMAGE_LAYOUT_GENERAL`. -/
def VK_IMAGE_LAYOUT_GENERAL : Nat := 1

/-- `VK_IMAGE_LAYOUT_TRANSFER_DST_OPTIMAL`. -/
def VK_IMAGE_LAYOUT_TRANSFER_DST_OPTIMAL : Nat := 7

/-- `VK_FORMAT_B8G8R8A8_UNORM`. -/
def VK_FORMAT_B8G8R8A8_UNORM : Nat := 44

/-! ## Data model -/

/-- Modelled from the spec: the enumeration `FG_ResourceType` is declared in
`IFGFeature.h`, which is not among the sources; the spec lists its members as
Depth, Velocity, Distortion, HudlessColor, UIColor. -/
inductive FG_ResourceType where
  | Depth
  | Velocity
  | Distortion
  | HudlessColor
  | UIColor
  deriving DecidableEq, Repr

/-- Modelled from the spec: the enumeration `FG_ResourceValidity` is declared in
`IFGFeature.h`, which is not among the sources; the spec lists ValidNow,
UntilPresent and ValidButMakeCopy, and `FSRFG_Vk::SetResource` also names
UntilPresentFromDispatch. -/
inductive FG_ResourceValidity where
  | ValidNow
  | UntilPresent
  | ValidButMakeCopy
  | UntilPresentFromDispatch
  deriving DecidableEq, Repr

/-- The record `struct VkResource` of `IFGFeature_Vk.h`, with its default member
initialisers (the two Vulkan descriptor structs `createInfo` and `copyRegion`
are never read by the embedded functions and are left out). -/
structure VkResource where
  type : FG_ResourceType := FG_ResourceType.Depth
  image : Nat := VK_NULL_HANDLE
  top : Nat := 0
  left : Nat := 0
  width : Nat := 0
  height : Nat := 0
  cmdBuffer : Nat := VK_NULL_HANDLE
  state : Nat := VK_IMAGE_LAYOUT_GENERAL
  validity : FG_ResourceValidity := FG_ResourceValidity.ValidNow
  imageView : Nat := VK_NULL_HANDLE
  copy : Nat := VK_NULL_HANDLE
  copyView : Nat := VK_NULL_HANDLE
  frameIndex : Int := -1
  waitingExecution : Bool := false
  deriving DecidableEq, Repr

/-- The part of `Config::Instance()` read by the embedded functions (`Config.h`
is not among the sources).  `FGAllowedFrameAhead` is the configured frame count,
an `int` in the source, taken non-negative here: a natural number together with
the fact `FGAllowedFrameAhead_fits` that it is a value of a 32-bit signed
integer. -/
structure Config where
  FGAllowedFrameAhead : Nat := 1
  FGAllowedFrameAhead_fits : FGAllowedFrameAhead < 2147483648 := by decide
  FGDisableHudless : Bool := false
  FGOnlyAcceptFirstHudless : Bool := false
  FGDisableUI : Bool := false
  FGResourceFlip : Bool := false
  FGEnabled : Bool := true
  FGSkipReset : Bool := false
  FGDrawUIOverFG : Bool := false
  FGUIPremultipliedAlpha : Bool := false
  FGDebugView : Bool := false
  FGDebugTearLines : Bool := false
  FGDebugResetLines : Bool := false
  FGDebugPacingLines : Bool := false
  FGAsync : Bool := false
  FGRectLeft : Option Int := none
  FGRectTop : Option Int := none
  FGRectWidth : Option Int := none
  FGRectHeight : Option Int := none
  deriving DecidableEq, Repr

/-- The members of `IFGFeature`, `IFGFeature_Vk` and `FSRFG_Vk` that the embedded
functions read or write. -/
structure FGState where
  /- IFGFeature -/
  _frameCount : Nat := 0
  _lastDispatchedFrame : Nat := 0
  _targetFrame : Nat := 0
  _isActive : Bool := false
  _waitingNewFrameData : Bool := false
  _lastFGFrame : Nat := 0
  _resourceReady : Nat → FG_ResourceType → Option Bool := fun _ _ => none
  _waitingExecute : Nat → Bool := fun _ => false
  _noUi : Nat → Bool := fun _ => true
  _noDistortionField : Nat → Bool := fun _ => true
  _noHudless : Nat → Bool := fun _ => true
  _resourceFrame : FG_ResourceType → Nat := fun _ => 0
  _reset : Nat → Nat := fun _ => 0
  _interpolationWidth : Nat → Nat := fun _ => 0
  _interpolationHeight : Nat → Nat := fun _ => 0
  _interpolationLeft : Nat → Option Nat := fun _ => none
  _interpolationTop : Nat → Option Nat := fun _ => none
  /- IFGFeature_Vk -/
  _device : Nat := VK_NULL_HANDLE
  _fgFramePresentId : Nat := 0
  _lastFGFramePresentId : Nat := 0
  _frameResources : Nat → FG_ResourceType → Option VkResource := fun _ _ => none
  _resourceCopy : Nat → FG_ResourceType → Option Nat := fun _ _ => none
  _mvFlip : Bool := false
  _depthFlip : Bool := false
  _hudlessCompare : Bool := false
  /- FSRFG_Vk -/
  _swapChainContext : Nat := 0
  _fgContext : Nat := 0
  _swapChain : Nat := VK_NULL_HANDLE
  _lastHudlessFormat : Int := FFX_API_SURFACE_FORMAT_UNKNOWN
  _usingHudlessFormat : Int := FFX_API_SURFACE_FORMAT_UNKNOWN
  _maxRenderWidth : Nat := 0
  _maxRenderHeight : Nat := 0
  _swapChainExtentWidth : Nat := 0
  _swapChainExtentHeight : Nat := 0
  _constantsDisplayWidth : Nat := 0
  _constantsDisplayHeight : Nat := 0
  _constantsFlags : Nat := 0
  _hudlessTransfer : Nat → Bool := fun _ => false
  _uiTransfer : Nat → Bool := fun _ => false

/-- The freshly constructed pipeline object: all counters zero, inactive, no
context, empty slots. -/
def initialState : FGState := {}

/-- The upscaler feature `State::Instance().currentFeature` points to, as far as
the embedded functions read it. -/
structure FeatureInfo where
  FrameCount : Nat := 0
  RenderWidth : Nat := 0
  RenderHeight : Nat := 0
  deriving DecidableEq, Repr

/-- The process-wide state outside the pipeline object: the members of
`State::Instance()` the embedded functions read or write (`State.h` is not among
the sources), and the function-local statics of `FSRFG_Vk.cpp`. -/
structure Globals where
  FGchanged : Bool := false
  SCchanged : Bool := false
  FSRFGFTPchanged : Bool := false
  ClearCapturedHudlesses : Bool := false
  isShuttingDown : Bool := false
  FGonlyGenerated : Bool := false
  /-- Whether `activeFgInput == FGInput::Upscaler`. -/
  activeFgInputIsUpscaler : Bool := false
  /-- The feature `currentFeature` points to; `none` is the null pointer. -/
  currentFeature : Option FeatureInfo := none
  currentVkFGSwapchain : Nat := 0
  /-- The static `_lastFrameId` of `DispatchCallback`. -/
  DispatchCallback_lastFrameId : Nat := 0
  /-- The static `localLastHudlessFormat` of `Dispatch`; `none` until the
  declaration is first reached. -/
  Dispatch_localLastHudlessFormat : Option Int := none
  /-- The static `lastInfiniteDepth` of `EvaluateState`. -/
  EvaluateState_lastInfiniteDepth : Bool := false
  deriving DecidableEq, Repr

/-! ## `IFGFeature.cpp` -/

/-- `IFGFeature::GetIndex`. -/
def GetIndex (s : FGState) : Nat := s._frameCount % BUFFER_COUNT

/-- `IFGFeature_Vk::HasResource(type, index)`; a negative index selects the
current slot. -/
def HasResource (s : FGState) (type : FG_ResourceType) (index : Int := -1) : Bool :=
  let index : Nat := if index < 0 then GetIndex s else index.toNat
  (s._frameResources index type).isSome

/-- `IFGFeature::IsActive`. -/
def IsActive (s : FGState) : Bool := s._isActive || s._waitingNewFrameData

/-- `IFGFeature::IsPaused`. -/
def IsPaused (s : FGState) : Bool :=
  decide (s._targetFrame ≠ 0) && decide (s._targetFrame ≥ s._frameCount)

/-- `IFGFeature::IsDispatched`. -/
def IsDispatched (s : FGState) : Bool := decide (s._lastDispatchedFrame = s._frameCount)

/-- `IFGFeature::ResetCounters`. -/
def ResetCounters (s : FGState) : FGState := { s with _targetFrame := s._frameCount }

/-- `IFGFeature::UpdateTarget`. -/
def UpdateTarget (s : FGState) : FGState := { s with _targetFrame := u64add s._frameCount 10 }

/-- `IFGFeature::GetIndexWillBeDispatched`.  The query has no write to any
member; the record is handed back as it came in.  `diff` is a `UINT64` and
`allowedAhead` an `int`: the comparison `diff < 0` is on an unsigned value, the
comparison `diff > allowedAhead` converts the non-negative count to `UINT64`
unchanged, and the product `allowedAhead * 2` is formed in `int` (modulo `2^32`,
signed) before it is converted to `UINT64`. -/
def GetIndexWillBeDispatched (cfg : Config) (s : FGState) : FGState × Int :=
  let diff := u64sub s._frameCount s._lastDispatchedFrame
  let allowedAhead := cfg.FGAllowedFrameAhead
  let df : Nat :=
    if diff > allowedAhead || decide (diff < 0) || s._lastDispatchedFrame == 0 then
      if HasResource s FG_ResourceType.Depth then
        s._frameCount
      else if diff > toU64 (toInt32 ((allowedAhead : Int) * 2)) then
        u64add s._lastDispatchedFrame (diff / 2)
      else
        u64add s._lastDispatchedFrame 1
    else
      u64add s._lastDispatchedFrame 1
  (s, ((df % BUFFER_COUNT : Nat) : Int))

/-- `IFGFeature::GetDispatchIndex(UINT64& willDispatchFrame)`.  The result is the
new record, the new value of the reference argument and the returned index.
`fgLastFrame` is `State::Instance().FGLastFrame`.  The arithmetic of `diff` and
`allowedAhead` is that of `GetIndexWillBeDispatched`: the product
`allowedAhead * 2` is formed in `int` and then converted to `UINT64`. -/
def GetDispatchIndex (cfg : Config) (fgLastFrame : Nat) (s : FGState) (willDispatchFrame : Nat) :
    FGState × Nat × Int :=
  if s._frameCount == s._lastDispatchedFrame then
    (s, willDispatchFrame, -1)
  else
    let diff := u64sub s._frameCount s._lastDispatchedFrame
    let allowedAhead := cfg.FGAllowedFrameAhead
    let willDispatchFrame : Nat :=
      if diff > allowedAhead || decide (diff < 0) || s._lastDispatchedFrame == 0 then
        if HasResource s FG_ResourceType.Depth then
          s._frameCount
        else if diff > toU64 (toInt32 ((allowedAhead : Int) * 2)) then
          u64add s._lastDispatchedFrame (diff / 2)
        else
          u64add s._lastDispatchedFrame 1
      else
        u64add s._lastDispatchedFrame 1
    ({ s with _lastDispatchedFrame := willDispatchFrame, _lastFGFrame := fgLastFrame },
      willDispatchFrame, ((willDispatchFrame % BUFFER_COUNT : Nat) : Int))

/-! ## Context lifecycle, `FSRFG_Vk.cpp` -/

/-- `FSRFG_Vk::Activate`; `ret` is the return code of the back end's configure
call. -/
def Activate (ret : Nat) (s : FGState) : FGState :=
  if s._fgContext != 0 && s._swapChain != VK_NULL_HANDLE && !s._isActive then
    if ret == FFX_API_RETURN_OK then
      { s with _isActive := true, _lastDispatchedFrame := 0 }
    else
      s
  else
    s

/-- `FSRFG_Vk::Deactivate`; `ret` is the return code of the back end's configure
call.  The flush of the slot's UI command list touches no tracked member. -/
def Deactivate (ret : Nat) (s : FGState) : FGState :=
  if s._isActive then
    if s._fgContext != 0 then
      if ret == FFX_API_RETURN_OK then
        { s with _isActive := false }
      else
        s
    else
      { s with _isActive := false }
  else
    s

/-- `FSRFG_Vk::ReleaseObjects`: besides the command pools it resets both flip
objects. -/
def ReleaseObjects (s : FGState) : FGState :=
  { s with _mvFlip := false, _depthFlip := false }

/-- `FSRFG_Vk::DestroyFGContext`; `deactivateRet` is the return code of the
configure call made by `Deactivate`. -/
def DestroyFGContext (deactivateRet : Nat) (s : FGState) : FGState :=
  let s := { s with _frameCount := 1 }
  let s := Deactivate deactivateRet s
  let s := if s._fgContext != 0 then { s with _fgContext := 0 } else s
  ReleaseObjects s

/-- `FSRFG_Vk::CreateObjects`: stores the device (the pools are not tracked). -/
def CreateObjects (s : FGState) (InDevice : Nat) : FGState :=
  { s with _device := InDevice }

/-- What one `FSRFG_Vk::CreateContext` call receives: its arguments and the
values handed back by the back end. -/
structure CreateContextEnv where
  device : Nat := 1
  displayWidth : Nat := 0
  displayHeight : Nat := 0
  flags : Nat := 0
  /-- Return code of `VK_Configure` on a live context. -/
  configureRet : Nat := 0
  /-- Return code of `VK_CreateContext`. -/
  createRet : Nat := 0
  /-- Context pointer written by `VK_CreateContext`. -/
  createdContext : Nat := 1
  deriving DecidableEq, Repr

/-- `FSRFG_Vk::CreateContext`. -/
def CreateContext (env : CreateContextEnv) (s : FGState) : FGState :=
  let s := CreateObjects s env.device
  let s := { s with _constantsDisplayWidth := env.displayWidth,
                    _constantsDisplayHeight := env.displayHeight,
                    _constantsFlags := env.flags }
  let s := if s._fgContext != 0 && s._lastHudlessFormat != s._usingHudlessFormat then
      { s with _fgContext := 0 }
    else s
  if s._fgContext != 0 then
    { s with _isActive := (env.configureRet == FFX_API_RETURN_OK) }
  else
    let maxRender : Nat × Nat :=
      if s._swapChainExtentWidth != 0 && s._swapChainExtentHeight != 0 then
        if env.displayWidth != 0 && env.displayHeight != 0 then
          (env.displayWidth, env.displayHeight)
        else
          (s._swapChainExtentWidth, s._swapChainExtentHeight)
      else
        (env.displayWidth, env.displayHeight)
    let s := { s with _maxRenderWidth := maxRender.1, _maxRenderHeight := maxRender.2 }
    let s := if s._lastHudlessFormat != FFX_API_SURFACE_FORMAT_UNKNOWN then
        { s with _usingHudlessFormat := s._lastHudlessFormat,
                 _lastHudlessFormat := FFX_API_SURFACE_FORMAT_UNKNOWN }
      else
        { s with _usingHudlessFormat := FFX_API_SURFACE_FORMAT_UNKNOWN }
    { s with _fgContext := env.createdContext,
             _isActive := (env.createRet == FFX_API_RETURN_OK),
             _lastDispatchedFrame := 0 }

/-! ## Frame admission -/

/-- `IFGFeature_Vk::NewFrame`; `activateRet` is the return code of the configure
call made when the hook re-activates the pipeline. -/
def NewFrame (activateRet : Nat) (s : FGState) : FGState :=
  let s := if s._waitingNewFrameData then
      let s := UpdateTarget s
      let s := Activate activateRet s
      { s with _waitingNewFrameData := false }
    else s
  let fIndex := GetIndex s
  { s with _frameResources := Function.update s._frameResources fIndex (fun _ => none),
           _lastFGFramePresentId := s._fgFramePresentId }

/-- `IFGFeature::StartNewFrame`, lines 45 to 86: the increment of `_frameCount`
and the correction of `_lastDispatchedFrame`. -/
def StartNewFrame_counters (s : FGState) : FGState :=
  let s := { s with _frameCount := u64add s._frameCount 1 }
  let ACTIVE_THRESHOLD : Nat := 20
  let INACTIVE_THRESHOLD : Nat := 100
  let MODERATE_THRESHOLD : Nat := 10
  let threshold : Nat :=
    if s._isActive || s._waitingNewFrameData then ACTIVE_THRESHOLD else INACTIVE_THRESHOLD
  if s._isActive && decide (s._lastDispatchedFrame > 0) &&
      decide (u64sub s._frameCount s._lastDispatchedFrame > threshold) then
    { s with _lastDispatchedFrame :=
        if s._frameCount > 5 then u64sub s._frameCount 5 else u64sub s._frameCount 1 }
  else if s._lastDispatchedFrame == 0 then
    { s with _lastDispatchedFrame := u64sub s._frameCount 1 }
  else if s._isActive && decide (s._lastDispatchedFrame > 0) &&
      decide (u64sub s._frameCount s._lastDispatchedFrame > MODERATE_THRESHOLD) then
    if u64sub s._frameCount s._lastDispatchedFrame > 15 then
      let diff := u64sub s._frameCount s._lastDispatchedFrame
      { s with _lastDispatchedFrame := u64add s._lastDispatchedFrame (diff / 2) }
    else
      s
  else
    s

/-- `IFGFeature::StartNewFrame`, lines 88 to 96: the reset of the admitted
slot. -/
def StartNewFrame_resetSlot (s : FGState) : FGState :=
  let fIndex := GetIndex s
  { s with _resourceReady := Function.update s._resourceReady fIndex (fun _ => none),
           _waitingExecute := Function.update s._waitingExecute fIndex false,
           _noUi := Function.update s._noUi fIndex true,
           _noDistortionField := Function.update s._noDistortionField fIndex true,
           _noHudless := Function.update s._noHudless fIndex true }

/-- `IFGFeature::StartNewFrame`: counters, slot reset, the `NewFrame` hook, and
the new `_frameCount` as result. -/
def StartNewFrame (activateRet : Nat) (s : FGState) : FGState × Nat :=
  let s := StartNewFrame_counters s
  let s := StartNewFrame_resetSlot s
  let s := NewFrame activateRet s
  (s, s._frameCount)

/-! ## Resource registry, `FSRFG_Vk::SetResource` and its helpers -/

/-- `GetFormatIndex` of `FSRFG_Vk.cpp`, on the numeric values of `VkFormat`. -/
def GetFormatIndex (format : Nat) : Int :=
  if format = 107 ∨ format = 108 ∨ format = 109 then 1
  else if format = 91 ∨ format = 92 ∨ format = 93 ∨ format = 94 ∨ format = 95 ∨
      format = 96 ∨ format = 97 then 21
  else if format = 64 ∨ format = 68 then 31
  else if format = 37 ∨ format = 38 ∨ format = 39 ∨ format = 40 ∨ format = 41 ∨
      format = 42 then 51
  else -1

/-- `FormatsCompatible` of `FSRFG_Vk.cpp`. -/
def FormatsCompatible (format1 format2 : Nat) : Bool :=
  if format1 = format2 then true
  else
    let fi1 := GetFormatIndex format1
    if fi1 < 0 then false
    else
      let fi2 := GetFormatIndex format2
      if fi2 < 0 then false
      else if fi1 = fi2 then true
      else if fi1 - 1 = fi2 ∨ fi2 - 1 = fi1 then true
      else false

/-- Write of one entry of `_frameResources[index]`. -/
def setFrameResource (s : FGState) (index : Nat) (type : FG_ResourceType) (r : VkResource) :
    FGState :=
  let slot := Function.update (s._frameResources index) type (some r)
  { s with _frameResources := Function.update s._frameResources index slot }

/-- Write of one entry of `_resourceCopy[index]`. -/
def setResourceCopy (s : FGState) (index : Nat) (type : FG_ResourceType) (h : Nat) : FGState :=
  let slot := Function.update (s._resourceCopy index) type (some h)
  { s with _resourceCopy := Function.update s._resourceCopy index slot }

/-- `IFGFeature::SetResourceReady(type, index)` for a non-negative index. -/
def SetResourceReady (s : FGState) (type : FG_ResourceType) (index : Nat) : FGState :=
  let slot := Function.update (s._resourceReady index) type (some true)
  { s with _resourceReady := Function.update s._resourceReady index slot,
           _resourceFrame := Function.update s._resourceFrame type s._frameCount }

/-- `IFGFeature::IsResourceReady(type, index)`; a negative index selects the
current slot. -/
def IsResourceReady (s : FGState) (type : FG_ResourceType) (index : Int := -1) : Bool :=
  let index : Nat := if index < 0 then GetIndex s else index.toNat
  (s._resourceReady index type).isSome

/-- `IFGFeature_Vk::GetResource(type, index)`; `none` is the null pointer. -/
def GetResource (s : FGState) (type : FG_ResourceType) (index : Int := -1) : Option VkResource :=
  let index : Nat := if index < 0 then GetIndex s else index.toNat
  s._frameResources index type

/-- `IFGFeature_Vk::CreateImageResourceWithSize`: result and new value of
`*target`; `createOk` and `created` are the outcome of `vkCreateImage`. -/
def CreateImageResourceWithSize (createOk : Bool) (created : Nat) (device source target : Nat) :
    Bool × Nat :=
  if device == VK_NULL_HANDLE || source == VK_NULL_HANDLE then
    (false, target)
  else
    let target := if target != VK_NULL_HANDLE then VK_NULL_HANDLE else target
    if !createOk then (false, target) else (true, created)

/-- `IFGFeature_Vk::CreateImageResource`. -/
def CreateImageResource (createOk : Bool) (created : Nat) (device source target : Nat) :
    Bool × Nat :=
  CreateImageResourceWithSize createOk created device source target

/-- `IFGFeature_Vk::CopyResource`: result and new value of `*target`. -/
def CopyResource (createOk : Bool) (created : Nat) (s : FGState) (source target : Nat) :
    Bool × Nat :=
  let r := CreateImageResource createOk created s._device source target
  if r.1 then (true, r.2) else (false, r.2)

/-- What `GetUICommandList` finds outside the record. -/
structure UICommandListEnv where
  /-- Whether `_uiCommandPool[0] == nullptr`. -/
  uiCommandPool0IsNull : Bool := false
  /-- The value of `State::Instance().currentVkDevice`. -/
  currentVkDevice : Nat := 0
  /-- The command list handed back. -/
  commandList : Nat := 1
  deriving DecidableEq, Repr

/-- `IFGFeature_Vk::GetUICommandList`, as far as tracked members go: the lazy
`CreateObjects` call and the handle handed back. -/
def GetUICommandList (env : UICommandListEnv) (s : FGState) : FGState × Nat :=
  if env.uiCommandPool0IsNull then
    if s._device != VK_NULL_HANDLE then
      (CreateObjects s s._device, env.commandList)
    else if env.currentVkDevice != VK_NULL_HANDLE then
      (CreateObjects s env.currentVkDevice, env.commandList)
    else
      (s, VK_NULL_HANDLE)
  else
    (s, env.commandList)

/-- Outcomes of the Vulkan and shader calls made by `FlipResource`. -/
structure FlipEnv where
  createOk : Bool := true
  created : Nat := 1
  /-- Result of `RF_Vk::IsInit`. -/
  isInit : Bool := true
  /-- Result of `RF_Vk::Dispatch`. -/
  dispatchOk : Bool := true
  deriving DecidableEq, Repr

/-- `IFGFeature_Vk::FlipResource`; the resource pointed to is handed in and
back by value. -/
def FlipResource (env : FlipEnv) (ui : UICommandListEnv) (s : FGState) (resource : VkResource) :
    FGState × VkResource :=
  let type := resource.type
  if type != FG_ResourceType.Depth && type != FG_ResourceType.Velocity then
    (s, resource)
  else
    let fIndex := GetIndex s
    let flipOutput : Nat := (s._resourceCopy fIndex type).getD VK_NULL_HANDLE
    let s := setResourceCopy s fIndex type flipOutput
    let r := CreateImageResource env.createOk env.created s._device resource.image flipOutput
    if !r.1 then
      (s, resource)
    else
      let flipOutput := r.2
      let s := setResourceCopy s fIndex type flipOutput
      if type == FG_ResourceType.Depth && !s._depthFlip then
        ({ s with _depthFlip := true }, resource)
      else if type != FG_ResourceType.Depth && !s._mvFlip then
        ({ s with _mvFlip := true }, resource)
      else if env.isInit then
        let s := if resource.cmdBuffer != VK_NULL_HANDLE then s else (GetUICommandList ui s).1
        if env.dispatchOk then
          (s, { resource with copy := flipOutput, state := VK_IMAGE_LAYOUT_GENERAL })
        else
          (s, resource)
      else
        (s, resource)

/-- Outcomes of the `FT_Vk` calls made by a format transfer. -/
structure FormatTransferEnv where
  /-- Result of `FT_Vk::IsFormatCompatible`. -/
  isFormatCompatible : Bool := true
  /-- Result of `FT_Vk::CreateBufferResource`. -/
  createBufferOk : Bool := true
  /-- Result of `FT_Vk::Buffer`. -/
  buffer : Nat := 1
  deriving DecidableEq, Repr

/-- `FSRFG_Vk::UIFormatTransfer`. -/
def UIFormatTransfer (env : FormatTransferEnv) (s : FGState) (index : Nat)
    (resource : VkResource) : FGState × VkResource × Bool :=
  if !s._uiTransfer index || !env.isFormatCompatible then
    ({ s with _uiTransfer := Function.update s._uiTransfer index true }, resource, false)
  else if s._uiTransfer index && env.createBufferOk then
    (s, { resource with copy := env.buffer }, true)
  else
    (s, resource, false)

/-- `FSRFG_Vk::HudlessFormatTransfer`. -/
def HudlessFormatTransfer (env : FormatTransferEnv) (ui : UICommandListEnv) (s : FGState)
    (index : Nat) (resource : VkResource) : FGState × VkResource × Bool :=
  if !s._hudlessTransfer index || !env.isFormatCompatible then
    ({ s with _hudlessTransfer := Function.update s._hudlessTransfer index true }, resource, false)
  else if s._hudlessTransfer index && env.createBufferOk then
    let s := (GetUICommandList ui s).1
    (s, { resource with copy := env.buffer, state := VK_IMAGE_LAYOUT_GENERAL }, true)
  else
    (s, resource, false)

/-- Everything one `FSRFG_Vk::SetResource` call obtains from outside the
record. -/
structure SetResourceEnv where
  /-- Whether `State::Instance().activeFgInput == FGInput::Upscaler`. -/
  activeFgInputIsUpscaler : Bool := false
  flip : FlipEnv := {}
  uiCommandList : UICommandListEnv := {}
  /-- The value of `ffxApiGetSurfaceFormatVK(VK_FORMAT_B8G8R8A8_UNORM)`. -/
  surfaceFormat : Int := 1
  uiTransfer : FormatTransferEnv := {}
  hudlessTransfer : FormatTransferEnv := {}
  /-- Outcome of `vkCreateImage` inside `CopyResource`. -/
  copyCreateOk : Bool := true
  copyCreated : Nat := 1
  deriving DecidableEq, Repr

/-- `FSRFG_Vk::SetResource`, lines 1300 to 1331: validity normalisation, the
copy of a `ValidNow` resource and the readiness mark.  `fResource` is the
entry `_frameResources[fIndex][type]` the source holds a pointer to; it is
written back at every exit. -/
def SetResource_finish (env : SetResourceEnv) (s : FGState) (inputResource : VkResource)
    (fIndex : Nat) (willFlip : Bool) (fResource : VkResource) : FGState × Bool :=
  let type := inputResource.type
  let fResource :=
    if fResource.validity == FG_ResourceValidity.ValidButMakeCopy then
      { fResource with validity := FG_ResourceValidity.ValidNow }
    else fResource
  let fResource :=
    { fResource with validity :=
        if fResource.validity != FG_ResourceValidity.ValidNow || willFlip then
          FG_ResourceValidity.UntilPresent
        else
          FG_ResourceValidity.ValidNow }
  if fResource.validity == FG_ResourceValidity.ValidNow then
    let copyOutput : Nat := (s._resourceCopy fIndex type).getD VK_NULL_HANDLE
    let c := CopyResource env.copyCreateOk env.copyCreated s inputResource.image copyOutput
    if !c.1 then
      (setFrameResource s fIndex type fResource, false)
    else
      let copyOutput := c.2
      let s := setResourceCopy s fIndex type copyOutput
      let fResource :=
        { fResource with copy := copyOutput, state := VK_IMAGE_LAYOUT_TRANSFER_DST_OPTIMAL }
      let s := setFrameResource s fIndex type fResource
      (SetResourceReady s type fIndex, true)
  else
    let s := setFrameResource s fIndex type fResource
    (SetResourceReady s type fIndex, true)

/-- `FSRFG_Vk::SetResource`, lines 1240 to 1298: the per-type format handling
and the clearing of the `_noUi`, `_noDistortionField`, `_noHudless` flag; ends in
`SetResource_finish`. -/
def SetResource_formats (env : SetResourceEnv) (s : FGState) (inputResource : VkResource)
    (fIndex : Nat) (willFlip : Bool) (fResource : VkResource) : FGState × Bool :=
  let type := inputResource.type
  if type == FG_ResourceType.UIColor then
    let uiFormat := env.surfaceFormat
    let scFormat := env.surfaceFormat
    if uiFormat == -1 || scFormat == -1 || uiFormat != scFormat then
      let s := (GetUICommandList env.uiCommandList s).1
      let tr := UIFormatTransfer env.uiTransfer s fIndex fResource
      if !tr.2.2 then
        (setFrameResource tr.1 fIndex type {}, false)
      else
        let fResource := { tr.2.1 with validity := FG_ResourceValidity.UntilPresent }
        let s := { tr.1 with _noUi := Function.update tr.1._noUi fIndex false }
        SetResource_finish env s inputResource fIndex willFlip fResource
    else
      let s := { s with _noUi := Function.update s._noUi fIndex false }
      SetResource_finish env s inputResource fIndex willFlip fResource
  else if type == FG_ResourceType.Distortion then
    let s := { s with _noDistortionField := Function.update s._noDistortionField fIndex false }
    SetResource_finish env s inputResource fIndex willFlip fResource
  else if type == FG_ResourceType.HudlessColor then
    let scFormat := VK_FORMAT_B8G8R8A8_UNORM
    let scFfxFormat := env.surfaceFormat
    let s := { s with _lastHudlessFormat := scFfxFormat }
    if s._lastHudlessFormat != FFX_API_SURFACE_FORMAT_UNKNOWN &&
        !FormatsCompatible scFormat scFormat then
      let tr := HudlessFormatTransfer env.hudlessTransfer env.uiCommandList s fIndex fResource
      if !tr.2.2 then
        let s := { tr.1 with _lastHudlessFormat := FFX_API_SURFACE_FORMAT_UNKNOWN }
        (setFrameResource s fIndex type {}, false)
      else
        let fResource := { tr.2.1 with validity := FG_ResourceValidity.UntilPresent }
        let s := { tr.1 with _noHudless := Function.update tr.1._noHudless fIndex false }
        SetResource_finish env s inputResource fIndex willFlip fResource
    else
      let s := { s with _noHudless := Function.update s._noHudless fIndex false }
      SetResource_finish env s inputResource fIndex willFlip fResource
  else
    SetResource_finish env s inputResource fIndex willFlip fResource

/-- `FSRFG_Vk::SetResource`, lines 1220 to 1238: the new registry entry and the
optional flip; continues in `SetResource_formats`. -/
def SetResource_store (cfg : Config) (env : SetResourceEnv) (s : FGState)
    (inputResource : VkResource) (fIndex : Nat) : FGState × Bool :=
  let type := inputResource.type
  let fResource : VkResource :=
    { type := type, state := inputResource.state, validity := inputResource.validity,
      image := inputResource.image, width := inputResource.width,
      height := inputResource.height, cmdBuffer := inputResource.cmdBuffer }
  let s := setFrameResource s fIndex type fResource
  let willFlip : Bool := env.activeFgInputIsUpscaler && cfg.FGResourceFlip &&
    (fResource.type == FG_ResourceType.Velocity || fResource.type == FG_ResourceType.Depth)
  if willFlip && s._device != VK_NULL_HANDLE then
    let flipped := FlipResource env.flip env.uiCommandList s fResource
    SetResource_formats env flipped.1 inputResource fIndex willFlip flipped.2
  else
    SetResource_formats env s inputResource fIndex willFlip fResource

/-- `FSRFG_Vk::SetResource(VkResource* inputResource)`; `none` as argument is the
null pointer.  The result is `none` when the slot index taken from the
descriptor lies outside `_frameResources[BUFFER_COUNT]`, an access the source
does not guard. -/
def SetResource (cfg : Config) (env : SetResourceEnv) (s : FGState)
    (inputResource : Option VkResource) : Option (FGState × Bool) :=
  match inputResource with
  | none => some (s, false)
  | some inputResource =>
    if inputResource.image == VK_NULL_HANDLE || !IsActive s || IsPaused s then
      some (s, false)
    else
      let fIndex : Int :=
        if inputResource.frameIndex < 0 then (GetIndex s : Int) else inputResource.frameIndex
      if fIndex ≥ (BUFFER_COUNT : Int) then
        none
      else
        let fIndex : Nat := fIndex.toNat
        let type := inputResource.type
        if (s._frameResources fIndex type).isSome &&
            ((s._frameResources fIndex type).map (fun r => r.validity)) ==
              some FG_ResourceValidity.ValidNow then
          some (s, false)
        else if type == FG_ResourceType.HudlessColor && cfg.FGDisableHudless then
          some (s, false)
        else if type == FG_ResourceType.HudlessColor && (!s._noHudless fIndex &&
            cfg.FGOnlyAcceptFirstHudless &&
            inputResource.validity != FG_ResourceValidity.UntilPresentFromDispatch) then
          some (s, false)
        else if type == FG_ResourceType.UIColor && cfg.FGDisableUI then
          some (s, false)
        else if inputResource.cmdBuffer == VK_NULL_HANDLE &&
            inputResource.validity == FG_ResourceValidity.ValidNow then
          some (s, false)
        else
          some (SetResource_store cfg env s inputResource fIndex)

/-! ## The dispatch cycle, `FSRFG_Vk::Dispatch` -/

/-- `IFGFeature::SetReset(reset, index)`; a negative index selects the current
slot. -/
def SetReset (s : FGState) (reset : Nat) (index : Int := -1) : FGState :=
  let index : Nat := if index < 0 then GetIndex s else index.toNat
  { s with _reset := Function.update s._reset index reset }

/-- `IFGFeature::SetInterpolationRect(width, height, index)`. -/
def SetInterpolationRect (s : FGState) (width height : Nat) (index : Int := -1) : FGState :=
  let index : Nat := if index < 0 then GetIndex s else index.toNat
  { s with _interpolationWidth := Function.update s._interpolationWidth index width,
           _interpolationHeight := Function.update s._interpolationHeight index height }

/-- `IFGFeature::SetInterpolationPos(left, top, index)`. -/
def SetInterpolationPos (s : FGState) (left top : Nat) (index : Int := -1) : FGState :=
  let index : Nat := if index < 0 then GetIndex s else index.toNat
  { s with _interpolationLeft := Function.update s._interpolationLeft index (some left),
           _interpolationTop := Function.update s._interpolationTop index (some top) }

/-- `IFGFeature::SetExecuted(index)` for a non-negative index. -/
def SetExecuted (s : FGState) (index : Nat) : FGState :=
  { s with _waitingExecute := Function.update s._waitingExecute index false }

/-- `FSRFG_Vk::ExecuteCommandList`; the queue submission touches no tracked
member. -/
def ExecuteCommandList (s : FGState) (index : Nat) : FGState × Bool :=
  if s._waitingExecute index then (SetExecuted s index, true) else (s, true)

/-- `VkResource::GetResource`: the copy when there is one, else the image. -/
def VkResource.GetResource (r : VkResource) : Nat :=
  if r.copy == VK_NULL_HANDLE then r.image else r.copy

/-- `VK_IMAGE_LAYOUT_COLOR_ATTACHMENT_OPTIMAL`. -/
def VK_IMAGE_LAYOUT_COLOR_ATTACHMENT_OPTIMAL : Nat := 2

/-- `VK_IMAGE_LAYOUT_DEPTH_STENCIL_ATTACHMENT_OPTIMAL`. -/
def VK_IMAGE_LAYOUT_DEPTH_STENCIL_ATTACHMENT_OPTIMAL : Nat := 3

/-- `VK_IMAGE_LAYOUT_SHADER_READ_ONLY_OPTIMAL`. -/
def VK_IMAGE_LAYOUT_SHADER_READ_ONLY_OPTIMAL : Nat := 5

/-- `VK_IMAGE_LAYOUT_TRANSFER_SRC_OPTIMAL`. -/
def VK_IMAGE_LAYOUT_TRANSFER_SRC_OPTIMAL : Nat := 6

/-- `VK_IMAGE_LAYOUT_PRESENT_SRC_KHR`. -/
def VK_IMAGE_LAYOUT_PRESENT_SRC_KHR : Nat := 1000001002

/-- The resource states of the FidelityFX API that `GetFfxResourceFromVkResource`
selects among. -/
inductive FfxApiResourceState where
  | COMMON
  | COMPUTE_READ
  | RENDER_TARGET
  | DEPTH_ATTACHMENT
  | PIXEL_READ
  | COPY_SRC
  | COPY_DEST
  | PRESENT
  deriving DecidableEq, Repr

/-- The record `FfxApiResource` as `ffxApiGetResourceVK` fills it: the handle,
the description handed in, and the state.  `usageDepthTarget` is the bit
`FFX_API_RESOURCE_USAGE_DEPTHTARGET` of `description.usage`. -/
structure FfxApiResource where
  resource : Nat := 0
  width : Nat := 0
  height : Nat := 0
  format : Int := FFX_API_SURFACE_FORMAT_UNKNOWN
  usageDepthTarget : Bool := false
  state : FfxApiResourceState := FfxApiResourceState.COMMON
  deriving DecidableEq, Repr

/-- `GetFfxResourceFromVkResource(resource, additionalUsages)`; `none` is the
null pointer, `depthTarget` says whether `additionalUsages` carries
`FFX_API_RESOURCE_USAGE_DEPTHTARGET` (the only bit a caller passes).  Width and
height are cast to 32 bits. -/
def GetFfxResourceFromVkResource (resource : Option VkResource) (depthTarget : Bool := false) :
    FfxApiResource :=
  match resource with
  | none => {}
  | some r =>
    if r.GetResource == VK_NULL_HANDLE then {}
    else
      let st : FfxApiResourceState :=
        if r.state = VK_IMAGE_LAYOUT_GENERAL then FfxApiResourceState.COMPUTE_READ
        else if r.state = VK_IMAGE_LAYOUT_COLOR_ATTACHMENT_OPTIMAL then
          FfxApiResourceState.RENDER_TARGET
        else if r.state = VK_IMAGE_LAYOUT_DEPTH_STENCIL_ATTACHMENT_OPTIMAL then
          FfxApiResourceState.DEPTH_ATTACHMENT
        else if r.state = VK_IMAGE_LAYOUT_SHADER_READ_ONLY_OPTIMAL then
          FfxApiResourceState.PIXEL_READ
        else if r.state = VK_IMAGE_LAYOUT_TRANSFER_SRC_OPTIMAL then FfxApiResourceState.COPY_SRC
        else if r.state = VK_IMAGE_LAYOUT_TRANSFER_DST_OPTIMAL then
          FfxApiResourceState.COPY_DEST
        else if r.state = VK_IMAGE_LAYOUT_PRESENT_SRC_KHR then FfxApiResourceState.PRESENT
        else FfxApiResourceState.COMMON
      { resource := r.GetResource, width := r.width % 4294967296,
        height := r.height % 4294967296, format := FFX_API_SURFACE_FORMAT_UNKNOWN,
        usageDepthTarget :=
          depthTarget || decide (r.state = VK_IMAGE_LAYOUT_DEPTH_STENCIL_ATTACHMENT_OPTIMAL),
        state := st }

/-- The `FfxApiRect2D` of the request. -/
structure FfxApiRect2D where
  left : Int := 0
  top : Int := 0
  width : Int := 0
  height : Int := 0
  deriving DecidableEq, Repr

/-- The fields of `ffxDispatchDescFrameGenerationPrepare` that are not floating
point. -/
structure PrepareRequest where
  frameID : Nat := 0
  motionVectors : FfxApiResource := {}
  depth : FfxApiResource := {}
  renderWidth : Nat := 0
  renderHeight : Nat := 0
  deriving DecidableEq, Repr

/-- What one `Dispatch` hands to the back end: the UI registration sent to the
swap-chain context, the fields of `ffxConfigureDescFrameGeneration` (its `flags`
as one Boolean per bit), and the prepare request when one is issued. -/
structure DispatchRequest where
  /-- The distortion field, when the descriptor is chained in. -/
  distortionField : Option FfxApiResource := none
  uiResource : FfxApiResource := {}
  /-- Whether `uiDesc.flags` carries the premultiplied-alpha bit. -/
  uiPremultipliedAlpha : Bool := false
  HUDLessColor : FfxApiResource := {}
  frameGenerationEnabled : Bool := false
  drawDebugView : Bool := false
  drawDebugTearLines : Bool := false
  drawDebugResetIndicators : Bool := false
  drawDebugPacingLines : Bool := false
  allowAsyncWorkloads : Bool := false
  generationRect : FfxApiRect2D := {}
  onlyPresentGenerated : Bool := false
  frameID : Nat := 0
  prepare : Option PrepareRequest := none
  deriving DecidableEq, Repr

/-- What one `Dispatch` call receives from the back end. -/
structure DispatchEnv where
  /-- `State::Instance().FGLastFrame`, read by `GetDispatchIndex`. -/
  fgLastFrame : Nat := 0
  /-- Return code of `VK_Configure` on the frame-generation context. -/
  configureRet : Nat := 0
  /-- Return code of the prepare `VK_Dispatch`. -/
  prepareRet : Nat := 0
  deriving DecidableEq, Repr

/-- The result of `Dispatch`: new record, new process-wide state, the request
handed to the back end (`none` when the cycle is skipped before any back-end
call) and the returned flag. -/
structure DispatchResult where
  state : FGState
  globals : Globals
  request : Option DispatchRequest
  result : Bool

/-- `FSRFG_Vk::Dispatch`, lines 306 to 405: the request assembled from the target
slot. -/
def Dispatch_request (cfg : Config) (g : Globals) (s : FGState) (fIndex : Nat)
    (willDispatchFrame : Nat) : DispatchRequest :=
  let distortion := GetResource s FG_ResourceType.Distortion fIndex
  let distortionField : Option FfxApiResource :=
    if distortion.isSome && IsResourceReady s FG_ResourceType.Distortion fIndex then
      some (GetFfxResourceFromVkResource distortion)
    else none
  let uiColor := GetResource s FG_ResourceType.UIColor fIndex
  let hudless := GetResource s FG_ResourceType.HudlessColor fIndex
  let colour : FfxApiResource × Bool × FfxApiResource :=
    if uiColor.isSome && IsResourceReady s FG_ResourceType.UIColor fIndex &&
        cfg.FGDrawUIOverFG then
      (GetFfxResourceFromVkResource uiColor, cfg.FGUIPremultipliedAlpha, {})
    else if hudless.isSome && IsResourceReady s FG_ResourceType.HudlessColor fIndex then
      ({}, false, GetFfxResourceFromVkResource hudless)
    else
      ({}, false, {})
  let bufferWidth : Int := toInt32 s._swapChainExtentWidth
  let bufferHeight : Int := toInt32 s._swapChainExtentHeight
  let defaultLeft : Int := (toInt32 (bufferWidth - s._interpolationWidth fIndex)).tdiv 2
  let defaultTop : Int := (toInt32 (bufferHeight - s._interpolationHeight fIndex)).tdiv 2
  let defaultWidth : Int := toInt32 (s._interpolationWidth fIndex)
  let defaultHeight : Int := toInt32 (s._interpolationHeight fIndex)
  let rect : FfxApiRect2D :=
    { left := cfg.FGRectLeft.getD
        (toInt32 (((s._interpolationLeft fIndex).map (fun u => (u : Int))).getD defaultLeft)),
      top := cfg.FGRectTop.getD
        (toInt32 (((s._interpolationTop fIndex).map (fun u => (u : Int))).getD defaultTop)),
      width := cfg.FGRectWidth.getD defaultWidth,
      height := cfg.FGRectHeight.getD defaultHeight }
  { distortionField := distortionField,
    uiResource := colour.1,
    uiPremultipliedAlpha := colour.2.1,
    HUDLessColor := colour.2.2,
    frameGenerationEnabled := s._isActive,
    drawDebugView := cfg.FGDebugView,
    drawDebugTearLines := cfg.FGDebugTearLines,
    drawDebugResetIndicators := cfg.FGDebugResetLines,
    drawDebugPacingLines := cfg.FGDebugPacingLines,
    allowAsyncWorkloads := cfg.FGAsync,
    generationRect := rect,
    onlyPresentGenerated := g.FGonlyGenerated,
    frameID := willDispatchFrame }

/-- `FSRFG_Vk::ConfigureFramePaceTuning`: it clears the `FSRFGFTPchanged` signal;
nothing else it does is tracked. -/
def ConfigureFramePaceTuning (g : Globals) : Globals :=
  { g with FSRFGFTPchanged := false }

/-- `FSRFG_Vk::Dispatch`, lines 434 to 531: the prepare call and the submission
of the command list, entered when the configure call succeeded and the
pipeline is active. -/
def Dispatch_prepare (env : DispatchEnv) (g : Globals) (s : FGState) (fIndex : Nat)
    (willDispatchFrame : Nat) (request : DispatchRequest) : DispatchResult :=
  let velocity := GetResource s FG_ResourceType.Velocity fIndex
  let depth := GetResource s FG_ResourceType.Depth fIndex
  if !(velocity.isSome && IsResourceReady s FG_ResourceType.Velocity fIndex) then
    { state := s, globals := g, request := some request, result := false }
  else if !(depth.isSome && IsResourceReady s FG_ResourceType.Depth fIndex) then
    { state := s, globals := g, request := some request, result := false }
  else
    let depthFfx := GetFfxResourceFromVkResource depth true
    let depthSize : Nat × Nat :=
      match depth with
      | some d => (d.width % 4294967296, d.height)
      | none => (depthFfx.width, depthFfx.height)
    let renderSize : Nat × Nat :=
      match g.currentFeature with
      | some f =>
        if g.activeFgInputIsUpscaler then (f.RenderWidth, f.RenderHeight) else depthSize
      | none => depthSize
    let prep : PrepareRequest :=
      { frameID := willDispatchFrame,
        motionVectors := GetFfxResourceFromVkResource velocity,
        depth := depthFfx,
        renderWidth := renderSize.1,
        renderHeight := renderSize.2 }
    let request := { request with prepare := some prep }
    if env.prepareRet == FFX_API_RETURN_OK then
      let s := { s with _waitingExecute := Function.update s._waitingExecute fIndex true }
      let e := ExecuteCommandList s fIndex
      { state := e.1, globals := g, request := some request, result := e.2 }
    else
      { state := s, globals := g, request := some request, result := false }

/-- `FSRFG_Vk::Dispatch`. -/
def Dispatch (cfg : Config) (env : DispatchEnv) (g : Globals) (s : FGState) : DispatchResult :=
  if s._fgContext == 0 then
    { state := s, globals := g, request := none, result := false }
  else
    let d := GetDispatchIndex cfg env.fgLastFrame s 0
    let s := d.1
    let willDispatchFrame := d.2.1
    if d.2.2 < 0 then
      { state := s, globals := g, request := none, result := false }
    else if !IsActive s || IsPaused s then
      { state := s, globals := g, request := none, result := false }
    else
      let fIndex : Nat := d.2.2.toNat
      let g := if g.FSRFGFTPchanged then ConfigureFramePaceTuning g else g
      if s._resourceReady fIndex FG_ResourceType.Depth != some true ||
          s._resourceReady fIndex FG_ResourceType.Velocity != some true then
        { state := s, globals := g, request := none, result := false }
      else
        let request := Dispatch_request cfg g s fIndex willDispatchFrame
        let hud : FGState × Globals :=
          if request.HUDLessColor.resource != 0 then
            let format := request.HUDLessColor.format
            let localLastHudlessFormat := g.Dispatch_localLastHudlessFormat.getD format
            let s := { s with _lastHudlessFormat := format }
            let g := if localLastHudlessFormat != s._lastHudlessFormat then
                { g with FGchanged := true, SCchanged := true }
              else g
            (s, { g with Dispatch_localLastHudlessFormat := some s._lastHudlessFormat })
          else (s, g)
        if env.configureRet == FFX_API_RETURN_OK && hud.1._isActive then
          Dispatch_prepare env hud.2 hud.1 fIndex willDispatchFrame request
        else
          { state := hud.1, globals := hud.2, request := some request, result := false }

/-- What one `Present` call receives from outside the record. -/
structure PresentEnv where
  dispatch : DispatchEnv := {}
  /-- Return code of the configure call made by the automatic pause. -/
  deactivateRet : Nat := 0
  /-- Whether `State::Instance().FGHudlessCompare` is set. -/
  FGHudlessCompare : Bool := false
  /-- Result of `HC_Vk::IsInit`. -/
  hudlessCompareIsInit : Bool := true
  uiCommandList : UICommandListEnv := {}
  deriving DecidableEq, Repr

/-- `FSRFG_Vk::Present`.  The shader dispatch of the hudless comparison and the
flush of the UI command list touch no tracked member. -/
def Present (cfg : Config) (env : PresentEnv) (g : Globals) (s : FGState) : DispatchResult :=
  let fIndex := (GetIndexWillBeDispatched cfg s).2
  let s :=
    if IsActive s && !IsPaused s && env.FGHudlessCompare then
      match GetResource s FG_ResourceType.HudlessColor fIndex with
      | some _ =>
        if !s._hudlessCompare then { s with _hudlessCompare := true }
        else if env.hudlessCompareIsInit then (GetUICommandList env.uiCommandList s).1
        else s
      | none => s
    else s
  if decide (u64sub s._fgFramePresentId s._lastFGFramePresentId > 3) && IsActive s &&
      !s._waitingNewFrameData then
    let s := Deactivate env.deactivateRet s
    { state := { s with _waitingNewFrameData := true }, globals := g, request := none,
      result := false }
  else
    Dispatch cfg env.dispatch g { s with _fgFramePresentId := u64add s._fgFramePresentId 1 }

/-! ## The back end's callback, `FSRFG_Vk::DispatchCallback` -/

/-- The fields of `ffxDispatchDescFrameGeneration` the callback reads or
writes; `presentColorFormat` is `presentColor.description.format`. -/
structure ffxDispatchDescFrameGeneration where
  frameID : Nat := 0
  reset : Bool := false
  numGeneratedFrames : Nat := 1
  presentColorFormat : Int := FFX_API_SURFACE_FORMAT_UNKNOWN
  deriving DecidableEq, Repr

/-- The result of `DispatchCallback`: the record and the process-wide state
after the call, the descriptor as the callback leaves it, the descriptor handed
to the back end's dispatch (`none` when that call is not made) and the return
code. -/
structure CallbackResult where
  state : FGState
  globals : Globals
  params : ffxDispatchDescFrameGeneration
  forwarded : Option ffxDispatchDescFrameGeneration
  result : Nat

/-- `FSRFG_Vk::DispatchCallback`, lines 535 to 567: the reset flag and the three
cancellation checks that precede the format check. -/
def DispatchCallback_guards (cfg : Config) (g : Globals) (s : FGState)
    (params : ffxDispatchDescFrameGeneration) : ffxDispatchDescFrameGeneration :=
  let fIndex : Nat := params.frameID % BUFFER_COUNT
  let params :=
    if !cfg.FGSkipReset then { params with reset := decide (s._reset fIndex ≠ 0) }
    else { params with reset := false }
  let params :=
    if !cfg.FGEnabled || s._fgContext == 0 || g.SCchanged then
      { params with numGeneratedFrames := 0 }
    else params
  let params :=
    if (g.currentFeature.isNone && g.activeFgInputIsUpscaler) || g.FGchanged ||
        decide ((fIndex : Int) < 0) || !IsActive s ||
        (g.currentFeature.map (fun f => f.FrameCount)) == some 0 then
      { params with numGeneratedFrames := 0 }
    else params
  if params.frameID == g.DispatchCallback_lastFrameId then
    { params with numGeneratedFrames := 0 }
  else params

/-- `FSRFG_Vk::DispatchCallback`; `dispatchRet` is the return code of the back
end's dispatch call. -/
def DispatchCallback (cfg : Config) (dispatchRet : Nat) (g : Globals) (s : FGState)
    (params : ffxDispatchDescFrameGeneration) : CallbackResult :=
  let params := DispatchCallback_guards cfg g s params
  let scFormat := params.presentColorFormat
  let lhFormat := s._lastHudlessFormat
  let uhFormat := s._usingHudlessFormat
  if s._lastHudlessFormat != FFX_API_SURFACE_FORMAT_UNKNOWN && lhFormat != scFormat &&
      (s._usingHudlessFormat == FFX_API_SURFACE_FORMAT_UNKNOWN || uhFormat != lhFormat) then
    let params := { params with numGeneratedFrames := 0 }
    { state := s,
      globals := { g with DispatchCallback_lastFrameId := params.frameID, FGchanged := true,
                          SCchanged := true },
      params := params, forwarded := none, result := FFX_API_RETURN_OK }
  else
    { state := s,
      globals := { g with DispatchCallback_lastFrameId := params.frameID },
      params := params, forwarded := some params, result := dispatchRet }

/-! ## The evaluation tick, `FSRFG_Vk::EvaluateState` -/

/-- What one `EvaluateState` call receives: its arguments and the values handed
back by the back end. -/
structure EvaluateStateEnv where
  device : Nat := 1
  displayWidth : Nat := 0
  displayHeight : Nat := 0
  flags : Nat := 0
  /-- The value of `fgConstants.flags & FG_Flags::InfiniteDepth` as a Boolean. -/
  infiniteDepth : Bool := false
  /-- The value of `FfxApiProxy::IsFGReady()` after the optional `InitFfxVk`. -/
  fgReady : Bool := true
  /-- The back-end outcomes of the `CreateContext` call. -/
  createContext : CreateContextEnv := {}
  /-- Return code of the configure call of the `Deactivate` calls of the tick. -/
  deactivateRet : Nat := 0
  /-- Return code of the configure call of the `Deactivate` inside
  `DestroyFGContext`. -/
  destroyDeactivateRet : Nat := 0
  /-- Return code of the configure call of `Activate`. -/
  activateRet : Nat := 0
  deriving DecidableEq, Repr

/-- `FSRFG_Vk::EvaluateState`, lines 1083 to 1116: the transitions taken from the
configuration and the change signals. -/
def EvaluateState_transitions (cfg : Config) (env : EvaluateStateEnv) (g : Globals)
    (s : FGState) : FGState × Globals :=
  if cfg.FGEnabled then
    let s :=
      if s._fgContext == 0 then
        let ce : CreateContextEnv :=
          { env.createContext with device := env.device, displayWidth := env.displayWidth,
                                   displayHeight := env.displayHeight, flags := env.flags }
        UpdateTarget (CreateContext ce s)
      else if g.FGchanged then
        let s := UpdateTarget (Deactivate env.deactivateRet s)
        if g.SCchanged then DestroyFGContext env.destroyDeactivateRet s else s
      else s
    let s :=
      if s._fgContext != 0 && g.activeFgInputIsUpscaler && !IsPaused s && !IsActive s then
        Activate env.activateRet s
      else s
    (s, g)
  else if IsActive s then
    (Deactivate env.deactivateRet s, { g with ClearCapturedHudlesses := true })
  else
    (s, g)

/-- `FSRFG_Vk::EvaluateState`. -/
def EvaluateState (cfg : Config) (env : EvaluateStateEnv) (g : Globals) (s : FGState) :
    FGState × Globals :=
  let s := { s with _constantsDisplayWidth := env.displayWidth,
                    _constantsDisplayHeight := env.displayHeight,
                    _constantsFlags := env.flags }
  if !env.fgReady || g.currentVkFGSwapchain == 0 then
    (s, g)
  else if g.isShuttingDown then
    (DestroyFGContext env.destroyDeactivateRet s, g)
  else
    let currentInfiniteDepth := env.infiniteDepth
    let g :=
      if g.EvaluateState_lastInfiniteDepth != currentInfiniteDepth then
        { g with EvaluateState_lastInfiniteDepth := currentInfiniteDepth, FGchanged := true,
                 SCchanged := true }
      else g
    let g :=
      if s._maxRenderWidth != 0 && s._maxRenderHeight != 0 && IsActive s && !IsPaused s &&
          (decide (env.displayWidth > s._maxRenderWidth) ||
            decide (env.displayHeight > s._maxRenderHeight)) then
        { g with FGchanged := true, SCchanged := true }
      else g
    let t := EvaluateState_transitions cfg env g s
    let s := t.1
    let g := t.2
    let r : FGState × Globals :=
      if g.FGchanged then (UpdateTarget s, { g with FGchanged := false }) else (s, g)
    (r.1, { r.2 with SCchanged := false })

/-! ## Runs of the pipeline -/

/-- One call on the pipeline object, with the values the call receives from
outside the record. -/
inductive PipelineOp where
  | StartNewFrame (activateRet : Nat)
  | GetDispatchIndex (fgLastFrame : Nat)
  | Activate (ret : Nat)
  | Deactivate (ret : Nat)
  | CreateContext (env : CreateContextEnv)
  | DestroyFGContext (deactivateRet : Nat)
  | SetResource (env : SetResourceEnv) (inputResource : Option VkResource)
  deriving DecidableEq, Repr

/-- Whether the call is `DestroyFGContext`. -/
def PipelineOp.isDestroy : PipelineOp → Bool
  | PipelineOp.DestroyFGContext _ => true
  | _ => false

/-- Whether the call is one of those that write `_lastDispatchedFrame = 0`
(`Activate`, `CreateContext`). -/
def PipelineOp.isReset : PipelineOp → Bool
  | PipelineOp.Activate _ => true
  | PipelineOp.CreateContext _ => true
  | _ => false

/-- Whether the call is `GetDispatchIndex`. -/
def PipelineOp.isDispatchIndex : PipelineOp → Bool
  | PipelineOp.GetDispatchIndex _ => true
  | _ => false

/-- The record after one call; `none` when `SetResource` is handed a slot index
outside the ring. -/
def step (cfg : Config) (s : FGState) : PipelineOp → Option FGState
  | PipelineOp.StartNewFrame activateRet => some (StartNewFrame activateRet s).1
  | PipelineOp.GetDispatchIndex fgLastFrame => some (GetDispatchIndex cfg fgLastFrame s 0).1
  | PipelineOp.Activate ret => some (Activate ret s)
  | PipelineOp.Deactivate ret => some (Deactivate ret s)
  | PipelineOp.CreateContext env => some (CreateContext env s)
  | PipelineOp.DestroyFGContext deactivateRet => some (DestroyFGContext deactivateRet s)
  | PipelineOp.SetResource env inputResource =>
      (SetResource cfg env s inputResource).map (fun r => r.1)

/-- The record after a sequence of calls. -/
def run (cfg : Config) (s : FGState) : List PipelineOp → Option FGState
  | [] => some s
  | op :: ops =>
    match step cfg s op with
    | none => none
    | some s1 => run cfg s1 ops

/-- The values of `_lastDispatchedFrame` read after each `GetDispatchIndex` call
of a sequence of calls, in order. -/
def dispatchedAfter (cfg : Config) (s : FGState) : List PipelineOp → Option (List Nat)
  | [] => some []
  | op :: ops =>
    match step cfg s op with
    | none => none
    | some s1 =>
      match dispatchedAfter cfg s1 ops with
      | none => none
      | some obs =>
        some (if op.isDispatchIndex then s1._lastDispatchedFrame :: obs else obs)

/-- What one tick of the lock-step scenario receives from outside. -/
structure TickInput where
  activateRet : Nat := 0
  env : SetResourceEnv := {}
  /-- The reported resource; the tick reports it as Depth for the current slot. -/
  report : VkResource := {}
  fgLastFrame : Nat := 0
  deriving DecidableEq, Repr

/-- One tick of the lock-step scenario: `StartNewFrame`, a Depth report for the
current slot through `SetResource`, then `GetDispatchIndex`.  The result is the
new record, the frame reported for dispatch and the returned slot. -/
def lockStepTick (cfg : Config) (i : TickInput) (s : FGState) : Option (FGState × Nat × Int) :=
  let s1 := (StartNewFrame i.activateRet s).1
  let depth : VkResource := { i.report with type := FG_ResourceType.Depth, frameIndex := -1 }
  match SetResource cfg i.env s1 (some depth) with
  | none => none
  | some r => some (GetDispatchIndex cfg i.fgLastFrame r.1 0)

/-- The first `n` ticks of the lock-step scenario, tick `k + 1` receiving
`inputs k`: the final record and the list of (dispatched frame, slot) pairs. -/
def lockStepRun (cfg : Config) (inputs : Nat → TickInput) (s : FGState) :
    Nat → Option (FGState × List (Nat × Int))
  | 0 => some (s, [])
  | n + 1 =>
    match lockStepRun cfg inputs s n with
    | none => none
    | some (sn, hist) =>
      match lockStepTick cfg (inputs n) sn with
      | none => none
      | some r => some (r.1, hist ++ [(r.2.1, r.2.2)])

/-- The frame counters and activity flags of a record. -/
def counters (s : FGState) : Nat × Nat × Nat × Bool × Bool :=
  (s._frameCount, s._lastDispatchedFrame, s._targetFrame, s._isActive, s._waitingNewFrameData)

/-! ## Reference definitions taken from the specification -/

/-- The target of the drift-correcting selection in the words of the
specification (section 4.2), over the integers: `diff` is the difference
`frameCount - lastDispatchedFrame`, which is negative when `lastDispatchedFrame`
is ahead, `2*allowedAhead` is the exact double, and `diff/2` is integer
division. -/
def spec_target (frameCount lastDispatchedFrame allowedAhead : Int) (hasDepth : Bool) : Int :=
  let diff := frameCount - lastDispatchedFrame
  if diff > allowedAhead ∨ diff < 0 ∨ lastDispatchedFrame = 0 then
    if hasDepth then frameCount
    else if diff > 2 * allowedAhead then lastDispatchedFrame + diff / 2
    else lastDispatchedFrame + 1
  else lastDispatchedFrame + 1

/-- The result of the read-only query in the words of the specification
(section 4.2): `target mod N` for the ring of `N = 4` slots. -/
def spec_slot (frameCount lastDispatchedFrame allowedAhead : Int) (hasDepth : Bool) : Int :=
  spec_target frameCount lastDispatchedFrame allowedAhead hasDepth % 4

/-- The new `lastDispatchedFrame` of `StartNewFrame` as the specification states
it, from the old counters and the two activity flags, on 64-bit unsigned
counters. -/
def spec_StartNewFrame_lastDispatched (frameCount lastDispatchedFrame : Nat)
    (active awaitingData : Bool) : Nat :=
  let frameCount1 := u64add frameCount 1
  let gap := u64sub frameCount1 lastDispatchedFrame
  let threshold := if active ∨ awaitingData then 20 else 100
  if active ∧ lastDispatchedFrame > 0 ∧ gap > threshold then
    (if frameCount1 > 5 then u64sub frameCount1 5 else u64sub frameCount1 1)
  else if lastDispatchedFrame = 0 then u64sub frameCount1 1
  else if active ∧ gap > 15 then u64add lastDispatchedFrame (gap / 2)
  else lastDispatchedFrame

/-! ## Example states -/

/-- A record with the given `_frameCount` and `_lastDispatchedFrame`, everything
else as freshly constructed. -/
def countersState (frameCount lastDispatchedFrame : Nat) : FGState :=
  { _frameCount := frameCount, _lastDispatchedFrame := lastDispatchedFrame }

/-- A Depth entry as `SetResource` stores it for a resource reported valid
until present. -/
def depthEntry : VkResource :=
  { type := FG_ResourceType.Depth, image := 1, validity := FG_ResourceValidity.UntilPresent }

/-- The record `countersState frameCount lastDispatchedFrame` with a Depth entry
in the current slot. -/
def countersStateWithDepth (frameCount lastDispatchedFrame : Nat) : FGState :=
  setFrameResource (countersState frameCount lastDispatchedFrame)
    (frameCount % BUFFER_COUNT) FG_ResourceType.Depth depthEntry

/-- A configuration with the given allowed-frames-ahead count, everything else
at its default. -/
def cfgAhead (allowedAhead : Nat) (fits : allowedAhead < 2147483648 := by decide) : Config :=
  { FGAllowedFrameAhead := allowedAhead, FGAllowedFrameAhead_fits := fits }

/-- A record that is active, at frame 9, whose slot 1 holds a Depth capture of
validity `ValidNow`. -/
def capturedState : FGState :=
  setFrameResource { _frameCount := 9, _lastDispatchedFrame := 8, _isActive := true } 1
    FG_ResourceType.Depth { type := FG_ResourceType.Depth, image := 5, cmdBuffer := 3, copy := 6 }

/-- A second Depth report for the current slot. -/
def secondDepthReport : VkResource :=
  { type := FG_ResourceType.Depth, image := 7, cmdBuffer := 3 }

/-- A run that creates the context, dispatches two frames in lock step and then
destroys the context. -/
def destroyTrace : List PipelineOp :=
  [PipelineOp.CreateContext {}, PipelineOp.StartNewFrame 0, PipelineOp.GetDispatchIndex 0,
   PipelineOp.StartNewFrame 0, PipelineOp.GetDispatchIndex 0, PipelineOp.DestroyFGContext 0]

/-- The run `destroyTrace` followed by a new context and one more dispatch
query. -/
def recreateTrace : List PipelineOp :=
  destroyTrace ++ [PipelineOp.CreateContext {}, PipelineOp.GetDispatchIndex 0]

/-- A run that creates the context and dispatches one frame. -/
def warmupTrace : List PipelineOp :=
  [PipelineOp.CreateContext {}, PipelineOp.StartNewFrame 0, PipelineOp.GetDispatchIndex 0]

/-- Three frames admitted, a dispatch query after the first and the third. -/
def steadyTrace : List PipelineOp :=
  [PipelineOp.StartNewFrame 0, PipelineOp.GetDispatchIndex 0, PipelineOp.StartNewFrame 0,
   PipelineOp.Deactivate 0, PipelineOp.StartNewFrame 0, PipelineOp.GetDispatchIndex 0]

/-- The record after `warmupTrace` from the initial state. -/
def warmState : FGState := (run (cfgAhead 1) initialState warmupTrace).getD initialState

/-- The record after `steadyTrace` from `warmState`. -/
def steadyState : FGState := (run (cfgAhead 1) warmState steadyTrace).getD initialState

/-- The drift invariant along a run: `_lastDispatchedFrame <= _frameCount`, at
most `k` frames admitted so far, and the pipeline not awaiting new frame data. -/
def driftInv (s : FGState) (k : Nat) : Prop :=
  s._lastDispatchedFrame ≤ s._frameCount ∧ s._frameCount ≤ k ∧ s._waitingNewFrameData = false

/-- The record after `k` further `StartNewFrame` calls, call `j + 1` receiving
the return code `activateRet j`. -/
def StartNewFrames (activateRet : Nat → Nat) (s : FGState) : Nat → FGState
  | 0 => s
  | k + 1 => (StartNewFrame (activateRet k) (StartNewFrames activateRet s k)).1

/-- The entries of the resource registry other than the one of slot `i` and type
`ty`. -/
def frameResourcesExcept (s : FGState) (i : Nat) (ty : FG_ResourceType) :
    Nat → FG_ResourceType → Option VkResource :=
  fun j t => if j = i ∧ t = ty then none else s._frameResources j t

/-- What holds of the entry of slot `i` and type `ty` after an accepted report of
validity `reported` and image `image`: the entry is there with the reported
type and image, its validity is `ValidNow` or `UntilPresent`, and when it is
`ValidNow` the report was `ValidNow` or `ValidButMakeCopy` and the copy step
succeeded and left its image in the entry and in `_resourceCopy`. -/
def storedEntryLaw (env : SetResourceEnv) (reported : FG_ResourceValidity) (image : Nat)
    (s1 : FGState) (i : Nat) (ty : FG_ResourceType) : Prop :=
  ∃ r, s1._frameResources i ty = some r ∧ r.type = ty ∧ r.image = image ∧
    (r.validity = FG_ResourceValidity.ValidNow ∨ r.validity = FG_ResourceValidity.UntilPresent) ∧
    (r.validity = FG_ResourceValidity.ValidNow →
      (reported = FG_ResourceValidity.ValidNow ∨
        reported = FG_ResourceValidity.ValidButMakeCopy) ∧
      env.copyCreateOk = true ∧ r.copy = env.copyCreated ∧
      r.state = VK_IMAGE_LAYOUT_TRANSFER_DST_OPTIMAL ∧
      s1._resourceCopy i ty = some env.copyCreated)

/-- An active pipeline with a context, four presents after its last new frame. -/
def presentedState : FGState :=
  { _frameCount := 9, _lastDispatchedFrame := 9, _isActive := true, _fgContext := 1,
    _swapChain := 1, _device := 1, _fgFramePresentId := 4 }

/-- The record after the fifth present: the automatic pause has deactivated the
pipeline and set the awaiting-data flag. -/
def autoPausedState : FGState := (Present {} {} {} presentedState).state

/-- A configuration with frame generation disabled. -/
def cfgDisabled : Config := { FGEnabled := false }

/-- Process-wide state with a frame-generation swap chain. -/
def globalsWithSwapchain : Globals := { currentVkFGSwapchain := 1 }

/-- A callback descriptor for frame 5 asking for one generated frame. -/
def callbackParams5 : ffxDispatchDescFrameGeneration := { frameID := 5 }

/-- A callback descriptor for frame 42 asking for one generated frame. -/
def callbackParams42 : ffxDispatchDescFrameGeneration := { frameID := 42 }

/-- An inactive pipeline with a context, one frame behind. -/
def inactiveBehindState : FGState :=
  { _frameCount := 6, _lastDispatchedFrame := 5, _fgContext := 1 }

/-- An active pipeline at frame 5 whose last dispatched frame is 3. -/
def activeBehindState : FGState :=
  { _frameCount := 5, _lastDispatchedFrame := 3, _isActive := true, _fgContext := 1,
    _device := 1 }

/-- A Depth report for the current slot, valid until present. -/
def depthReport : VkResource :=
  { type := FG_ResourceType.Depth, image := 7, validity := FG_ResourceValidity.UntilPresent }

/-- A Depth report for the current slot, valid now, with a command buffer. -/
def depthReportValidNow : VkResource :=
  { type := FG_ResourceType.Depth, image := 7, cmdBuffer := 3 }

/-- A `SetResource` environment in which resource flipping applies. -/
def flipEnv : SetResourceEnv := { activeFgInputIsUpscaler := true }

/-- A configuration with resource flipping enabled. -/
def cfgFlip : Config := { FGResourceFlip := true }

/-- The record after `depthReport` has been reported to `activeBehindState`. -/
def afterDepthReport : FGState :=
  ((SetResource {} {} activeBehindState (some depthReport)).getD (activeBehindState, false)).1

/-- The record after `depthReportValidNow` has been reported to
`activeBehindState`. -/
def afterDepthReportValidNow : FGState :=
  ((SetResource {} {} activeBehindState (some depthReportValidNow)).getD
    (activeBehindState, false)).1

/-- The record after `depthReport` has been reported to `activeBehindState` with
resource flipping in force. -/
def afterFlippedDepthReport : FGState :=
  ((SetResource cfgFlip flipEnv activeBehindState (some depthReport)).getD
    (activeBehindState, false)).1

/-- An active pipeline whose `_frameCount` is the largest 64-bit value, with
`_lastDispatchedFrame = 1`. -/
def wrapActiveState : FGState :=
  { _frameCount := U64_MOD - 1, _lastDispatchedFrame := 1, _isActive := true }

/-- An active pipeline at frame 70 whose last dispatched frame is 10. -/
def activeJumpState : FGState :=
  { _frameCount := 70, _lastDispatchedFrame := 10, _isActive := true }

/-- A record whose last hudless format (3) is known and differs from the format
in use (unknown). -/
def hudlessChangedState : FGState :=
  { _frameCount := 9, _lastDispatchedFrame := 9, _isActive := true, _fgContext := 1,
    _lastHudlessFormat := 3 }

/-- A `SetResource` environment in which the copy step fails. -/
def copyFailEnv : SetResourceEnv := { copyCreateOk := false }

/-- The record after `depthReportValidNow` has been reported to
`activeBehindState` with a failing copy step. -/
def afterFailedCopy : FGState :=
  ((SetResource {} copyFailEnv activeBehindState (some depthReportValidNow)).getD
    (activeBehindState, true)).1

/-- A UI colour report for the current slot, valid now, with a command buffer. -/
def uiReportValidNow : VkResource :=
  { type := FG_ResourceType.UIColor, image := 8, cmdBuffer := 3 }

/-- The record after `uiReportValidNow` has been reported to `activeBehindState`
with a failing copy step. -/
def afterFailedUiCopy : FGState :=
  ((SetResource {} copyFailEnv activeBehindState (some uiReportValidNow)).getD
    (activeBehindState, true)).1

/-- Readiness implies presence: every type marked in the readiness set of a slot
has an entry in the resource map of that slot. -/
def readyImpliesPresent (s : FGState) : Prop :=
  ∀ (i : Nat) (ty : FG_ResourceType),
    (s._resourceReady i ty).isSome = true → (s._frameResources i ty).isSome = true

/-- A run that creates the context, admits a frame and reports Depth for it. -/
def readyTrace : List PipelineOp :=
  [PipelineOp.CreateContext {}, PipelineOp.StartNewFrame 0,
   PipelineOp.SetResource {} (some depthReport)]

/-- The record after `readyTrace` from the initial state. -/
def readyState : FGState := (run {} initialState readyTrace).getD initialState

/-- A UI colour entry and a hudless colour entry as `SetResource` stores them. -/
def uiEntry : VkResource :=
  { type := FG_ResourceType.UIColor, image := 8, validity := FG_ResourceValidity.UntilPresent }

/-- A hudless colour entry as `SetResource` stores it. -/
def hudlessEntry : VkResource :=
  { type := FG_ResourceType.HudlessColor, image := 9,
    validity := FG_ResourceValidity.UntilPresent }

/-- The readiness set of a slot in which every type is marked. -/
def allReady : FG_ResourceType → Option Bool := fun _ => some true

/-- The resource map of a slot holding Depth, Velocity, a UI colour and a
hudless colour. -/
def fullSlot : FG_ResourceType → Option VkResource
  | FG_ResourceType.Depth => some depthEntry
  | FG_ResourceType.Velocity => some { depthEntry with type := FG_ResourceType.Velocity }
  | FG_ResourceType.UIColor => some uiEntry
  | FG_ResourceType.HudlessColor => some hudlessEntry
  | FG_ResourceType.Distortion => none

/-- An active pipeline at frame 6, frame 5 dispatched last, whose slot 2 holds
every colour input, ready; the swap chain is 1920 by 1080 and the slot reports
an interpolation size of 1280 by 721. -/
def dispatchReadyState : FGState :=
  { _frameCount := 6, _lastDispatchedFrame := 5, _isActive := true, _fgContext := 1,
    _swapChain := 1, _device := 1,
    _resourceReady := fun i => if i = 2 then allReady else fun _ => none,
    _frameResources := fun i => if i = 2 then fullSlot else fun _ => none,
    _swapChainExtentWidth := 1920, _swapChainExtentHeight := 1080,
    _interpolationWidth := fun _ => 1280, _interpolationHeight := fun _ => 721 }

/-- A configuration with UI-over-FG compositing enabled. -/
def cfgDrawUI : Config := { FGDrawUIOverFG := true }

/-- The request `Dispatch` assembles from `dispatchReadyState` with UI-over-FG
compositing enabled. -/
def uiRequest : DispatchRequest :=
  (Dispatch cfgDrawUI {} {} dispatchReadyState).request.getD {}

/-- The record and the process-wide state after `k` consecutive `Present` calls,
call `j + 1` receiving `envs j`. -/
def Presents (cfg : Config) (envs : Nat → PresentEnv) (g : Globals) (s : FGState) :
    Nat → FGState × Globals
  | 0 => (s, g)
  | k + 1 =>
    ((Present cfg (envs k) (Presents cfg envs g s k).2 (Presents cfg envs g s k).1).state,
      (Present cfg (envs k) (Presents cfg envs g s k).2 (Presents cfg envs g s k).1).globals)

/-- The members the automatic pause of `Present` reads: the two activity flags,
the present id, the id latched at the last new frame, and the context. -/
def pauseView (s : FGState) : Bool × Bool × Nat × Nat × Nat :=
  (s._isActive, s._waitingNewFrameData, s._fgFramePresentId, s._lastFGFramePresentId,
    s._fgContext)

/-- The record and the process-wide state after `StartNewFrame` on
`presentedState` and four `Present` calls. -/
def fourPresents : FGState × Globals :=
  Presents {} (fun _ => {}) {} (StartNewFrame 0 presentedState).1 4

/-- A Velocity report for the current slot, valid until present. -/
def velocityReport : VkResource :=
  { type := FG_ResourceType.Velocity, image := 6, validity := FG_ResourceValidity.UntilPresent }

/-- A run that creates the context, admits the first frame and reports Depth
and Velocity for it. -/
def rectTrace : List PipelineOp :=
  [PipelineOp.CreateContext {}, PipelineOp.StartNewFrame 0,
   PipelineOp.SetResource {} (some depthReport), PipelineOp.SetResource {} (some velocityReport)]

/-- The record after `rectTrace` from the initial state and a
`SetInterpolationRect` of 1280 by 720 for the current slot; no position is
reported. -/
def zeroExtentState : FGState :=
  SetInterpolationRect ((run {} initialState rectTrace).getD initialState) 1280 720

/-- A run that creates the context, admits and dispatches five frames,
deactivates the pipeline and admits a sixth frame. -/
def deactivatedTrace : List PipelineOp :=
  [PipelineOp.CreateContext {},
   PipelineOp.StartNewFrame 0, PipelineOp.GetDispatchIndex 0,
   PipelineOp.StartNewFrame 0, PipelineOp.GetDispatchIndex 0,
   PipelineOp.StartNewFrame 0, PipelineOp.GetDispatchIndex 0,
   PipelineOp.StartNewFrame 0, PipelineOp.GetDispatchIndex 0,
   PipelineOp.StartNewFrame 0, PipelineOp.GetDispatchIndex 0,
   PipelineOp.Deactivate 0, PipelineOp.StartNewFrame 0]

/-- The record after `deactivatedTrace` from the initial state. -/
def deactivatedState : FGState := (run {} initialState deactivatedTrace).getD initialState

/-- A `Present` environment in which the configure call of `Deactivate` fails. -/
def failingDeactivateEnv : PresentEnv := { deactivateRet := 1 }

/-! ## Arithmetic of the wrapping counters -/

theorem u64sub_self (a : Nat) : u64sub a a = 0 := by
  unfold u64sub U64_MOD
  omega

theorem u64sub_of_le {a b : Nat} (hb : b ≤ a) (ha : a < U64_MOD) : u64sub a b = a - b := by
  unfold u64sub
  unfold U64_MOD at *
  omega

theorem u64add_of_lt {a b : Nat} (h : a + b < U64_MOD) : u64add a b = a + b := by
  unfold u64add
  exact Nat.mod_eq_of_lt h

/-- After a halving step the remaining wrapped distance is the upper half of
the old one. -/
theorem u64sub_halving (f l : Nat) :
    u64sub f (u64add l (u64sub f l / 2)) = u64sub f l - u64sub f l / 2 := by
  unfold u64sub u64add U64_MOD
  omega

/-! ## The dispatch indexer -/

/-- When the double of the count fits a 32-bit signed integer, the `int` product
`allowedAhead * 2`, converted to `UINT64`, is the exact double. -/
theorem toU64_double_of_fits (a : Nat) (h : 2 * a < 2147483648) :
    toU64 (toInt32 ((a : Int) * 2)) = a * 2 := by
  unfold toU64 toInt32 U64_MOD
  omega

/-- For every non-negative 32-bit count the `int` product `allowedAhead * 2`,
converted to `UINT64`, is at least the count itself: either it is the exact
double, or it has wrapped to a negative `int`, which converts to a value of
`2^64 - 2^31` or more. -/
theorem toU64_double_ge (a : Nat) (h : a < 2147483648) :
    a ≤ toU64 (toInt32 ((a : Int) * 2)) := by
  unfold toU64 toInt32 U64_MOD
  omega

/-- On an already dispatched frame `GetDispatchIndex` is the identity. -/
theorem GetDispatchIndex_noop_of_eq (cfg : Config) (fgLastFrame : Nat) (s : FGState)
    (willDispatchFrame : Nat) (h : s._frameCount = s._lastDispatchedFrame) :
    GetDispatchIndex cfg fgLastFrame s willDispatchFrame = (s, willDispatchFrame, -1) := by
  unfold GetDispatchIndex
  simp [h]

/-- The frame `t` selected by `GetIndexWillBeDispatched` is the one
`GetDispatchIndex` commits on a new frame, and it is one of `_frameCount` (jump
test passed, Depth in the current slot), `_lastDispatchedFrame + diff / 2` (jump
test passed, no Depth, `diff` above the doubled count as the code forms it) and
`_lastDispatchedFrame + 1` (otherwise). -/
theorem selection_shape (cfg : Config) (fgLastFrame : Nat) (s : FGState) (w : Nat) :
    ∃ t : Nat,
      GetIndexWillBeDispatched cfg s = (s, ((t % 4 : Nat) : Int)) ∧
      (s._frameCount ≠ s._lastDispatchedFrame →
        GetDispatchIndex cfg fgLastFrame s w =
          ({ s with _lastDispatchedFrame := t, _lastFGFrame := fgLastFrame }, t,
            ((t % 4 : Nat) : Int))) ∧
      ((t = s._frameCount ∧ HasResource s FG_ResourceType.Depth = true ∧
          (u64sub s._frameCount s._lastDispatchedFrame > cfg.FGAllowedFrameAhead ∨
            s._lastDispatchedFrame = 0)) ∨
        (t = u64add s._lastDispatchedFrame (u64sub s._frameCount s._lastDispatchedFrame / 2) ∧
          HasResource s FG_ResourceType.Depth = false ∧
          (u64sub s._frameCount s._lastDispatchedFrame > cfg.FGAllowedFrameAhead ∨
            s._lastDispatchedFrame = 0) ∧
          u64sub s._frameCount s._lastDispatchedFrame >
            toU64 (toInt32 ((cfg.FGAllowedFrameAhead : Int) * 2))) ∨
        (t = u64add s._lastDispatchedFrame 1 ∧
          ((¬ u64sub s._frameCount s._lastDispatchedFrame > cfg.FGAllowedFrameAhead ∧
              s._lastDispatchedFrame ≠ 0) ∨
            (HasResource s FG_ResourceType.Depth = false ∧
              ¬ u64sub s._frameCount s._lastDispatchedFrame >
                toU64 (toInt32 ((cfg.FGAllowedFrameAhead : Int) * 2)))))) := by
  by_cases h1 : u64sub s._frameCount s._lastDispatchedFrame > cfg.FGAllowedFrameAhead ∨
      s._lastDispatchedFrame = 0
  · have hg : (decide (u64sub s._frameCount s._lastDispatchedFrame > cfg.FGAllowedFrameAhead) ||
        decide (u64sub s._frameCount s._lastDispatchedFrame < 0) ||
        s._lastDispatchedFrame == 0) = true := by
      rcases h1 with h | h
      · simp [h]
      · simp [h]
    by_cases hd : HasResource s FG_ResourceType.Depth = true
    · refine ⟨s._frameCount, ?_, ?_, Or.inl ⟨rfl, hd, h1⟩⟩
      · unfold GetIndexWillBeDispatched
        simp only [hg, hd, if_true, BUFFER_COUNT]
      · intro hne
        have hb : (s._frameCount == s._lastDispatchedFrame) = false := by simpa using hne
        unfold GetDispatchIndex
        simp only [hb, hg, hd, if_true, BUFFER_COUNT, Bool.false_eq_true, if_false]
    · have hd' : HasResource s FG_ResourceType.Depth = false := by simpa using hd
      by_cases h2 : u64sub s._frameCount s._lastDispatchedFrame >
          toU64 (toInt32 ((cfg.FGAllowedFrameAhead : Int) * 2))
      · refine ⟨u64add s._lastDispatchedFrame (u64sub s._frameCount s._lastDispatchedFrame / 2),
          ?_, ?_, Or.inr (Or.inl ⟨rfl, hd', h1, h2⟩)⟩
        · unfold GetIndexWillBeDispatched
          simp only [hg, hd', h2, if_true, BUFFER_COUNT, Bool.false_eq_true, if_false]
        · intro hne
          have hb : (s._frameCount == s._lastDispatchedFrame) = false := by simpa using hne
          unfold GetDispatchIndex
          simp only [hb, hg, hd', h2, if_true, BUFFER_COUNT, Bool.false_eq_true, if_false]
      · refine ⟨u64add s._lastDispatchedFrame 1, ?_, ?_, Or.inr (Or.inr ⟨rfl, Or.inr ⟨hd', h2⟩⟩)⟩
        · unfold GetIndexWillBeDispatched
          simp only [hg, hd', h2, if_true, BUFFER_COUNT, Bool.false_eq_true, if_false]
        · intro hne
          have hb : (s._frameCount == s._lastDispatchedFrame) = false := by simpa using hne
          unfold GetDispatchIndex
          simp only [hb, hg, hd', h2, if_true, BUFFER_COUNT, Bool.false_eq_true, if_false]
  · have h1' := not_or.mp h1
    have hg : (decide (u64sub s._frameCount s._lastDispatchedFrame > cfg.FGAllowedFrameAhead) ||
        decide (u64sub s._frameCount s._lastDispatchedFrame < 0) ||
        s._lastDispatchedFrame == 0) = false := by
      simp [h1'.1, h1'.2]
    refine ⟨u64add s._lastDispatchedFrame 1, ?_, ?_, Or.inr (Or.inr ⟨rfl, Or.inl h1'⟩)⟩
    · unfold GetIndexWillBeDispatched
      simp only [hg, BUFFER_COUNT, Bool.false_eq_true, if_false]
    · intro hne
      have hb : (s._frameCount == s._lastDispatchedFrame) = false := by simpa using hne
      unfold GetDispatchIndex
      simp only [hb, hg, BUFFER_COUNT, Bool.false_eq_true, if_false]

/-- C5: when `_frameCount == _lastDispatchedFrame`, `GetDispatchIndex` returns -1
and hands back the record (so `_frameCount`, `_lastDispatchedFrame` and
`_targetFrame`) and the caller's `willDispatchFrame` as they were. -/
theorem GetDispatchIndex_same_frame (cfg : Config) (fgLastFrame : Nat) (s : FGState)
    (willDispatchFrame : Nat) (h : s._frameCount = s._lastDispatchedFrame) :
    GetDispatchIndex cfg fgLastFrame s willDispatchFrame = (s, willDispatchFrame, -1) :=
  GetDispatchIndex_noop_of_eq cfg fgLastFrame s willDispatchFrame h

theorem GetDispatchIndex_same_frame_witness :
    GetDispatchIndex {} 3 (countersState 7 7) 99 = (countersState 7 7, 99, -1) :=
  GetDispatchIndex_same_frame {} 3 (countersState 7 7) 99 rfl

/-- C3: when the wrapped difference exceeds `allowedAhead` and the current slot
holds a Depth resource, `GetDispatchIndex` sets `_lastDispatchedFrame` to
`_frameCount` in one step, reports `_frameCount` as the frame to dispatch and
returns `_frameCount mod 4`. -/
theorem GetDispatchIndex_snap_on_ready (cfg : Config) (fgLastFrame : Nat) (s : FGState)
    (willDispatchFrame : Nat)
    (hdiff : u64sub s._frameCount s._lastDispatchedFrame > cfg.FGAllowedFrameAhead)
    (hdepth : HasResource s FG_ResourceType.Depth = true) :
    GetDispatchIndex cfg fgLastFrame s willDispatchFrame =
      ({ s with _lastDispatchedFrame := s._frameCount, _lastFGFrame := fgLastFrame },
        s._frameCount, ((s._frameCount % 4 : Nat) : Int)) := by
  have hne : s._frameCount ≠ s._lastDispatchedFrame := by
    intro h
    rw [h, u64sub_self] at hdiff
    omega
  unfold GetDispatchIndex
  simp [hne, hdiff, hdepth, BUFFER_COUNT]

theorem GetDispatchIndex_snap_on_ready_witness :
    (GetDispatchIndex (cfgAhead 2) 0 (countersStateWithDepth 70 10) 0).1._lastDispatchedFrame = 70 ∧
    (GetDispatchIndex (cfgAhead 2) 0 (countersStateWithDepth 70 10) 0).2 = (70, 2) := by
  have h := GetDispatchIndex_snap_on_ready (cfgAhead 2) 0 (countersStateWithDepth 70 10) 0
    (by decide) (by rfl)
  rw [h]
  exact ⟨rfl, rfl⟩

/-- C2, as stated, fails in two ways.  With `allowedAhead = 0`, `_frameCount = 6`,
`_lastDispatchedFrame = 5` and no Depth in the current slot, the difference is
`1 > 2 * 0`, the halving branch adds `1 / 2 = 0`, and the remaining difference is
again 1, not strictly smaller.  With `allowedAhead = 2^30`,
`_frameCount = 2147483654`, `_lastDispatchedFrame = 5` and no Depth in the current
slot, the difference `2147483649` exceeds `2 * 2^30`, but the `int` product
`allowedAhead * 2` is `-2^31`, which as a `UINT64` exceeds the difference:
`_lastDispatchedFrame` becomes 6, not `5 + 2147483649 / 2`. -/
theorem GetDispatchIndex_halving_counterexample :
    (u64sub (countersState 6 5)._frameCount (countersState 6 5)._lastDispatchedFrame
        > 2 * (cfgAhead 0).FGAllowedFrameAhead ∧
      HasResource (countersState 6 5) FG_ResourceType.Depth = false ∧
      0 < u64sub (countersState 6 5)._frameCount (countersState 6 5)._lastDispatchedFrame ∧
      (GetDispatchIndex (cfgAhead 0) 0 (countersState 6 5) 0).1._lastDispatchedFrame = 5 ∧
      ¬ (u64sub (GetDispatchIndex (cfgAhead 0) 0 (countersState 6 5) 0).1._frameCount
            (GetDispatchIndex (cfgAhead 0) 0 (countersState 6 5) 0).1._lastDispatchedFrame
          < u64sub (countersState 6 5)._frameCount (countersState 6 5)._lastDispatchedFrame)) ∧
    (u64sub (countersState 2147483654 5)._frameCount
          (countersState 2147483654 5)._lastDispatchedFrame
        > 2 * (cfgAhead 1073741824).FGAllowedFrameAhead ∧
      HasResource (countersState 2147483654 5) FG_ResourceType.Depth = false ∧
      (GetDispatchIndex (cfgAhead 1073741824) 0 (countersState 2147483654 5)
          0).1._lastDispatchedFrame = 6 ∧
      u64add (countersState 2147483654 5)._lastDispatchedFrame
          (u64sub (countersState 2147483654 5)._frameCount
            (countersState 2147483654 5)._lastDispatchedFrame / 2) = 1073741829) := by
  decide

/-- C2, amended: when the wrapped difference `diff` exceeds `2 * allowedAhead`,
that double fits a 32-bit signed integer, and the current slot holds no Depth
resource, `GetDispatchIndex` leaves `_frameCount` alone, sets
`_lastDispatchedFrame` to `_lastDispatchedFrame + diff / 2` (modulo `2^64`), and
the new difference is strictly smaller than `diff` whenever `diff > 1`. -/
theorem GetDispatchIndex_halving (cfg : Config) (fgLastFrame : Nat) (s : FGState)
    (willDispatchFrame : Nat)
    (hdiff : u64sub s._frameCount s._lastDispatchedFrame > 2 * cfg.FGAllowedFrameAhead)
    (hfit : 2 * cfg.FGAllowedFrameAhead < 2147483648)
    (hdepth : HasResource s FG_ResourceType.Depth = false) :
    (GetDispatchIndex cfg fgLastFrame s willDispatchFrame).1._frameCount = s._frameCount ∧
    (GetDispatchIndex cfg fgLastFrame s willDispatchFrame).1._lastDispatchedFrame =
      u64add s._lastDispatchedFrame (u64sub s._frameCount s._lastDispatchedFrame / 2) ∧
    (1 < u64sub s._frameCount s._lastDispatchedFrame →
      u64sub (GetDispatchIndex cfg fgLastFrame s willDispatchFrame).1._frameCount
          (GetDispatchIndex cfg fgLastFrame s willDispatchFrame).1._lastDispatchedFrame
        < u64sub s._frameCount s._lastDispatchedFrame) := by
  have hne : s._frameCount ≠ s._lastDispatchedFrame := by
    intro h
    rw [h, u64sub_self] at hdiff
    omega
  have hprod := toU64_double_of_fits cfg.FGAllowedFrameAhead hfit
  have hL : (GetDispatchIndex cfg fgLastFrame s willDispatchFrame).1 =
      { s with _lastDispatchedFrame :=
                 u64add s._lastDispatchedFrame (u64sub s._frameCount s._lastDispatchedFrame / 2),
               _lastFGFrame := fgLastFrame } := by
    obtain ⟨t, -, hG, hc⟩ := selection_shape cfg fgLastFrame s willDispatchFrame
    rw [hG hne]
    rcases hc with ⟨-, hd, -⟩ | ⟨ht, -⟩ | ⟨-, ⟨h1, -⟩ | ⟨-, h2⟩⟩
    · rw [hdepth] at hd
      cases hd
    · rw [ht]
    · omega
    · omega
  rw [hL]
  refine ⟨rfl, rfl, ?_⟩
  intro hgt
  show u64sub s._frameCount
      (u64add s._lastDispatchedFrame (u64sub s._frameCount s._lastDispatchedFrame / 2)) < _
  rw [u64sub_halving]
  omega

theorem GetDispatchIndex_halving_witness :
    (GetDispatchIndex (cfgAhead 2) 0 (countersState 70 10) 0).1._lastDispatchedFrame = 40 ∧
    u64sub (GetDispatchIndex (cfgAhead 2) 0 (countersState 70 10) 0).1._frameCount
        (GetDispatchIndex (cfgAhead 2) 0 (countersState 70 10) 0).1._lastDispatchedFrame
      < u64sub (countersState 70 10)._frameCount (countersState 70 10)._lastDispatchedFrame := by
  have h := GetDispatchIndex_halving (cfgAhead 2) 0 (countersState 70 10) 0 (by decide)
    (by decide) (by rfl)
  refine ⟨?_, h.2.2 (by decide)⟩
  rw [h.2.1]
  decide

/-- C4, as stated, fails in two ways.  With `_frameCount = _lastDispatchedFrame = 5`
and `allowedAhead = 2` the difference 0 is within the allowance, yet
`GetDispatchIndex` returns -1 and advances nothing.  With `_lastDispatchedFrame = 0`,
`_frameCount = 2`, `allowedAhead = 2` and Depth in the current slot the difference 2
is within the allowance, yet `_lastDispatchedFrame` becomes 2, not 1. -/
theorem GetDispatchIndex_normal_rate_counterexample :
    (u64sub (countersState 5 5)._frameCount (countersState 5 5)._lastDispatchedFrame
        ≤ (cfgAhead 2).FGAllowedFrameAhead ∧
      (GetDispatchIndex (cfgAhead 2) 0 (countersState 5 5) 0).1._lastDispatchedFrame = 5 ∧
      (GetDispatchIndex (cfgAhead 2) 0 (countersState 5 5) 0).2.2 = -1) ∧
    (u64sub (countersStateWithDepth 2 0)._frameCount
        (countersStateWithDepth 2 0)._lastDispatchedFrame ≤ (cfgAhead 2).FGAllowedFrameAhead ∧
      (GetDispatchIndex (cfgAhead 2) 0 (countersStateWithDepth 2 0) 0).1._lastDispatchedFrame
        = 2) := by
  decide

/-- C4, amended: when `_frameCount` differs from `_lastDispatchedFrame`, the wrapped
difference is at most `allowedAhead`, and either `_lastDispatchedFrame` is not 0
or the current slot holds no Depth resource, `GetDispatchIndex` advances
`_lastDispatchedFrame` by exactly 1 (modulo `2^64`), reports that frame and
returns its slot. -/
theorem GetDispatchIndex_normal_rate (cfg : Config) (fgLastFrame : Nat) (s : FGState)
    (willDispatchFrame : Nat)
    (hne : s._frameCount ≠ s._lastDispatchedFrame)
    (hdiff : u64sub s._frameCount s._lastDispatchedFrame ≤ cfg.FGAllowedFrameAhead)
    (hinit : s._lastDispatchedFrame ≠ 0 ∨ HasResource s FG_ResourceType.Depth = false) :
    GetDispatchIndex cfg fgLastFrame s willDispatchFrame =
      ({ s with _lastDispatchedFrame := u64add s._lastDispatchedFrame 1,
                _lastFGFrame := fgLastFrame },
        u64add s._lastDispatchedFrame 1,
        ((u64add s._lastDispatchedFrame 1 % 4 : Nat) : Int)) := by
  have hprod := toU64_double_ge cfg.FGAllowedFrameAhead cfg.FGAllowedFrameAhead_fits
  obtain ⟨t, -, hG, hc⟩ := selection_shape cfg fgLastFrame s willDispatchFrame
  rw [hG hne]
  rcases hc with ⟨-, hd, h1 | h0⟩ | ⟨-, -, -, h2⟩ | ⟨ht, -⟩
  · omega
  · rcases hinit with h | h
    · exact absurd h0 h
    · rw [h] at hd
      cases hd
  · omega
  · rw [ht]

theorem GetDispatchIndex_normal_rate_witness :
    (GetDispatchIndex (cfgAhead 2) 0 (countersStateWithDepth 7 5) 0).1._lastDispatchedFrame = 6 ∧
    (GetDispatchIndex (cfgAhead 2) 0 (countersStateWithDepth 7 5) 0).2 = (6, 2) := by
  have h := GetDispatchIndex_normal_rate (cfgAhead 2) 0 (countersStateWithDepth 7 5) 0
    (by decide) (by decide) (Or.inl (by decide))
  rw [h]
  exact ⟨rfl, rfl⟩

/-- Below the wrap, with `_lastDispatchedFrame <= _frameCount` and a count whose
double fits a 32-bit signed integer, the frame the code selects is the target of
the specification's selection: the slot of `GetIndexWillBeDispatched` is the
specification's `target mod 4`, and on a new frame `GetDispatchIndex` commits
that target. -/
theorem selection_refines_spec (cfg : Config) (fgLastFrame : Nat) (s : FGState) (w : Nat)
    (hlf : s._lastDispatchedFrame ≤ s._frameCount) (hf : s._frameCount < U64_MOD)
    (hfit : 2 * cfg.FGAllowedFrameAhead < 2147483648) :
    (GetIndexWillBeDispatched cfg s).2 =
      spec_slot s._frameCount s._lastDispatchedFrame cfg.FGAllowedFrameAhead
        (HasResource s FG_ResourceType.Depth) ∧
    (s._frameCount ≠ s._lastDispatchedFrame →
      ((GetDispatchIndex cfg fgLastFrame s w).1._lastDispatchedFrame : Int) =
        spec_target s._frameCount s._lastDispatchedFrame cfg.FGAllowedFrameAhead
          (HasResource s FG_ResourceType.Depth)) := by
  have hprod := toU64_double_of_fits cfg.FGAllowedFrameAhead hfit
  have hgap : u64sub s._frameCount s._lastDispatchedFrame =
      s._frameCount - s._lastDispatchedFrame := u64sub_of_le hlf hf
  obtain ⟨t, hI, hG, hc⟩ := selection_shape cfg fgLastFrame s w
  rw [hprod, hgap] at hc
  have hf' : s._frameCount < 18446744073709551616 := hf
  have key : ((t : Int) % 4 = spec_target s._frameCount s._lastDispatchedFrame
        cfg.FGAllowedFrameAhead (HasResource s FG_ResourceType.Depth) % 4) ∧
      (s._frameCount ≠ s._lastDispatchedFrame → (t : Int) =
        spec_target s._frameCount s._lastDispatchedFrame cfg.FGAllowedFrameAhead
          (HasResource s FG_ResourceType.Depth)) := by
    rcases hc with ⟨ht, hd, h1⟩ | ⟨ht, hd, h1, h2⟩ | ⟨ht, ⟨h1, h0⟩ | ⟨hd, h2⟩⟩
    · have hs : spec_target s._frameCount s._lastDispatchedFrame cfg.FGAllowedFrameAhead
          (HasResource s FG_ResourceType.Depth) = s._frameCount := by
        rw [hd]
        simp only [spec_target, if_true]
        split_ifs <;> omega
      rw [hs, ht]
      exact ⟨rfl, fun _ => rfl⟩
    · have hs : spec_target s._frameCount s._lastDispatchedFrame cfg.FGAllowedFrameAhead
          (HasResource s FG_ResourceType.Depth) =
          ((s._lastDispatchedFrame + (s._frameCount - s._lastDispatchedFrame) / 2 : Nat) :
            Int) := by
        rw [hd]
        simp only [spec_target, Bool.false_eq_true, if_false]
        split_ifs <;> omega
      have ht' : t = s._lastDispatchedFrame + (s._frameCount - s._lastDispatchedFrame) / 2 := by
        rw [ht]
        exact u64add_of_lt (by omega)
      rw [hs, ht']
      exact ⟨rfl, fun _ => rfl⟩
    · have hs : spec_target s._frameCount s._lastDispatchedFrame cfg.FGAllowedFrameAhead
          (HasResource s FG_ResourceType.Depth) = (s._lastDispatchedFrame : Int) + 1 := by
        simp only [spec_target]
        split_ifs <;> omega
      rw [hs, ht]
      unfold u64add U64_MOD
      constructor
      · omega
      · intro hne
        omega
    · have hs : spec_target s._frameCount s._lastDispatchedFrame cfg.FGAllowedFrameAhead
          (HasResource s FG_ResourceType.Depth) = (s._lastDispatchedFrame : Int) + 1 := by
        rw [hd]
        simp only [spec_target, Bool.false_eq_true, if_false]
        split_ifs <;> omega
      rw [hs, ht]
      unfold u64add U64_MOD
      constructor
      · omega
      · intro hne
        omega
  constructor
  · rw [hI]
    show ((t % 4 : Nat) : Int) = spec_target _ _ _ _ % 4
    rw [← key.1]
    omega
  · intro hne
    rw [hG hne]
    exact key.2 hne

/-- C7, as stated, fails in its middle part, in two ways.  With
`allowedAhead = 2^30`, `_frameCount = 2147483654`, `_lastDispatchedFrame = 5` and
no Depth in the current slot, the difference `2147483649` exceeds
`2 * allowedAhead`, so the selection of the specification halves and its slot is
`1073741829 mod 4 = 1`; the `int` product `allowedAhead * 2` of the code is
`-2^31`, which as a `UINT64` exceeds the difference, so the code selects frame 6
and returns slot 2.  With `allowedAhead = 1`, `_frameCount = 1`,
`_lastDispatchedFrame = 5` (the counters after five dispatched frames and
`DestroyFGContext`) and no Depth in the current slot, the difference of the
specification is `-4`, its target `5 + 1` and its slot 2; the `UINT64` difference
of the code is `2^64 - 4`, the code halves it and returns slot
`(5 + (2^64 - 4) / 2) mod 4 = 3`. -/
theorem GetIndexWillBeDispatched_preview_counterexample :
    (HasResource (countersState 2147483654 5) FG_ResourceType.Depth = false ∧
      (GetIndexWillBeDispatched (cfgAhead 1073741824) (countersState 2147483654 5)).2 = 2 ∧
      spec_slot (countersState 2147483654 5)._frameCount
        (countersState 2147483654 5)._lastDispatchedFrame
        (cfgAhead 1073741824).FGAllowedFrameAhead
        (HasResource (countersState 2147483654 5) FG_ResourceType.Depth) = 1) ∧
    (HasResource (countersState 1 5) FG_ResourceType.Depth = false ∧
      (GetIndexWillBeDispatched (cfgAhead 1) (countersState 1 5)).2 = 3 ∧
      spec_slot (countersState 1 5)._frameCount (countersState 1 5)._lastDispatchedFrame
        (cfgAhead 1).FGAllowedFrameAhead
        (HasResource (countersState 1 5) FG_ResourceType.Depth) = 2) := by
  decide

/-- C7, amended: `GetIndexWillBeDispatched` hands the record back unchanged;
whenever `_frameCount` differs from `_lastDispatchedFrame` its result is the slot
index `GetDispatchIndex` returns in the same state; and whenever
`_lastDispatchedFrame <= _frameCount` (below `2^64`) and the double of
`allowedAhead` fits a 32-bit signed integer, its result is `target mod 4` for the
target of the specification's drift-correcting selection, the target
`GetDispatchIndex` commits on a new frame. -/
theorem GetIndexWillBeDispatched_preview (cfg : Config) (fgLastFrame : Nat) (s : FGState)
    (willDispatchFrame : Nat) :
    (GetIndexWillBeDispatched cfg s).1 = s ∧
    (s._frameCount ≠ s._lastDispatchedFrame →
      (GetDispatchIndex cfg fgLastFrame s willDispatchFrame).2.2 =
        (GetIndexWillBeDispatched cfg s).2) ∧
    (s._lastDispatchedFrame ≤ s._frameCount → s._frameCount < U64_MOD →
      2 * cfg.FGAllowedFrameAhead < 2147483648 →
      (GetIndexWillBeDispatched cfg s).2 =
          spec_slot s._frameCount s._lastDispatchedFrame cfg.FGAllowedFrameAhead
            (HasResource s FG_ResourceType.Depth) ∧
        (s._frameCount ≠ s._lastDispatchedFrame →
          ((GetDispatchIndex cfg fgLastFrame s willDispatchFrame).1._lastDispatchedFrame : Int) =
            spec_target s._frameCount s._lastDispatchedFrame cfg.FGAllowedFrameAhead
              (HasResource s FG_ResourceType.Depth))) := by
  obtain ⟨t, hI, hG, -⟩ := selection_shape cfg fgLastFrame s willDispatchFrame
  refine ⟨?_, ?_, ?_⟩
  · rw [hI]
  · intro hne
    rw [hI, hG hne]
  · intro hlf hf hfit
    exact selection_refines_spec cfg fgLastFrame s willDispatchFrame hlf hf hfit

theorem GetIndexWillBeDispatched_preview_witness :
    (GetDispatchIndex (cfgAhead 2) 0 (countersState 70 10) 0).2.2 =
      (GetIndexWillBeDispatched (cfgAhead 2) (countersState 70 10)).2 ∧
    (GetIndexWillBeDispatched (cfgAhead 2) (countersState 70 10)).2 =
      spec_slot (countersState 70 10)._frameCount (countersState 70 10)._lastDispatchedFrame
        (cfgAhead 2).FGAllowedFrameAhead
        (HasResource (countersState 70 10) FG_ResourceType.Depth) ∧
    ((GetDispatchIndex (cfgAhead 2) 0 (countersState 70 10) 0).1._lastDispatchedFrame : Int) =
      spec_target (countersState 70 10)._frameCount (countersState 70 10)._lastDispatchedFrame
        (cfgAhead 2).FGAllowedFrameAhead
        (HasResource (countersState 70 10) FG_ResourceType.Depth) := by
  have h := GetIndexWillBeDispatched_preview (cfgAhead 2) 0 (countersState 70 10) 0
  have h3 := h.2.2 (by decide) (by decide) (by decide)
  exact ⟨h.2.1 (by decide), h3.1, h3.2 (by decide)⟩

/-! ## Frame admission -/

/-- The counter part of `StartNewFrame` touches the two counters only. -/
theorem StartNewFrame_counters_fields (s : FGState) :
    (StartNewFrame_counters s)._frameCount = u64add s._frameCount 1 ∧
    (StartNewFrame_counters s)._isActive = s._isActive ∧
    (StartNewFrame_counters s)._waitingNewFrameData = s._waitingNewFrameData := by
  unfold StartNewFrame_counters
  simp only []
  split_ifs <;> exact ⟨rfl, rfl, rfl⟩

/-- The slot reset of `StartNewFrame` keeps the counters and the flags. -/
theorem StartNewFrame_resetSlot_fields (s : FGState) :
    (StartNewFrame_resetSlot s)._frameCount = s._frameCount ∧
    (StartNewFrame_resetSlot s)._lastDispatchedFrame = s._lastDispatchedFrame ∧
    (StartNewFrame_resetSlot s)._isActive = s._isActive ∧
    (StartNewFrame_resetSlot s)._waitingNewFrameData = s._waitingNewFrameData :=
  ⟨rfl, rfl, rfl, rfl⟩

/-- `Activate` writes the activity flag and `_lastDispatchedFrame` only. -/
theorem Activate_fields (ret : Nat) (s : FGState) :
    (Activate ret s)._frameCount = s._frameCount ∧
    (Activate ret s)._resourceReady = s._resourceReady ∧
    (Activate ret s)._waitingExecute = s._waitingExecute ∧
    (Activate ret s)._noUi = s._noUi ∧
    (Activate ret s)._noDistortionField = s._noDistortionField ∧
    (Activate ret s)._noHudless = s._noHudless ∧
    (Activate ret s)._frameResources = s._frameResources ∧
    (Activate ret s)._waitingNewFrameData = s._waitingNewFrameData := by
  unfold Activate
  split_ifs <;> exact ⟨rfl, rfl, rfl, rfl, rfl, rfl, rfl, rfl⟩

/-- The `NewFrame` hook keeps `_frameCount` and the per-slot flags and readiness
sets, and empties the resource map of the current slot. -/
theorem NewFrame_fields (activateRet : Nat) (s : FGState) :
    (NewFrame activateRet s)._frameCount = s._frameCount ∧
    (NewFrame activateRet s)._resourceReady = s._resourceReady ∧
    (NewFrame activateRet s)._waitingExecute = s._waitingExecute ∧
    (NewFrame activateRet s)._noUi = s._noUi ∧
    (NewFrame activateRet s)._noDistortionField = s._noDistortionField ∧
    (NewFrame activateRet s)._noHudless = s._noHudless ∧
    (NewFrame activateRet s)._waitingNewFrameData = false ∧
    (NewFrame activateRet s)._frameResources (s._frameCount % BUFFER_COUNT) = fun _ => none := by
  obtain ⟨a1, a2, a3, a4, a5, a6, -, -⟩ := Activate_fields activateRet (UpdateTarget s)
  have u1 : (UpdateTarget s)._frameCount = s._frameCount := rfl
  unfold NewFrame GetIndex
  cases hw : s._waitingNewFrameData
  · simp [hw]
  · simp [a1, a2, a3, a4, a5, a6, u1]
    refine ⟨rfl, rfl, rfl, rfl, rfl, ?_⟩
    rw [a1, u1]
    simp

/-- Without the awaiting-data flag the `NewFrame` hook keeps
`_lastDispatchedFrame` and the activity flag. -/
theorem NewFrame_not_waiting (activateRet : Nat) (s : FGState)
    (hw : s._waitingNewFrameData = false) :
    (NewFrame activateRet s)._lastDispatchedFrame = s._lastDispatchedFrame ∧
    (NewFrame activateRet s)._isActive = s._isActive := by
  unfold NewFrame
  simp [hw]

/-- C8: after `StartNewFrame`, whatever the slot held before, the admitted slot
(new `_frameCount` mod 4) has an empty readiness set, `_waitingExecute` false,
`_noUi`, `_noDistortionField` and `_noHudless` true, and an empty resource map, so
`IsResourceReady` and `HasResource` are false for every type. -/
theorem StartNewFrame_resets_slot (activateRet : Nat) (s : FGState) (type : FG_ResourceType) :
    (StartNewFrame activateRet s).1._frameCount = u64add s._frameCount 1 ∧
    (StartNewFrame activateRet s).1._resourceReady
        ((StartNewFrame activateRet s).1._frameCount % BUFFER_COUNT) type = none ∧
    (StartNewFrame activateRet s).1._waitingExecute
        ((StartNewFrame activateRet s).1._frameCount % BUFFER_COUNT) = false ∧
    (StartNewFrame activateRet s).1._noUi
        ((StartNewFrame activateRet s).1._frameCount % BUFFER_COUNT) = true ∧
    (StartNewFrame activateRet s).1._noDistortionField
        ((StartNewFrame activateRet s).1._frameCount % BUFFER_COUNT) = true ∧
    (StartNewFrame activateRet s).1._noHudless
        ((StartNewFrame activateRet s).1._frameCount % BUFFER_COUNT) = true ∧
    (StartNewFrame activateRet s).1._frameResources
        ((StartNewFrame activateRet s).1._frameCount % BUFFER_COUNT) type = none ∧
    IsResourceReady (StartNewFrame activateRet s).1 type = false ∧
    HasResource (StartNewFrame activateRet s).1 type = false := by
  have hN := NewFrame_fields activateRet (StartNewFrame_resetSlot (StartNewFrame_counters s))
  obtain ⟨hF, hR, hW, hU, hD, hH, -, hM⟩ := hN
  have hF1 : (StartNewFrame activateRet s).1._frameCount = (StartNewFrame_counters s)._frameCount :=
    hF
  have hC := (StartNewFrame_counters_fields s).1
  have hslot : ∀ t, (StartNewFrame activateRet s).1._frameResources
      ((StartNewFrame activateRet s).1._frameCount % BUFFER_COUNT) t = none := by
    intro t
    rw [hF1]
    exact congrFun hM t
  have hready : ∀ t, (StartNewFrame activateRet s).1._resourceReady
      ((StartNewFrame activateRet s).1._frameCount % BUFFER_COUNT) t = none := by
    intro t
    rw [hF1]
    show (NewFrame activateRet (StartNewFrame_resetSlot (StartNewFrame_counters s)))._resourceReady
      _ t = none
    rw [hR]
    simp [StartNewFrame_resetSlot, GetIndex]
  refine ⟨hF1.trans hC, hready type, ?_, ?_, ?_, ?_, hslot type, ?_, ?_⟩
  · rw [hF1]
    show (NewFrame activateRet (StartNewFrame_resetSlot (StartNewFrame_counters s)))._waitingExecute
      _ = false
    rw [hW]
    simp [StartNewFrame_resetSlot, GetIndex]
  · rw [hF1]
    show (NewFrame activateRet (StartNewFrame_resetSlot (StartNewFrame_counters s)))._noUi
      _ = true
    rw [hU]
    simp [StartNewFrame_resetSlot, GetIndex]
  · rw [hF1]
    show (NewFrame activateRet
      (StartNewFrame_resetSlot (StartNewFrame_counters s)))._noDistortionField _ = true
    rw [hD]
    simp [StartNewFrame_resetSlot, GetIndex]
  · rw [hF1]
    show (NewFrame activateRet (StartNewFrame_resetSlot (StartNewFrame_counters s)))._noHudless
      _ = true
    rw [hH]
    simp [StartNewFrame_resetSlot, GetIndex]
  · unfold IsResourceReady GetIndex
    simp [hready type]
  · unfold HasResource GetIndex
    simp [hslot type]

/-- The counter part of `StartNewFrame` computes the `_lastDispatchedFrame` the
specification states. -/
theorem StartNewFrame_counters_lastDispatched (s : FGState) :
    (StartNewFrame_counters s)._lastDispatchedFrame =
      spec_StartNewFrame_lastDispatched s._frameCount s._lastDispatchedFrame s._isActive
        s._waitingNewFrameData := by
  unfold StartNewFrame_counters spec_StartNewFrame_lastDispatched
  simp only []
  by_cases ha : s._isActive = true <;>
    by_cases hw : s._waitingNewFrameData = true <;>
    by_cases h0 : s._lastDispatchedFrame = 0 <;>
    by_cases h20 : 20 < u64sub (u64add s._frameCount 1) s._lastDispatchedFrame <;>
    by_cases h100 : 100 < u64sub (u64add s._frameCount 1) s._lastDispatchedFrame <;>
    by_cases h15 : 15 < u64sub (u64add s._frameCount 1) s._lastDispatchedFrame <;>
    by_cases h10 : 10 < u64sub (u64add s._frameCount 1) s._lastDispatchedFrame <;>
    first
      | omega
      | (have hpos : 0 < s._lastDispatchedFrame := Nat.pos_of_ne_zero h0
         simp [ha, hw, h0, hpos, h20, h100, h15, h10])
      | simp [ha, hw, h0, h20, h100, h15, h10]

/-- C9: `StartNewFrame` returns `frameCount + 1` (modulo `2^64`, so exactly
`frameCount + 1` below the wrap), and before the new-frame hook runs the record
holds that frame count and the `lastDispatchedFrame` the specification states:
`frameCount' - 5` (or `frameCount' - 1` when `frameCount' <= 5`) when active,
`lastDispatchedFrame > 0` and the gap exceeds the threshold (20 if active or
awaiting data, else 100); else `frameCount' - 1` when `lastDispatchedFrame == 0`;
else `lastDispatchedFrame + gap / 2` when active and the gap exceeds 15; else
unchanged.  When the pipeline is not awaiting data the hook keeps that value. -/
theorem StartNewFrame_counter_update (activateRet : Nat) (s : FGState) :
    (StartNewFrame activateRet s).2 = u64add s._frameCount 1 ∧
    (s._frameCount + 1 < U64_MOD → (StartNewFrame activateRet s).2 = s._frameCount + 1) ∧
    StartNewFrame activateRet s =
      (NewFrame activateRet (StartNewFrame_resetSlot (StartNewFrame_counters s)),
        u64add s._frameCount 1) ∧
    (StartNewFrame_resetSlot (StartNewFrame_counters s))._frameCount = u64add s._frameCount 1 ∧
    (StartNewFrame_resetSlot (StartNewFrame_counters s))._lastDispatchedFrame =
      spec_StartNewFrame_lastDispatched s._frameCount s._lastDispatchedFrame s._isActive
        s._waitingNewFrameData ∧
    (s._waitingNewFrameData = false →
      (StartNewFrame activateRet s).1._lastDispatchedFrame =
        spec_StartNewFrame_lastDispatched s._frameCount s._lastDispatchedFrame s._isActive
          s._waitingNewFrameData) := by
  have hC := StartNewFrame_counters_fields s
  have hL := StartNewFrame_counters_lastDispatched s
  have hN := NewFrame_fields activateRet (StartNewFrame_resetSlot (StartNewFrame_counters s))
  have hret : (StartNewFrame activateRet s).2 = u64add s._frameCount 1 :=
    (hN.1.trans hC.1)
  refine ⟨hret, ?_, ?_, hC.1, hL, ?_⟩
  · intro hlt
    rw [hret, u64add_of_lt hlt]
  · exact Prod.ext rfl hret
  · intro hw
    have hw1 : (StartNewFrame_resetSlot (StartNewFrame_counters s))._waitingNewFrameData = false :=
      hC.2.2.trans hw
    exact (NewFrame_not_waiting activateRet _ hw1).1.trans hL

theorem StartNewFrame_counter_update_witness :
    (StartNewFrame 0 (countersState 70 10)).2 = 71 ∧
    (StartNewFrame 0 (countersState 70 10)).1._lastDispatchedFrame = 10 := by
  have h := StartNewFrame_counter_update 0 (countersState 70 10)
  refine ⟨?_, ?_⟩
  · rw [h.2.1 (by decide)]
    rfl
  · rw [h.2.2.2.2.2 rfl]
    decide

/-! ## The resource registry -/

/-- C10: if the slot a `SetResource` call resolves to (the descriptor's frame
index when it is non-negative, else the current slot) already holds a resource
of the reported type whose stored validity is `ValidNow`, the call returns false
and hands the record back unchanged: resource map, readiness set and the
`_noUi`, `_noDistortionField`, `_noHudless` flags are as before. -/
theorem SetResource_rejects_second_capture (cfg : Config) (env : SetResourceEnv) (s : FGState)
    (inputResource stored : VkResource) (slot : Nat)
    (hrange : slot < BUFFER_COUNT)
    (hslot : inputResource.frameIndex = (slot : Int) ∨
      (inputResource.frameIndex < 0 ∧ GetIndex s = slot))
    (hheld : s._frameResources slot inputResource.type = some stored)
    (hvalid : stored.validity = FG_ResourceValidity.ValidNow) :
    SetResource cfg env s (some inputResource) = some (s, false) := by
  have hidx : (if inputResource.frameIndex < 0 then (GetIndex s : Int)
      else inputResource.frameIndex) = (slot : Int) := by
    rcases hslot with h | ⟨hneg, hcur⟩
    · have : ¬ inputResource.frameIndex < 0 := by omega
      rw [if_neg this, h]
    · rw [if_pos hneg, hcur]
  have hnot : ¬ ((slot : Int) ≥ (BUFFER_COUNT : Int)) := by
    have : (slot : Int) < (BUFFER_COUNT : Int) := by exact_mod_cast hrange
    omega
  unfold SetResource
  simp only [hidx]
  by_cases hguard : (inputResource.image == VK_NULL_HANDLE || !IsActive s || IsPaused s) = true
  · simp [hguard]
  · simp [hguard, hnot, hheld, hvalid]

theorem SetResource_rejects_second_capture_witness :
    SetResource {} {} capturedState (some secondDepthReport) = some (capturedState, false) :=
  SetResource_rejects_second_capture {} {} capturedState secondDepthReport
    { type := FG_ResourceType.Depth, image := 5, cmdBuffer := 3, copy := 6 } 1
    (by decide) (Or.inr ⟨by decide, by decide⟩) (by rfl) (by rfl)

/-! ### `SetResource` leaves the counters alone -/

theorem counters_setFrameResource (s : FGState) (i : Nat) (ty : FG_ResourceType)
    (r : VkResource) : counters (setFrameResource s i ty r) = counters s := rfl

theorem counters_setResourceCopy (s : FGState) (i : Nat) (ty : FG_ResourceType) (h : Nat) :
    counters (setResourceCopy s i ty h) = counters s := rfl

theorem counters_SetResourceReady (s : FGState) (ty : FG_ResourceType) (i : Nat) :
    counters (SetResourceReady s ty i) = counters s := rfl

theorem counters_GetUICommandList (env : UICommandListEnv) (s : FGState) :
    counters (GetUICommandList env s).1 = counters s := by
  unfold GetUICommandList
  split_ifs <;> rfl

theorem counters_FlipResource (env : FlipEnv) (ui : UICommandListEnv) (s : FGState)
    (r : VkResource) : counters (FlipResource env ui s r).1 = counters s := by
  unfold FlipResource
  simp only []
  split_ifs <;>
    simp only [counters_GetUICommandList, counters_setResourceCopy] <;> rfl

theorem counters_UIFormatTransfer (env : FormatTransferEnv) (s : FGState) (i : Nat)
    (r : VkResource) : counters (UIFormatTransfer env s i r).1 = counters s := by
  unfold UIFormatTransfer
  split_ifs <;> rfl

theorem counters_HudlessFormatTransfer (env : FormatTransferEnv) (ui : UICommandListEnv)
    (s : FGState) (i : Nat) (r : VkResource) :
    counters (HudlessFormatTransfer env ui s i r).1 = counters s := by
  unfold HudlessFormatTransfer
  simp only []
  split_ifs
  · rfl
  · exact counters_GetUICommandList ui s
  · rfl

theorem counters_SetResource_finish (env : SetResourceEnv) (s : FGState) (inp : VkResource)
    (i : Nat) (willFlip : Bool) (r : VkResource) :
    counters (SetResource_finish env s inp i willFlip r).1 = counters s := by
  unfold SetResource_finish
  simp only []
  split_ifs <;> rfl

theorem counters_with_noUi (s : FGState) (f : Nat → Bool) :
    counters { s with _noUi := f } = counters s := rfl

theorem counters_with_noDistortionField (s : FGState) (f : Nat → Bool) :
    counters { s with _noDistortionField := f } = counters s := rfl

theorem counters_with_noHudless (s : FGState) (f : Nat → Bool) :
    counters { s with _noHudless := f } = counters s := rfl

theorem counters_with_lastHudlessFormat (s : FGState) (f : Int) :
    counters { s with _lastHudlessFormat := f } = counters s := rfl

theorem counters_SetResource_formats (env : SetResourceEnv) (s : FGState) (inp : VkResource)
    (i : Nat) (willFlip : Bool) (r : VkResource) :
    counters (SetResource_formats env s inp i willFlip r).1 = counters s := by
  unfold SetResource_formats
  simp only []
  split_ifs <;>
    (simp only [counters_SetResource_finish, counters_setFrameResource, counters_with_noUi,
      counters_with_noDistortionField, counters_with_noHudless, counters_with_lastHudlessFormat,
      counters_UIFormatTransfer, counters_GetUICommandList, counters_HudlessFormatTransfer]
     try rfl)

theorem counters_SetResource_store (cfg : Config) (env : SetResourceEnv) (s : FGState)
    (inp : VkResource) (i : Nat) :
    counters (SetResource_store cfg env s inp i).1 = counters s := by
  unfold SetResource_store
  simp only []
  split_ifs
  · exact (counters_SetResource_formats _ _ _ _ _ _).trans (counters_FlipResource _ _ _ _)
  · exact counters_SetResource_formats _ _ _ _ _ _

/-- `SetResource` never writes a frame counter or an activity flag. -/
theorem counters_SetResource (cfg : Config) (env : SetResourceEnv) (s : FGState)
    (inp : Option VkResource) (r : FGState × Bool)
    (h : SetResource cfg env s inp = some r) : counters r.1 = counters s := by
  unfold SetResource at h
  cases inp with
  | none =>
    obtain rfl := Option.some.inj h
    rfl
  | some x =>
    simp only [] at h
    split_ifs at h
    all_goals
      first
        | (cases h
           done)
        | (cases h
           first
             | rfl
             | exact counters_SetResource_store _ _ _ _ _)

/-- A report for the current slot (negative frame index) is always within the
ring: `SetResource` returns a result. -/
theorem SetResource_current_slot_isSome (cfg : Config) (env : SetResourceEnv) (s : FGState)
    (inp : VkResource) (hneg : inp.frameIndex < 0) :
    ∃ r, SetResource cfg env s (some inp) = some r := by
  have hlt : ¬ ((GetIndex s : Int) ≥ (BUFFER_COUNT : Int)) := by
    have : GetIndex s < BUFFER_COUNT := Nat.mod_lt _ (by decide)
    have : (GetIndex s : Int) < (BUFFER_COUNT : Int) := by exact_mod_cast this
    omega
  unfold SetResource
  simp only [hneg, if_true, hlt, if_false]
  split_ifs <;> exact ⟨_, rfl⟩

/-! ## Lock-step dispatch -/

/-- With equal counters before the frame, the admission step of the
specification leaves `lastDispatchedFrame` where it was. -/
theorem spec_StartNewFrame_lastDispatched_lockstep (n : Nat) (active awaiting : Bool)
    (hn : n + 1 < U64_MOD) :
    spec_StartNewFrame_lastDispatched n n active awaiting = n := by
  have hadd : u64add n 1 = n + 1 := u64add_of_lt hn
  have hgap : u64sub (n + 1) n = 1 := by
    rw [u64sub_of_le (Nat.le_succ n) hn]
    omega
  unfold spec_StartNewFrame_lastDispatched
  simp only [hadd, hgap]
  have h1 : u64sub (n + 1) 1 = n := by
    rw [u64sub_of_le (by omega) hn]
    omega
  split_ifs <;> omega

/-- One frame behind, with an allowance of at least 1, `GetDispatchIndex` commits
the current frame: the snap and the step by 1 select the same frame, and the
difference 1 is not above the doubled count. -/
theorem GetDispatchIndex_lockstep (cfg : Config) (fgLastFrame : Nat) (s : FGState) (w n : Nat)
    (ha : 1 ≤ cfg.FGAllowedFrameAhead) (hn : n + 1 < U64_MOD)
    (hF : s._frameCount = n + 1) (hL : s._lastDispatchedFrame = n) :
    GetDispatchIndex cfg fgLastFrame s w =
      ({ s with _lastDispatchedFrame := n + 1, _lastFGFrame := fgLastFrame }, n + 1,
        (((n + 1) % 4 : Nat) : Int)) := by
  have hgap : u64sub (n + 1) n = 1 := by
    rw [u64sub_of_le (Nat.le_succ n) hn]
    omega
  have hadd : u64add n 1 = n + 1 := u64add_of_lt hn
  have hprod := toU64_double_ge cfg.FGAllowedFrameAhead cfg.FGAllowedFrameAhead_fits
  have hne : s._frameCount ≠ s._lastDispatchedFrame := by omega
  obtain ⟨t, -, hG, hc⟩ := selection_shape cfg fgLastFrame s w
  rw [hG hne]
  rw [hF, hL, hgap, hadd] at hc
  have ht : t = n + 1 := by
    rcases hc with ⟨ht, -⟩ | ⟨-, -, -, h2⟩ | ⟨ht, -⟩
    · exact ht
    · omega
    · exact ht
  rw [ht]

/-- One tick of the lock-step scenario from equal counters `n` dispatches frame
`n + 1` from slot `(n + 1) mod 4` and leaves both counters at `n + 1`. -/
theorem lockStepTick_spec (cfg : Config) (i : TickInput) (s : FGState) (n : Nat)
    (ha : 1 ≤ cfg.FGAllowedFrameAhead) (hn : n + 1 < U64_MOD)
    (hF : s._frameCount = n) (hL : s._lastDispatchedFrame = n)
    (hW : s._waitingNewFrameData = false) :
    ∃ s1, lockStepTick cfg i s = some (s1, n + 1, (((n + 1) % 4 : Nat) : Int)) ∧
      s1._frameCount = n + 1 ∧ s1._lastDispatchedFrame = n + 1 ∧
      s1._waitingNewFrameData = false := by
  have hC := StartNewFrame_counters_fields s
  have hCL := StartNewFrame_counters_lastDispatched s
  have hN := NewFrame_fields i.activateRet (StartNewFrame_resetSlot (StartNewFrame_counters s))
  have hW1 : (StartNewFrame_resetSlot (StartNewFrame_counters s))._waitingNewFrameData = false :=
    hC.2.2.trans hW
  have hNW := NewFrame_not_waiting i.activateRet _ hW1
  have h1F : (StartNewFrame i.activateRet s).1._frameCount = n + 1 := by
    have : (StartNewFrame i.activateRet s).1._frameCount = u64add s._frameCount 1 :=
      hN.1.trans hC.1
    rw [this, hF, u64add_of_lt hn]
  have h1L : (StartNewFrame i.activateRet s).1._lastDispatchedFrame = n := by
    have : (StartNewFrame i.activateRet s).1._lastDispatchedFrame =
        spec_StartNewFrame_lastDispatched s._frameCount s._lastDispatchedFrame s._isActive
          s._waitingNewFrameData := hNW.1.trans hCL
    rw [this, hF, hL, spec_StartNewFrame_lastDispatched_lockstep n _ _ hn]
  have h1W : (StartNewFrame i.activateRet s).1._waitingNewFrameData = false := hN.2.2.2.2.2.2.1
  obtain ⟨r, hr⟩ := SetResource_current_slot_isSome cfg i.env (StartNewFrame i.activateRet s).1
    { i.report with type := FG_ResourceType.Depth, frameIndex := -1 }
    (show (-1 : Int) < 0 by decide)
  have hcnt := counters_SetResource cfg i.env _ _ r hr
  have h2F : r.1._frameCount = n + 1 := (congrArg (fun c => c.1) hcnt).trans h1F
  have h2L : r.1._lastDispatchedFrame = n := (congrArg (fun c => c.2.1) hcnt).trans h1L
  have h2W : r.1._waitingNewFrameData = false :=
    (congrArg (fun c => c.2.2.2.2) hcnt).trans h1W
  have hne : r.1._frameCount ≠ r.1._lastDispatchedFrame := by omega
  have hG := GetDispatchIndex_lockstep cfg i.fgLastFrame r.1 0 n ha hn h2F h2L
  rw [h2F] at hG
  refine ⟨(GetDispatchIndex cfg i.fgLastFrame r.1 0).1, ?_, ?_, ?_, ?_⟩
  · unfold lockStepTick
    simp only [hr]
    rw [hG]
  · rw [hG]
  · rw [hG]
  · rw [hG]
    exact h2W

/-- The (dispatched frame, slot) pairs of `n` lock-step ticks. -/
theorem lockStepRun_spec (cfg : Config) (inputs : Nat → TickInput) (s0 : FGState)
    (ha : 1 ≤ cfg.FGAllowedFrameAhead)
    (hF : s0._frameCount = 0) (hL : s0._lastDispatchedFrame = 0)
    (hW : s0._waitingNewFrameData = false) (n : Nat) (hn : n < U64_MOD) :
    ∃ s, lockStepRun cfg inputs s0 n =
        some (s, (List.range n).map (fun k => (k + 1, (((k + 1) % 4 : Nat) : Int)))) ∧
      s._frameCount = n ∧ s._lastDispatchedFrame = n ∧ s._waitingNewFrameData = false := by
  induction n with
  | zero => exact ⟨s0, rfl, hF, hL, hW⟩
  | succ k ih =>
    obtain ⟨sk, hrun, hkF, hkL, hkW⟩ := ih (by omega)
    obtain ⟨s1, htick, h1F, h1L, h1W⟩ := lockStepTick_spec cfg (inputs k) sk k ha hn hkF hkL hkW
    refine ⟨s1, ?_, h1F, h1L, h1W⟩
    show (match lockStepRun cfg inputs s0 k with
      | none => none
      | some (sn, hist) =>
        match lockStepTick cfg (inputs k) sn with
        | none => none
        | some r => some (r.1, hist ++ [(r.2.1, r.2.2)])) = _
    rw [hrun]
    simp only [htick, List.range_succ, List.map_append, List.map_cons, List.map_nil]

/-- C6: from a record with `_frameCount = _lastDispatchedFrame = 0` that is not
awaiting new frame data (the initial state is one), with `allowedAhead >= 1`, `n`
ticks of `StartNewFrame`, Depth report for the current slot and
`GetDispatchIndex` all return a result; the k-th tick dispatches frame `k` from
slot `k mod 4`, and afterwards `_lastDispatchedFrame = _frameCount = n`. -/
theorem lockStep_dispatch (cfg : Config) (inputs : Nat → TickInput) (s0 : FGState) (n : Nat)
    (ha : 1 ≤ cfg.FGAllowedFrameAhead) (hn : n < U64_MOD)
    (hF : s0._frameCount = 0) (hL : s0._lastDispatchedFrame = 0)
    (hW : s0._waitingNewFrameData = false) :
    ∃ s, lockStepRun cfg inputs s0 n =
        some (s, (List.range n).map (fun k => (k + 1, (((k + 1) % 4 : Nat) : Int)))) ∧
      s._frameCount = n ∧ s._lastDispatchedFrame = n := by
  obtain ⟨s, h1, h2, h3, -⟩ := lockStepRun_spec cfg inputs s0 ha hF hL hW n hn
  exact ⟨s, h1, h2, h3⟩

theorem lockStep_dispatch_witness :
    ∃ s, lockStepRun (cfgAhead 2) (fun _ => {}) initialState 6 =
        some (s, [(1, 1), (2, 2), (3, 3), (4, 0), (5, 1), (6, 2)]) ∧
      s._frameCount = 6 ∧ s._lastDispatchedFrame = 6 :=
  lockStep_dispatch (cfgAhead 2) (fun _ => {}) initialState 6 (by decide) (by decide) rfl rfl rfl

/-! ## Monotonicity of the dispatched frame -/

/-- Below the wrap and with `lastDispatchedFrame <= frameCount`, the admission
step of the specification never lowers `lastDispatchedFrame` and keeps it at
most the new frame count. -/
theorem spec_StartNewFrame_lastDispatched_bounds (f l : Nat) (active awaiting : Bool)
    (hlf : l ≤ f) (hf : f + 1 < U64_MOD) :
    l ≤ spec_StartNewFrame_lastDispatched f l active awaiting ∧
      spec_StartNewFrame_lastDispatched f l active awaiting ≤ f + 1 := by
  have hadd : u64add f 1 = f + 1 := u64add_of_lt hf
  have hgap : u64sub (f + 1) l = f + 1 - l := u64sub_of_le (by omega) hf
  have h1 : u64sub (f + 1) 1 = f := by
    rw [u64sub_of_le (by omega) hf]
    omega
  have h5 : 5 < f + 1 → u64sub (f + 1) 5 = f + 1 - 5 := fun h => u64sub_of_le (by omega) hf
  have hhalf : u64add l ((f + 1 - l) / 2) = l + (f + 1 - l) / 2 :=
    u64add_of_lt (by omega)
  unfold spec_StartNewFrame_lastDispatched
  simp only [hadd, hgap, h1, hhalf]
  split_ifs <;> constructor <;> omega

theorem chain_le_weaken {a b : Nat} {l : List Nat} (hab : a ≤ b)
    (h : List.Chain (· ≤ ·) b l) : List.Chain (· ≤ ·) a l := by
  cases h with
  | nil => exact List.Chain.nil
  | cons hbc hrest => exact List.Chain.cons (Nat.le_trans hab hbc) hrest

/-- The counters after `StartNewFrame` without the awaiting-data flag. -/
theorem StartNewFrame_counters_of_not_waiting (activateRet : Nat) (s : FGState)
    (hW : s._waitingNewFrameData = false) :
    (StartNewFrame activateRet s).1._frameCount = u64add s._frameCount 1 ∧
    (StartNewFrame activateRet s).1._lastDispatchedFrame =
      spec_StartNewFrame_lastDispatched s._frameCount s._lastDispatchedFrame s._isActive
        s._waitingNewFrameData ∧
    (StartNewFrame activateRet s).1._waitingNewFrameData = false := by
  have hC := StartNewFrame_counters_fields s
  have hCL := StartNewFrame_counters_lastDispatched s
  have hN := NewFrame_fields activateRet (StartNewFrame_resetSlot (StartNewFrame_counters s))
  have hW1 : (StartNewFrame_resetSlot (StartNewFrame_counters s))._waitingNewFrameData = false :=
    hC.2.2.trans hW
  have hNW := NewFrame_not_waiting activateRet _ hW1
  exact ⟨hN.1.trans hC.1, hNW.1.trans hCL, hN.2.2.2.2.2.2.1⟩

/-- Without the awaiting-data flag `StartNewFrame` keeps `_targetFrame`. -/
theorem StartNewFrame_targetFrame_of_not_waiting (activateRet : Nat) (s : FGState)
    (hW : s._waitingNewFrameData = false) :
    (StartNewFrame activateRet s).1._targetFrame = s._targetFrame := by
  have hC := StartNewFrame_counters_fields s
  have hW1 : (StartNewFrame_resetSlot (StartNewFrame_counters s))._waitingNewFrameData = false :=
    hC.2.2.trans hW
  have h1 : (StartNewFrame activateRet s).1._targetFrame =
      (StartNewFrame_resetSlot (StartNewFrame_counters s))._targetFrame := by
    show (NewFrame activateRet (StartNewFrame_resetSlot (StartNewFrame_counters s)))._targetFrame
      = _
    unfold NewFrame
    simp [hW1]
  have h2 : (StartNewFrame_counters s)._targetFrame = s._targetFrame := by
    unfold StartNewFrame_counters
    simp only []
    split_ifs <;> rfl
  exact h1.trans h2

/-- `GetDispatchIndex` keeps `_frameCount` and the awaiting-data flag, and from
`_lastDispatchedFrame <= _frameCount` below the wrap it moves
`_lastDispatchedFrame` up, never past `_frameCount`. -/
theorem GetDispatchIndex_bounds (cfg : Config) (fgLastFrame : Nat) (s : FGState) (w : Nat)
    (hlf : s._lastDispatchedFrame ≤ s._frameCount) (hf : s._frameCount < U64_MOD) :
    (GetDispatchIndex cfg fgLastFrame s w).1._frameCount = s._frameCount ∧
    (GetDispatchIndex cfg fgLastFrame s w).1._waitingNewFrameData = s._waitingNewFrameData ∧
    s._lastDispatchedFrame ≤ (GetDispatchIndex cfg fgLastFrame s w).1._lastDispatchedFrame ∧
    (GetDispatchIndex cfg fgLastFrame s w).1._lastDispatchedFrame ≤ s._frameCount := by
  by_cases heq : s._frameCount = s._lastDispatchedFrame
  · rw [GetDispatchIndex_noop_of_eq cfg fgLastFrame s w heq]
    exact ⟨rfl, rfl, Nat.le_refl _, hlf⟩
  · have hgap : u64sub s._frameCount s._lastDispatchedFrame =
        s._frameCount - s._lastDispatchedFrame := u64sub_of_le hlf hf
    have hhalf : u64add s._lastDispatchedFrame ((s._frameCount - s._lastDispatchedFrame) / 2) =
        s._lastDispatchedFrame + (s._frameCount - s._lastDispatchedFrame) / 2 :=
      u64add_of_lt (by omega)
    have hone : u64add s._lastDispatchedFrame 1 = s._lastDispatchedFrame + 1 :=
      u64add_of_lt (by omega)
    obtain ⟨t, -, hG, hc⟩ := selection_shape cfg fgLastFrame s w
    rw [hG heq]
    rw [hgap, hhalf, hone] at hc
    have hb : s._lastDispatchedFrame ≤ t ∧ t ≤ s._frameCount := by
      rcases hc with ⟨ht, -⟩ | ⟨ht, -⟩ | ⟨ht, -⟩ <;> omega
    exact ⟨rfl, rfl, hb.1, hb.2⟩

/-- `Activate` keeps `_frameCount` and the awaiting-data flag and leaves
`_lastDispatchedFrame` as it is or at 0. -/
theorem Activate_counters (ret : Nat) (s : FGState) :
    (Activate ret s)._frameCount = s._frameCount ∧
    (Activate ret s)._waitingNewFrameData = s._waitingNewFrameData ∧
    ((Activate ret s)._lastDispatchedFrame = s._lastDispatchedFrame ∨
      (Activate ret s)._lastDispatchedFrame = 0) := by
  unfold Activate
  split_ifs
  · exact ⟨rfl, rfl, Or.inr rfl⟩
  · exact ⟨rfl, rfl, Or.inl rfl⟩
  · exact ⟨rfl, rfl, Or.inl rfl⟩

/-- `Deactivate` writes the activity flag only. -/
theorem Deactivate_counters (ret : Nat) (s : FGState) :
    (Deactivate ret s)._frameCount = s._frameCount ∧
    (Deactivate ret s)._waitingNewFrameData = s._waitingNewFrameData ∧
    (Deactivate ret s)._lastDispatchedFrame = s._lastDispatchedFrame := by
  unfold Deactivate
  split_ifs <;> exact ⟨rfl, rfl, rfl⟩

/-- `CreateContext` keeps `_frameCount` and the awaiting-data flag and leaves
`_lastDispatchedFrame` as it is or at 0. -/
theorem CreateContext_counters (env : CreateContextEnv) (s : FGState) :
    (CreateContext env s)._frameCount = s._frameCount ∧
    (CreateContext env s)._waitingNewFrameData = s._waitingNewFrameData ∧
    ((CreateContext env s)._lastDispatchedFrame = s._lastDispatchedFrame ∨
      (CreateContext env s)._lastDispatchedFrame = 0) := by
  unfold CreateContext CreateObjects
  simp only []
  split_ifs <;> first | exact ⟨rfl, rfl, Or.inl rfl⟩ | exact ⟨rfl, rfl, Or.inr rfl⟩

/-- Every call other than `DestroyFGContext` keeps the drift invariant, as long
as the number of calls stays below `2^64`. -/
theorem step_driftInv (cfg : Config) (s s1 : FGState) (op : PipelineOp) (k : Nat)
    (hop : op.isDestroy = false) (hk : k + 1 < U64_MOD) (hinv : driftInv s k)
    (hstep : step cfg s op = some s1) : driftInv s1 (k + 1) := by
  obtain ⟨hlf, hfk, hW⟩ := hinv
  cases op with
  | StartNewFrame activateRet =>
    obtain rfl := Option.some.inj hstep
    obtain ⟨hF, hL, hW1⟩ := StartNewFrame_counters_of_not_waiting activateRet s hW
    have hb := spec_StartNewFrame_lastDispatched_bounds s._frameCount s._lastDispatchedFrame
      s._isActive s._waitingNewFrameData hlf (by omega)
    have hadd : u64add s._frameCount 1 = s._frameCount + 1 := u64add_of_lt (by omega)
    refine ⟨?_, ?_, hW1⟩
    · rw [hF, hL, hadd]
      exact hb.2
    · rw [hF, hadd]
      omega
  | GetDispatchIndex fgLastFrame =>
    obtain rfl := Option.some.inj hstep
    obtain ⟨hF, hW1, -, hle⟩ := GetDispatchIndex_bounds cfg fgLastFrame s 0 hlf (by omega)
    exact ⟨by rw [hF]; exact hle, by rw [hF]; omega, hW1.trans hW⟩
  | Activate ret =>
    obtain rfl := Option.some.inj hstep
    obtain ⟨hF, hW1, hL⟩ := Activate_counters ret s
    refine ⟨?_, by rw [hF]; omega, hW1.trans hW⟩
    rcases hL with h | h <;> rw [h, hF]
    · exact hlf
    · exact Nat.zero_le _
  | Deactivate ret =>
    obtain rfl := Option.some.inj hstep
    obtain ⟨hF, hW1, hL⟩ := Deactivate_counters ret s
    exact ⟨by rw [hF, hL]; exact hlf, by rw [hF]; omega, hW1.trans hW⟩
  | CreateContext env =>
    obtain rfl := Option.some.inj hstep
    obtain ⟨hF, hW1, hL⟩ := CreateContext_counters env s
    refine ⟨?_, by rw [hF]; omega, hW1.trans hW⟩
    rcases hL with h | h <;> rw [h, hF]
    · exact hlf
    · exact Nat.zero_le _
  | DestroyFGContext deactivateRet => exact absurd hop (by simp [PipelineOp.isDestroy])
  | SetResource env inputResource =>
    unfold step at hstep
    cases hres : SetResource cfg env s inputResource with
    | none => simp [hres] at hstep
    | some r =>
      simp only [hres, Option.map_some', Option.some.injEq] at hstep
      have hc := counters_SetResource cfg env s inputResource r hres
      have hF : s1._frameCount = s._frameCount := by
        rw [← hstep]
        exact congrArg (fun c => c.1) hc
      have hL : s1._lastDispatchedFrame = s._lastDispatchedFrame := by
        rw [← hstep]
        exact congrArg (fun c => c.2.1) hc
      have hW1 : s1._waitingNewFrameData = s._waitingNewFrameData := by
        rw [← hstep]
        exact congrArg (fun c => c.2.2.2.2) hc
      exact ⟨by rw [hF, hL]; exact hlf, by rw [hF]; omega, hW1.trans hW⟩

/-- A call that is neither `DestroyFGContext` nor one of the two resetting calls
never lowers `_lastDispatchedFrame`. -/
theorem step_lastDispatched_mono (cfg : Config) (s s1 : FGState) (op : PipelineOp) (k : Nat)
    (hop : op.isDestroy = false) (hreset : op.isReset = false) (hk : k + 1 < U64_MOD)
    (hinv : driftInv s k) (hstep : step cfg s op = some s1) :
    s._lastDispatchedFrame ≤ s1._lastDispatchedFrame := by
  obtain ⟨hlf, hfk, hW⟩ := hinv
  cases op with
  | StartNewFrame activateRet =>
    obtain rfl := Option.some.inj hstep
    obtain ⟨-, hL, -⟩ := StartNewFrame_counters_of_not_waiting activateRet s hW
    rw [hL]
    exact (spec_StartNewFrame_lastDispatched_bounds s._frameCount s._lastDispatchedFrame
      s._isActive s._waitingNewFrameData hlf (by omega)).1
  | GetDispatchIndex fgLastFrame =>
    obtain rfl := Option.some.inj hstep
    exact (GetDispatchIndex_bounds cfg fgLastFrame s 0 hlf (by omega)).2.2.1
  | Activate ret => exact absurd hreset (by simp [PipelineOp.isReset])
  | Deactivate ret =>
    obtain rfl := Option.some.inj hstep
    exact Nat.le_of_eq (Deactivate_counters ret s).2.2.symm
  | CreateContext env => exact absurd hreset (by simp [PipelineOp.isReset])
  | DestroyFGContext deactivateRet => exact absurd hop (by simp [PipelineOp.isDestroy])
  | SetResource env inputResource =>
    unfold step at hstep
    cases hres : SetResource cfg env s inputResource with
    | none => simp [hres] at hstep
    | some r =>
      simp only [hres, Option.map_some', Option.some.injEq] at hstep
      have hc := counters_SetResource cfg env s inputResource r hres
      have hL : s1._lastDispatchedFrame = s._lastDispatchedFrame := by
        rw [← hstep]
        exact congrArg (fun c => c.2.1) hc
      exact Nat.le_of_eq hL.symm

/-- The drift invariant holds along every run without `DestroyFGContext` of
fewer than `2^64` calls. -/
theorem run_driftInv (cfg : Config) (ops : List PipelineOp) :
    ∀ (s s1 : FGState) (k : Nat), (∀ op ∈ ops, op.isDestroy = false) →
      k + ops.length < U64_MOD → driftInv s k → run cfg s ops = some s1 →
      driftInv s1 (k + ops.length) := by
  induction ops with
  | nil =>
    intro s s1 k _ _ hinv hrun
    obtain rfl := Option.some.inj hrun
    exact hinv
  | cons op ops ih =>
    intro s s1 k hops hk hinv hrun
    have hlen : (op :: ops).length = ops.length + 1 := rfl
    rw [hlen] at hk
    cases hstep : step cfg s op with
    | none =>
      unfold run at hrun
      simp [hstep] at hrun
    | some s2 =>
      unfold run at hrun
      simp only [hstep] at hrun
      have h2 := step_driftInv cfg s s2 op k (hops op (List.mem_cons_self _ _)) (by omega)
        hinv hstep
      have h3 := ih s2 s1 (k + 1) (fun o ho => hops o (List.mem_cons_of_mem _ ho)) (by omega)
        h2 hrun
      rw [hlen]
      have : k + (ops.length + 1) = k + 1 + ops.length := by omega
      rw [this]
      exact h3

/-- Along a run without `DestroyFGContext`, `Activate` and `CreateContext`, the
values of `_lastDispatchedFrame` read after the `GetDispatchIndex` calls never
decrease, starting from the value before the run. -/
theorem dispatchedAfter_chain (cfg : Config) (ops : List PipelineOp) :
    ∀ (s : FGState) (obs : List Nat) (k : Nat),
      (∀ op ∈ ops, op.isDestroy = false ∧ op.isReset = false) →
      k + ops.length < U64_MOD → driftInv s k → dispatchedAfter cfg s ops = some obs →
      List.Chain (· ≤ ·) s._lastDispatchedFrame obs := by
  induction ops with
  | nil =>
    intro s obs k _ _ _ hobs
    obtain rfl := Option.some.inj hobs
    exact List.Chain.nil
  | cons op ops ih =>
    intro s obs k hops hk hinv hobs
    have hlen : (op :: ops).length = ops.length + 1 := rfl
    rw [hlen] at hk
    have hop := hops op (List.mem_cons_self _ _)
    cases hstep : step cfg s op with
    | none =>
      unfold dispatchedAfter at hobs
      simp [hstep] at hobs
    | some s2 =>
      cases hrest : dispatchedAfter cfg s2 ops with
      | none =>
        unfold dispatchedAfter at hobs
        simp [hstep, hrest] at hobs
      | some obs2 =>
        unfold dispatchedAfter at hobs
        simp only [hstep, hrest, Option.some.injEq] at hobs
        have h2 := step_driftInv cfg s s2 op k hop.1 (by omega) hinv hstep
        have hmono := step_lastDispatched_mono cfg s s2 op k hop.1 hop.2 (by omega) hinv hstep
        have h3 := ih s2 obs2 (k + 1) (fun o ho => hops o (List.mem_cons_of_mem _ ho))
          (by omega) h2 hrest
        rw [← hobs]
        split_ifs
        · exact List.Chain.cons hmono h3
        · exact chain_le_weaken hmono h3

/-- The initial state satisfies the drift invariant. -/
theorem initialState_driftInv : driftInv initialState 0 :=
  ⟨Nat.le_refl _, Nat.le_refl _, rfl⟩

/-- C1, as stated, fails.  After `destroyTrace` (create the context, dispatch
frames 1 and 2, destroy the context) the record has `_lastDispatchedFrame = 2`,
which is not 0, above `_frameCount = 1`; and after re-creating the context the
values of `_lastDispatchedFrame` read after the three `GetDispatchIndex` calls are
1, 2, 1. -/
theorem lastDispatchedFrame_monotone_counterexample :
    (run (cfgAhead 1) initialState destroyTrace).map
        (fun s => (s._lastDispatchedFrame, s._frameCount)) = some (2, 1) ∧
      ¬ ((2 : Nat) ≠ 0 → (2 : Nat) ≤ 1) ∧
      dispatchedAfter (cfgAhead 1) initialState recreateTrace = some [1, 2, 1] ∧
      ¬ List.Chain' (· ≤ ·) ([1, 2, 1] : List Nat) := by
  refine ⟨by decide, by decide, by decide, by simp⟩

/-- C1, amended: in every state reachable from the initial state by fewer than
`2^64` calls of `StartNewFrame`, `GetDispatchIndex`, `Activate`, `Deactivate`,
`CreateContext` and `SetResource` (no `DestroyFGContext`),
`_lastDispatchedFrame <= _frameCount` holds; and over any further stretch of calls
without `Activate`, `CreateContext` and `DestroyFGContext`, the values of
`_lastDispatchedFrame` read after successive `GetDispatchIndex` calls are
non-decreasing, starting at or above the value the stretch began with, and the
stretch ends with `_lastDispatchedFrame <= _frameCount` again. -/
theorem lastDispatchedFrame_monotone (cfg : Config) (ops ops2 : List PipelineOp)
    (s s2 : FGState) (obs : List Nat)
    (hlen : ops.length + ops2.length < U64_MOD)
    (hops : ∀ op ∈ ops, op.isDestroy = false)
    (hrun : run cfg initialState ops = some s)
    (hops2 : ∀ op ∈ ops2, op.isDestroy = false ∧ op.isReset = false)
    (hobs : dispatchedAfter cfg s ops2 = some obs)
    (hrun2 : run cfg s ops2 = some s2) :
    s._lastDispatchedFrame ≤ s._frameCount ∧
      List.Chain (· ≤ ·) s._lastDispatchedFrame obs ∧
      s2._lastDispatchedFrame ≤ s2._frameCount := by
  have hinv := run_driftInv cfg ops initialState s 0 hops (by omega) initialState_driftInv hrun
  have hinv2 := run_driftInv cfg ops2 s s2 (0 + ops.length) (fun o ho => (hops2 o ho).1)
    (by omega) hinv hrun2
  exact ⟨hinv.1, dispatchedAfter_chain cfg ops2 s obs (0 + ops.length) hops2 (by omega) hinv hobs,
    hinv2.1⟩

theorem lastDispatchedFrame_monotone_witness :
    (warmState._lastDispatchedFrame, warmState._frameCount) = (1, 1) ∧
      dispatchedAfter (cfgAhead 1) warmState steadyTrace = some [2, 3] ∧
      (steadyState._lastDispatchedFrame, steadyState._frameCount) = (3, 4) ∧
      (warmState._lastDispatchedFrame ≤ warmState._frameCount ∧
        List.Chain (· ≤ ·) warmState._lastDispatchedFrame [2, 3] ∧
        steadyState._lastDispatchedFrame ≤ steadyState._frameCount) :=
  ⟨by decide, by decide, by decide,
    lastDispatchedFrame_monotone (cfgAhead 1) warmupTrace steadyTrace warmState steadyState
      [2, 3] (by decide) (by decide) rfl (by decide) (by decide) rfl⟩

/-! ## Activation and pause -/

/-- C16: when the back end's configure call fails, `Activate` leaves the record
(activity flag and `_lastDispatchedFrame` included) unchanged, and so does
`Deactivate` on a pipeline with a context; when it succeeds, `Activate` on an
inactive pipeline with context and swap chain sets the flag and resets
`_lastDispatchedFrame` to 0, and `Deactivate` on an active pipeline clears the
flag; `Activate` does nothing when the pipeline is already active or has no
context, and `Deactivate` does nothing when the pipeline is not active. -/
theorem Activate_Deactivate_nonfatal (ret : Nat) (s : FGState) :
    (ret ≠ FFX_API_RETURN_OK → Activate ret s = s) ∧
    (ret ≠ FFX_API_RETURN_OK → s._fgContext ≠ 0 → Deactivate ret s = s) ∧
    (ret = FFX_API_RETURN_OK → s._fgContext ≠ 0 → s._swapChain ≠ VK_NULL_HANDLE →
      s._isActive = false →
      Activate ret s = { s with _isActive := true, _lastDispatchedFrame := 0 }) ∧
    (ret = FFX_API_RETURN_OK → s._isActive = true →
      Deactivate ret s = { s with _isActive := false }) ∧
    (s._isActive = true ∨ s._fgContext = 0 → Activate ret s = s) ∧
    (s._isActive = false → Deactivate ret s = s) := by
  refine ⟨?_, ?_, ?_, ?_, ?_, ?_⟩
  · intro h
    unfold Activate
    simp [h]
  · intro h hc
    unfold Deactivate
    simp [h, hc]
  · intro h hc hsw ha
    unfold Activate
    simp [h, hc, hsw, ha]
  · intro h ha
    unfold Deactivate
    simp [h, ha]
  · intro h
    unfold Activate
    rcases h with h | h <;> simp [h]
  · intro h
    unfold Deactivate
    simp [h]

theorem Activate_Deactivate_nonfatal_witness :
    Activate 1 autoPausedState = autoPausedState ∧
    (Activate 0 autoPausedState)._isActive = true ∧
    (Activate 0 autoPausedState)._lastDispatchedFrame = 0 ∧
    Deactivate 1 presentedState = presentedState ∧
    (Deactivate 0 presentedState)._isActive = false := by
  have h1 := Activate_Deactivate_nonfatal 1 autoPausedState
  have h0 := Activate_Deactivate_nonfatal 0 autoPausedState
  have d1 := Activate_Deactivate_nonfatal 1 presentedState
  have d0 := Activate_Deactivate_nonfatal 0 presentedState
  refine ⟨h1.1 (by decide), ?_, ?_, d1.2.1 (by decide) (by decide), ?_⟩
  · rw [h0.2.2.1 rfl (by decide) (by decide) (by decide)]
  · rw [h0.2.2.1 rfl (by decide) (by decide) (by decide)]
  · rw [d0.2.2.2.1 rfl (by decide)]

/-- `IsPaused` holds exactly when `_targetFrame` is not 0 and not below
`_frameCount`. -/
theorem IsPaused_iff (s : FGState) :
    IsPaused s = true ↔ (s._targetFrame ≠ 0 ∧ s._targetFrame ≥ s._frameCount) := by
  unfold IsPaused
  simp

/-- Without the awaiting-data flag, `k` further `StartNewFrame` calls add `k` to
`_frameCount` modulo `2^64` and keep `_targetFrame`. -/
theorem StartNewFrames_fields (activateRet : Nat → Nat) (s : FGState)
    (hW : s._waitingNewFrameData = false) (k : Nat) :
    (StartNewFrames activateRet s k)._frameCount % U64_MOD = (s._frameCount + k) % U64_MOD ∧
    (0 < k → (StartNewFrames activateRet s k)._frameCount < U64_MOD) ∧
    (StartNewFrames activateRet s k)._targetFrame = s._targetFrame ∧
    (StartNewFrames activateRet s k)._waitingNewFrameData = false := by
  induction k with
  | zero => exact ⟨rfl, fun h => absurd h (Nat.lt_irrefl 0), rfl, hW⟩
  | succ k ih =>
    obtain ⟨hF, -, hT, hWk⟩ := ih
    have hc := StartNewFrame_counters_of_not_waiting (activateRet k)
      (StartNewFrames activateRet s k) hWk
    have hT1 := StartNewFrame_targetFrame_of_not_waiting (activateRet k)
      (StartNewFrames activateRet s k) hWk
    have hstep : (StartNewFrames activateRet s (k + 1))._frameCount =
        u64add (StartNewFrames activateRet s k)._frameCount 1 := hc.1
    refine ⟨?_, ?_, hT1.trans hT, hc.2.2⟩
    · rw [hstep]
      unfold u64add
      unfold U64_MOD at *
      omega
    · intro _
      rw [hstep]
      unfold u64add
      exact Nat.mod_lt _ (by decide)

/-- Below the wrap, `k` further `StartNewFrame` calls add exactly `k` to
`_frameCount`. -/
theorem StartNewFrames_frameCount (activateRet : Nat → Nat) (s : FGState)
    (hW : s._waitingNewFrameData = false) (k : Nat) (hk : s._frameCount + k < U64_MOD) :
    (StartNewFrames activateRet s k)._frameCount = s._frameCount + k := by
  obtain ⟨hF, hlt, -, -⟩ := StartNewFrames_fields activateRet s hW k
  cases k with
  | zero => rfl
  | succ j =>
    have h1 := hlt (Nat.succ_pos j)
    rw [Nat.mod_eq_of_lt h1, Nat.mod_eq_of_lt hk] at hF
    exact hF

/-- C14, as stated, fails: after `UpdateTarget` at `_frameCount = 0` (so
`_targetFrame = 10`), `2^64` further `StartNewFrame` calls wrap `_frameCount` back
to 0 and `IsPaused` is true again although `2^64 > 10`. -/
theorem IsPaused_cooldown_counterexample :
    (countersState 0 0)._waitingNewFrameData = false ∧
    (countersState 0 0)._frameCount + 10 < U64_MOD ∧
    IsPaused (StartNewFrames (fun _ => 0) (UpdateTarget (countersState 0 0)) U64_MOD) = true ∧
    ¬ (U64_MOD ≤ 10) := by
  refine ⟨rfl, by decide, ?_, by decide⟩
  obtain ⟨hF, hlt, hT, -⟩ :=
    StartNewFrames_fields (fun _ => 0) (UpdateTarget (countersState 0 0)) rfl U64_MOD
  have h1 := hlt (by decide)
  have hF0 : (StartNewFrames (fun _ => 0) (UpdateTarget (countersState 0 0)) U64_MOD)._frameCount
      = 0 := by
    rw [Nat.mod_eq_of_lt h1] at hF
    rw [hF]
    decide
  rw [IsPaused_iff, hT, hF0]
  decide

/-- C14, amended: `IsPaused` holds exactly when `_targetFrame` is not 0 and not
below `_frameCount`; hence after `UpdateTarget` at `_frameCount = f`, with the
pipeline not awaiting new frame data and neither `f + 10` nor `f + k`
overflowing, `IsPaused` is true immediately and, after `k` further
`StartNewFrame` calls, is true if and only if `k <= 10`. -/
theorem IsPaused_cooldown (activateRet : Nat → Nat) (s : FGState) (k : Nat)
    (hW : s._waitingNewFrameData = false) (h10 : s._frameCount + 10 < U64_MOD)
    (hk : s._frameCount + k < U64_MOD) :
    (∀ s1 : FGState,
      IsPaused s1 = true ↔ (s1._targetFrame ≠ 0 ∧ s1._targetFrame ≥ s1._frameCount)) ∧
    IsPaused (UpdateTarget s) = true ∧
    (IsPaused (StartNewFrames activateRet (UpdateTarget s) k) = true ↔ k ≤ 10) := by
  have hT : (UpdateTarget s)._targetFrame = s._frameCount + 10 := u64add_of_lt h10
  have hF : (UpdateTarget s)._frameCount = s._frameCount := rfl
  have hWu : (UpdateTarget s)._waitingNewFrameData = false := hW
  refine ⟨IsPaused_iff, ?_, ?_⟩
  · rw [IsPaused_iff, hT, hF]
    omega
  · have hFk := StartNewFrames_frameCount activateRet (UpdateTarget s) hWu k hk
    have hTk := (StartNewFrames_fields activateRet (UpdateTarget s) hWu k).2.2.1
    rw [IsPaused_iff, hTk, hFk, hT, hF]
    omega

theorem IsPaused_cooldown_witness :
    IsPaused (UpdateTarget (countersState 7 7)) = true ∧
    (IsPaused (StartNewFrames (fun _ => 0) (UpdateTarget (countersState 7 7)) 11) = true
      ↔ 11 ≤ 10) :=
  (IsPaused_cooldown (fun _ => 0) (countersState 7 7) 11 rfl (by decide) (by decide)).2

/-- C15, as stated, fails: from `_frameCount = 2^64 - 1`, `ResetCounters` sets
`_targetFrame = 2^64 - 1`, the next `StartNewFrame` wraps `_frameCount` to 0, and
`IsPaused` is true. -/
theorem ResetCounters_ends_pause_counterexample :
    (countersState (U64_MOD - 1) 0)._waitingNewFrameData = false ∧
    IsPaused (StartNewFrame 0 (ResetCounters (countersState (U64_MOD - 1) 0))).1 = true := by
  decide

/-- C15, amended: for every state not awaiting new frame data whose
`_frameCount + 1` does not overflow, `IsPaused` is false after `ResetCounters`
followed by one `StartNewFrame`; and for every state, immediately after
`ResetCounters` alone `IsPaused` is true exactly when `_frameCount` is not 0. -/
theorem ResetCounters_ends_pause (activateRet : Nat) (s : FGState)
    (hW : s._waitingNewFrameData = false) (hF : s._frameCount + 1 < U64_MOD) :
    IsPaused (StartNewFrame activateRet (ResetCounters s)).1 = false ∧
    (∀ s1 : FGState, IsPaused (ResetCounters s1) = true ↔ s1._frameCount ≠ 0) := by
  constructor
  · have hWr : (ResetCounters s)._waitingNewFrameData = false := hW
    have hc := (StartNewFrame_counters_of_not_waiting activateRet (ResetCounters s) hWr).1
    have hT := StartNewFrame_targetFrame_of_not_waiting activateRet (ResetCounters s) hWr
    have hadd : u64add s._frameCount 1 = s._frameCount + 1 := u64add_of_lt hF
    have hF1 : (StartNewFrame activateRet (ResetCounters s)).1._frameCount = s._frameCount + 1 :=
      hc.trans hadd
    have hT1 : (StartNewFrame activateRet (ResetCounters s)).1._targetFrame = s._frameCount := hT
    cases hp : IsPaused (StartNewFrame activateRet (ResetCounters s)).1 with
    | false => rfl
    | true =>
      rw [IsPaused_iff, hF1, hT1] at hp
      omega
  · intro s1
    rw [IsPaused_iff]
    show (s1._frameCount ≠ 0 ∧ s1._frameCount ≥ s1._frameCount) ↔ _
    constructor
    · exact fun h => h.1
    · exact fun h => ⟨h, Nat.le_refl _⟩

theorem ResetCounters_ends_pause_witness :
    IsPaused (StartNewFrame 0 (ResetCounters (countersState 7 7))).1 = false ∧
    IsPaused (ResetCounters (countersState 7 7)) = true := by
  have h := ResetCounters_ends_pause 0 (countersState 7 7) rfl (by decide)
  exact ⟨h.1, (h.2 (countersState 7 7)).2 (by decide)⟩

/-! ## The evaluation tick -/

/-- `Deactivate` with a successful configure call leaves the activity flag
false and keeps the awaiting-data flag. -/
theorem Deactivate_ok_flags (s : FGState) :
    (Deactivate FFX_API_RETURN_OK s)._isActive = false ∧
    (Deactivate FFX_API_RETURN_OK s)._waitingNewFrameData = s._waitingNewFrameData := by
  unfold Deactivate
  cases ha : s._isActive <;> simp [ha]

/-- With frame generation disabled, the transitions of `EvaluateState` leave an
active pipeline that is not awaiting data inactive when the configure call
succeeds. -/
theorem EvaluateState_transitions_disabled (cfg : Config) (env : EvaluateStateEnv)
    (g : Globals) (s : FGState)
    (hcfg : cfg.FGEnabled = false) (hactive : IsActive s = true)
    (hW : s._waitingNewFrameData = false) (hret : env.deactivateRet = FFX_API_RETURN_OK) :
    IsActive (EvaluateState_transitions cfg env g s).1 = false := by
  obtain ⟨h1, h2⟩ := Deactivate_ok_flags s
  unfold EvaluateState_transitions
  simp only [hcfg, hactive, hret, if_true, Bool.false_eq_true, if_false]
  unfold IsActive
  rw [h1, h2, hW]
  rfl

/-- C17, as stated, fails: after the automatic pause of `Present` the activity
flag is false and the awaiting-data flag is set, so `IsActive` is true; with
frame generation disabled, an `EvaluateState` tick that passes its guards and
whose configure call would succeed leaves `IsActive` true. -/
theorem EvaluateState_disabled_counterexample :
    cfgDisabled.FGEnabled = false ∧ IsActive autoPausedState = true ∧
    IsActive (EvaluateState cfgDisabled {} globalsWithSwapchain autoPausedState).1 = true := by
  decide

/-- C17, amended: for every state in which frame generation is disabled in
configuration, `IsActive` is true and the pipeline is not awaiting new frame
data, an `EvaluateState` tick that passes its readiness guards (back end ready,
swap chain present, not shutting down) and whose configure call succeeds leaves
the pipeline with `IsActive` false. -/
theorem EvaluateState_disabled_deactivates (cfg : Config) (env : EvaluateStateEnv)
    (g : Globals) (s : FGState)
    (hcfg : cfg.FGEnabled = false) (hactive : IsActive s = true)
    (hW : s._waitingNewFrameData = false)
    (hready : env.fgReady = true) (hsc : g.currentVkFGSwapchain ≠ 0)
    (hshut : g.isShuttingDown = false) (hret : env.deactivateRet = FFX_API_RETURN_OK) :
    IsActive (EvaluateState cfg env g s).1 = false := by
  have htr := EvaluateState_transitions_disabled cfg env
  have hsc1 : (g.currentVkFGSwapchain == 0) = false := by simpa using hsc
  unfold EvaluateState
  simp only [hready, hsc1, hshut]
  simp only [Bool.not_true, Bool.false_or, if_false, Bool.false_eq_true]
  split_ifs <;>
    (refine htr _ _ hcfg ?_ ?_ hret
     · exact hactive
     · exact hW)

theorem EvaluateState_disabled_deactivates_witness :
    IsActive presentedState = true ∧
    IsActive (EvaluateState cfgDisabled {} globalsWithSwapchain presentedState).1 = false :=
  ⟨by decide, EvaluateState_disabled_deactivates cfgDisabled {} globalsWithSwapchain
    presentedState rfl (by decide) rfl rfl (by decide) rfl rfl⟩

/-! ## The back end's callback -/

/-- The cancellation checks keep the frame id of the descriptor. -/
theorem DispatchCallback_guards_frameID (cfg : Config) (g : Globals) (s : FGState)
    (params : ffxDispatchDescFrameGeneration) :
    (DispatchCallback_guards cfg g s params).frameID = params.frameID := by
  unfold DispatchCallback_guards
  simp only []
  split_ifs <;> rfl

/-- The cancellation checks zero `numGeneratedFrames` for the frame id seen
last. -/
theorem DispatchCallback_guards_same_id (cfg : Config) (g : Globals) (s : FGState)
    (params : ffxDispatchDescFrameGeneration)
    (h : params.frameID = g.DispatchCallback_lastFrameId) :
    (DispatchCallback_guards cfg g s params).numGeneratedFrames = 0 := by
  unfold DispatchCallback_guards
  simp only []
  split_ifs <;> first | rfl | simp_all

/-- The cancellation checks zero `numGeneratedFrames` when `IsActive` is
false. -/
theorem DispatchCallback_guards_inactive (cfg : Config) (g : Globals) (s : FGState)
    (params : ffxDispatchDescFrameGeneration) (h : IsActive s = false) :
    (DispatchCallback_guards cfg g s params).numGeneratedFrames = 0 := by
  unfold DispatchCallback_guards
  simp only []
  split_ifs <;> first | rfl | simp_all

/-- The descriptor `DispatchCallback` leaves and the one it forwards carry
`numGeneratedFrames = 0` whenever the cancellation checks zeroed it. -/
theorem DispatchCallback_cancelled (cfg : Config) (dispatchRet : Nat) (g : Globals)
    (s : FGState) (params : ffxDispatchDescFrameGeneration)
    (h : (DispatchCallback_guards cfg g s params).numGeneratedFrames = 0) :
    (DispatchCallback cfg dispatchRet g s params).params.numGeneratedFrames = 0 ∧
    ∀ p, (DispatchCallback cfg dispatchRet g s params).forwarded = some p →
      p.numGeneratedFrames = 0 := by
  unfold DispatchCallback
  simp only []
  split_ifs
  · refine ⟨rfl, ?_⟩
    intro p hp
    cases hp
  · refine ⟨h, ?_⟩
    intro p hp
    cases hp
    exact h

/-- `DispatchCallback` hands the record back unchanged and records the frame id
of the descriptor as last seen. -/
theorem DispatchCallback_state (cfg : Config) (dispatchRet : Nat) (g : Globals) (s : FGState)
    (params : ffxDispatchDescFrameGeneration) :
    (DispatchCallback cfg dispatchRet g s params).state = s ∧
    (DispatchCallback cfg dispatchRet g s params).globals.DispatchCallback_lastFrameId =
      params.frameID := by
  have hid := DispatchCallback_guards_frameID cfg g s params
  unfold DispatchCallback
  simp only []
  split_ifs <;> exact ⟨rfl, hid⟩

/-- A callback for the frame id seen last leaves `numGeneratedFrames = 0`, in the
descriptor and in what it forwards to the back end. -/
theorem DispatchCallback_same_id (cfg : Config) (dispatchRet : Nat) (g : Globals) (s : FGState)
    (params : ffxDispatchDescFrameGeneration)
    (h : params.frameID = g.DispatchCallback_lastFrameId) :
    (DispatchCallback cfg dispatchRet g s params).params.numGeneratedFrames = 0 ∧
    ∀ p, (DispatchCallback cfg dispatchRet g s params).forwarded = some p →
      p.numGeneratedFrames = 0 :=
  DispatchCallback_cancelled cfg dispatchRet g s params
    (DispatchCallback_guards_same_id cfg g s params h)

/-- C18: whatever the first invocation of `DispatchCallback` for a frame id does,
a second invocation with the same frame id — no invocation in between, under any
configuration, record and other process-wide state — sets
`numGeneratedFrames = 0` (also in the descriptor it forwards), and every
invocation hands the record, so the per-slot resource registry and the
readiness sets, back unchanged. -/
theorem DispatchCallback_duplicate_guard (cfg1 cfg2 : Config) (ret1 ret2 : Nat)
    (g1 g2 : Globals) (s1 s2 : FGState) (p1 p2 : ffxDispatchDescFrameGeneration)
    (hid : p2.frameID = p1.frameID)
    (hlast : g2.DispatchCallback_lastFrameId =
      (DispatchCallback cfg1 ret1 g1 s1 p1).globals.DispatchCallback_lastFrameId) :
    (DispatchCallback cfg2 ret2 g2 s2 p2).params.numGeneratedFrames = 0 ∧
    (∀ p, (DispatchCallback cfg2 ret2 g2 s2 p2).forwarded = some p → p.numGeneratedFrames = 0) ∧
    (DispatchCallback cfg1 ret1 g1 s1 p1).state._frameResources = s1._frameResources ∧
    (DispatchCallback cfg1 ret1 g1 s1 p1).state._resourceReady = s1._resourceReady ∧
    (DispatchCallback cfg2 ret2 g2 s2 p2).state._frameResources = s2._frameResources ∧
    (DispatchCallback cfg2 ret2 g2 s2 p2).state._resourceReady = s2._resourceReady := by
  have h1 := DispatchCallback_state cfg1 ret1 g1 s1 p1
  have h2 := DispatchCallback_state cfg2 ret2 g2 s2 p2
  have hsame : p2.frameID = g2.DispatchCallback_lastFrameId := by
    rw [hlast, h1.2, hid]
  obtain ⟨ha, hb⟩ := DispatchCallback_same_id cfg2 ret2 g2 s2 p2 hsame
  refine ⟨ha, hb, ?_, ?_, ?_, ?_⟩
  · rw [h1.1]
  · rw [h1.1]
  · rw [h2.1]
  · rw [h2.1]

theorem DispatchCallback_duplicate_guard_witness :
    (DispatchCallback {} 0 {} presentedState callbackParams42).params.numGeneratedFrames = 1 ∧
    (DispatchCallback {} 0 (DispatchCallback {} 0 {} presentedState callbackParams42).globals
      presentedState callbackParams42).params.numGeneratedFrames = 0 :=
  ⟨by decide,
    (DispatchCallback_duplicate_guard {} {} 0 0 {}
      (DispatchCallback {} 0 {} presentedState callbackParams42).globals presentedState
      presentedState callbackParams42 callbackParams42 rfl rfl).1⟩

/-- C19, as stated, fails: after the automatic pause of `Present` the activity
flag is false (the pipeline has been deactivated) but the awaiting-data flag
keeps `IsActive` true, and a callback for a new frame id leaves
`numGeneratedFrames = 1`. -/
theorem DispatchCallback_after_deactivation_counterexample :
    autoPausedState._isActive = false ∧
    (DispatchCallback {} 0 {} autoPausedState callbackParams5).params.numGeneratedFrames = 1 := by
  decide

/-- C19, amended: for every state in which `IsActive` is false (the activity
flag is false and the pipeline is not awaiting new frame data), a callback
invocation sets `numGeneratedFrames = 0`, also in the descriptor it forwards. -/
theorem DispatchCallback_after_deactivation (cfg : Config) (dispatchRet : Nat) (g : Globals)
    (s : FGState) (params : ffxDispatchDescFrameGeneration) (h : IsActive s = false) :
    (DispatchCallback cfg dispatchRet g s params).params.numGeneratedFrames = 0 ∧
    ∀ p, (DispatchCallback cfg dispatchRet g s params).forwarded = some p →
      p.numGeneratedFrames = 0 :=
  DispatchCallback_cancelled cfg dispatchRet g s params
    (DispatchCallback_guards_inactive cfg g s params h)

theorem DispatchCallback_after_deactivation_witness :
    (DispatchCallback {} 0 {} inactiveBehindState callbackParams5).params.numGeneratedFrames
      = 0 :=
  (DispatchCallback_after_deactivation {} 0 {} inactiveBehindState callbackParams5
    (by decide)).1

/-! ## The dispatch cycle -/

/-- `GetDispatchIndex` writes `_lastDispatchedFrame` and `_lastFGFrame` only. -/
theorem GetDispatchIndex_fields (cfg : Config) (fgLastFrame : Nat) (s : FGState) (w : Nat) :
    (GetDispatchIndex cfg fgLastFrame s w).1._frameCount = s._frameCount ∧
    (GetDispatchIndex cfg fgLastFrame s w).1._targetFrame = s._targetFrame ∧
    (GetDispatchIndex cfg fgLastFrame s w).1._isActive = s._isActive ∧
    (GetDispatchIndex cfg fgLastFrame s w).1._waitingNewFrameData = s._waitingNewFrameData ∧
    (GetDispatchIndex cfg fgLastFrame s w).1._resourceReady = s._resourceReady := by
  unfold GetDispatchIndex
  split_ifs <;> exact ⟨rfl, rfl, rfl, rfl, rfl⟩

/-- `GetDispatchIndex` changes neither `IsActive` nor `IsPaused`. -/
theorem GetDispatchIndex_IsActive_IsPaused (cfg : Config) (fgLastFrame : Nat) (s : FGState)
    (w : Nat) :
    IsActive (GetDispatchIndex cfg fgLastFrame s w).1 = IsActive s ∧
    IsPaused (GetDispatchIndex cfg fgLastFrame s w).1 = IsPaused s := by
  obtain ⟨h1, h2, h3, h4, _⟩ := GetDispatchIndex_fields cfg fgLastFrame s w
  unfold IsActive IsPaused
  rw [h1, h2, h3, h4]
  exact ⟨rfl, rfl⟩

/-- C13: after a context is created, five frames are admitted and dispatched,
the pipeline is deactivated and a sixth frame is admitted, the pipeline has a
context, is not active and is one frame behind (`_frameCount = 6`,
`_lastDispatchedFrame = 5`).  `Dispatch` then returns false and sends nothing to
the back end, and yet `_lastDispatchedFrame` has moved from 5 to 6:
`GetDispatchIndex` commits the frame before `Dispatch` tests `IsActive` and
`IsPaused`.  The next cycle finds the counters equal, `GetDispatchIndex` returns
-1, and the skipped frame is not selected again.  The comments of
`StartNewFrame` state that `_lastDispatchedFrame` is not updated while the
pipeline is inactive. -/
theorem Dispatch_skip_commits_frame :
    (run {} initialState deactivatedTrace).isSome = true ∧
    IsActive deactivatedState = false ∧
    deactivatedState._fgContext ≠ 0 ∧
    deactivatedState._frameCount = 6 ∧
    deactivatedState._lastDispatchedFrame = 5 ∧
    (Dispatch {} {} {} deactivatedState).result = false ∧
    (Dispatch {} {} {} deactivatedState).request = none ∧
    (Dispatch {} {} {} deactivatedState).state._frameCount = 6 ∧
    (Dispatch {} {} {} deactivatedState).state._lastDispatchedFrame = 6 ∧
    (GetDispatchIndex {} 0 (Dispatch {} {} {} deactivatedState).state 0).2.2 = -1 := by
  decide

/-! ## The registry entry of an accepted report -/

/-- `FlipResource` keeps type, image and validity of the entry it is handed. -/
theorem FlipResource_entry (env : FlipEnv) (ui : UICommandListEnv) (s : FGState)
    (r : VkResource) :
    (FlipResource env ui s r).2.type = r.type ∧ (FlipResource env ui s r).2.image = r.image ∧
    (FlipResource env ui s r).2.validity = r.validity := by
  unfold FlipResource
  simp only []
  split_ifs <;> exact ⟨rfl, rfl, rfl⟩

/-- An entry whose validity is already `UntilPresent` is stored as it is and
marked ready, without a copy. -/
theorem SetResource_finish_of_UntilPresent (env : SetResourceEnv) (s : FGState)
    (inp : VkResource) (i : Nat) (willFlip : Bool) (fR : VkResource)
    (h : fR.validity = FG_ResourceValidity.UntilPresent) :
    SetResource_finish env s inp i willFlip fR =
      (SetResourceReady (setFrameResource s i inp.type fR) inp.type i, true) := by
  obtain ⟨ty, img, tp, lf, w, ht, cb, st, val, iv, cp, cv, fi, we⟩ := fR
  simp only at h
  subst h
  simp [SetResource_finish]

/-- The entry written by `setFrameResource` is the one read back. -/
theorem setFrameResource_get (s : FGState) (i : Nat) (ty : FG_ResourceType) (r : VkResource) :
    (setFrameResource s i ty r)._frameResources i ty = some r := by
  simp [setFrameResource]

/-- `SetResourceReady` writes neither the registry nor the copies. -/
theorem SetResourceReady_frameResources (s : FGState) (i : Nat) (ty : FG_ResourceType) :
    (SetResourceReady s ty i)._frameResources = s._frameResources ∧
    (SetResourceReady s ty i)._resourceCopy = s._resourceCopy := ⟨rfl, rfl⟩

/-- A successful `CopyResource` means `vkCreateImage` succeeded and hands back the
image it created. -/
theorem CopyResource_ok (ok : Bool) (created : Nat) (s : FGState) (src tgt : Nat)
    (h : (CopyResource ok created s src tgt).1 = true) :
    ok = true ∧ (CopyResource ok created s src tgt).2 = created := by
  unfold CopyResource CreateImageResource CreateImageResourceWithSize at h ⊢
  cases ok <;> simp only [] at h ⊢ <;> split_ifs at h ⊢ <;> simp_all

/-- The two ways `SetResource_finish` ends: a resource that is `ValidNow` or
`ValidButMakeCopy` and not flipped is copied and stored as `ValidNow` (or the
call fails with the copy); every other resource is stored as `UntilPresent`. -/
theorem SetResource_finish_eq (env : SetResourceEnv) (s : FGState) (inp : VkResource)
    (i : Nat) (willFlip : Bool) (fR : VkResource) :
    SetResource_finish env s inp i willFlip fR =
      if (fR.validity = FG_ResourceValidity.ValidNow ∨
          fR.validity = FG_ResourceValidity.ValidButMakeCopy) ∧ willFlip = false then
        if (CopyResource env.copyCreateOk env.copyCreated s inp.image
            ((s._resourceCopy i inp.type).getD VK_NULL_HANDLE)).1 = true then
          (SetResourceReady (setFrameResource (setResourceCopy s i inp.type
              (CopyResource env.copyCreateOk env.copyCreated s inp.image
                ((s._resourceCopy i inp.type).getD VK_NULL_HANDLE)).2) i inp.type
            { fR with validity := FG_ResourceValidity.ValidNow,
                      copy := (CopyResource env.copyCreateOk env.copyCreated s inp.image
                        ((s._resourceCopy i inp.type).getD VK_NULL_HANDLE)).2,
                      state := VK_IMAGE_LAYOUT_TRANSFER_DST_OPTIMAL }) inp.type i, true)
        else
          (setFrameResource s i inp.type { fR with validity := FG_ResourceValidity.ValidNow },
            false)
      else
        (SetResourceReady (setFrameResource s i inp.type
          { fR with validity := FG_ResourceValidity.UntilPresent }) inp.type i, true) := by
  obtain ⟨ty, img, tp, lf, w, ht, cb, st, val, iv, cp, cv, fi, we⟩ := fR
  cases val <;> cases willFlip <;> simp [SetResource_finish]
  all_goals split_ifs <;> simp_all

/-- The entry left by a successful `SetResource_finish` obeys `storedEntryLaw`. -/
theorem SetResource_finish_law (env : SetResourceEnv) (s s1 : FGState) (inp : VkResource)
    (i : Nat) (willFlip : Bool) (fR : VkResource)
    (hty : fR.type = inp.type) (himg : fR.image = inp.image)
    (hval : fR.validity = inp.validity ∨ fR.validity = FG_ResourceValidity.UntilPresent)
    (h : SetResource_finish env s inp i willFlip fR = (s1, true)) :
    storedEntryLaw env inp.validity inp.image s1 i inp.type := by
  rw [SetResource_finish_eq] at h
  unfold storedEntryLaw
  split_ifs at h with hv hc
  · obtain ⟨hok, hcp⟩ := CopyResource_ok _ _ _ _ _ hc
    rw [hcp] at h
    have hs := (Prod.mk.inj h).1
    subst hs
    refine ⟨_, setFrameResource_get _ _ _ _, hty, himg, Or.inl rfl, ?_⟩
    intro _
    refine ⟨?_, hok, rfl, rfl, ?_⟩
    · rcases hval with hval | hval
      · rw [← hval]
        exact hv.1
      · rw [hval] at hv
        rcases hv.1 with h1 | h1 <;> cases h1
    · simp [SetResourceReady, setFrameResource, setResourceCopy]
  · exact absurd (Prod.mk.inj h).2 (by decide)
  · have hs := (Prod.mk.inj h).1
    subst hs
    refine ⟨_, setFrameResource_get _ _ _ _, hty, himg, Or.inr rfl, ?_⟩
    intro hh
    cases hh

/-- A format transfer of the UI keeps type, image and validity of the entry. -/
theorem UIFormatTransfer_entry (env : FormatTransferEnv) (s : FGState) (i : Nat)
    (r : VkResource) :
    (UIFormatTransfer env s i r).2.1.type = r.type ∧
    (UIFormatTransfer env s i r).2.1.image = r.image := by
  unfold UIFormatTransfer
  split_ifs <;> exact ⟨rfl, rfl⟩

/-- A format transfer of the hudless colour keeps type and image of the entry. -/
theorem HudlessFormatTransfer_entry (env : FormatTransferEnv) (ui : UICommandListEnv)
    (s : FGState) (i : Nat) (r : VkResource) :
    (HudlessFormatTransfer env ui s i r).2.1.type = r.type ∧
    (HudlessFormatTransfer env ui s i r).2.1.image = r.image := by
  unfold HudlessFormatTransfer
  split_ifs <;> exact ⟨rfl, rfl⟩

/-- The entry left by a successful `SetResource_formats` obeys `storedEntryLaw`. -/
theorem SetResource_formats_law (env : SetResourceEnv) (s s1 : FGState) (inp : VkResource)
    (i : Nat) (willFlip : Bool) (fR : VkResource)
    (hty : fR.type = inp.type) (himg : fR.image = inp.image)
    (hval : fR.validity = inp.validity ∨ fR.validity = FG_ResourceValidity.UntilPresent)
    (h : SetResource_formats env s inp i willFlip fR = (s1, true)) :
    storedEntryLaw env inp.validity inp.image s1 i inp.type := by
  have hui := fun s0 => UIFormatTransfer_entry env.uiTransfer s0 i fR
  have hhu := fun s0 => HudlessFormatTransfer_entry env.hudlessTransfer env.uiCommandList s0 i fR
  unfold SetResource_formats at h
  simp only [] at h
  split_ifs at h
  all_goals first
    | (have h2 := (Prod.mk.inj h).2
       cases h2
       done)
    | (refine SetResource_finish_law _ _ _ _ _ _ _ ?_ ?_ ?_ h
       · first | exact hty | exact (hui _).1.trans hty | exact (hhu _).1.trans hty
       · first | exact himg | exact (hui _).2.trans himg | exact (hhu _).2.trans himg
       · first | exact hval | exact Or.inr rfl)

/-- The entry left by a successful `SetResource_store` obeys `storedEntryLaw`. -/
theorem SetResource_store_law (cfg : Config) (env : SetResourceEnv) (s s1 : FGState)
    (inp : VkResource) (i : Nat)
    (h : SetResource_store cfg env s inp i = (s1, true)) :
    storedEntryLaw env inp.validity inp.image s1 i inp.type := by
  unfold SetResource_store at h
  simp only [] at h
  split_ifs at h
  · have hf := FlipResource_entry env.flip env.uiCommandList
      (setFrameResource s i inp.type
        { type := inp.type, state := inp.state, validity := inp.validity, image := inp.image,
          width := inp.width, height := inp.height, cmdBuffer := inp.cmdBuffer })
      { type := inp.type, state := inp.state, validity := inp.validity, image := inp.image,
        width := inp.width, height := inp.height, cmdBuffer := inp.cmdBuffer }
    refine SetResource_formats_law _ _ _ _ _ _ _ ?_ ?_ ?_ h
    · exact hf.1
    · exact hf.2.1
    · exact Or.inl hf.2.2
  · refine SetResource_formats_law _ _ _ _ _ _ _ ?_ ?_ ?_ h
    · rfl
    · rfl
    · exact Or.inl rfl

/-- With an entry that is `UntilPresent` the format handling does not consult
the copy step. -/
theorem SetResource_formats_copy_indep (env : SetResourceEnv) (b : Bool) (c : Nat)
    (s : FGState) (inp : VkResource) (i : Nat) (willFlip : Bool) (fR : VkResource)
    (h : fR.validity = FG_ResourceValidity.UntilPresent) :
    SetResource_formats { env with copyCreateOk := b, copyCreated := c } s inp i willFlip fR =
      SetResource_formats env s inp i willFlip fR := by
  unfold SetResource_formats
  simp only [SetResource_finish_of_UntilPresent, h]

theorem SetResource_store_copy_indep (cfg : Config) (env : SetResourceEnv) (b : Bool) (c : Nat)
    (s : FGState) (inp : VkResource) (i : Nat)
    (h : inp.validity = FG_ResourceValidity.UntilPresent) :
    SetResource_store cfg { env with copyCreateOk := b, copyCreated := c } s inp i =
      SetResource_store cfg env s inp i := by
  unfold SetResource_store
  simp only []
  split_ifs
  · refine SetResource_formats_copy_indep _ _ _ _ _ _ _ _ ?_
    rw [(FlipResource_entry _ _ _ _).2.2]
    exact h
  · exact SetResource_formats_copy_indep _ _ _ _ _ _ _ _ h

theorem SetResource_copy_indep (cfg : Config) (env : SetResourceEnv) (b : Bool) (c : Nat)
    (s : FGState) (inp : VkResource)
    (h : inp.validity = FG_ResourceValidity.UntilPresent) :
    SetResource cfg { env with copyCreateOk := b, copyCreated := c } s (some inp) =
      SetResource cfg env s (some inp) := by
  unfold SetResource
  simp only [SetResource_store_copy_indep _ _ _ _ _ _ _ h]

/-- An accepted report went through `SetResource_store` at the slot of its frame
index, or at the current slot when the index is negative, and that slot lies
within the ring. -/
theorem SetResource_accepted (cfg : Config) (env : SetResourceEnv) (s s1 : FGState)
    (inp : VkResource) (h : SetResource cfg env s (some inp) = some (s1, true)) :
    (if inp.frameIndex < 0 then GetIndex s else inp.frameIndex.toNat) < BUFFER_COUNT ∧
    SetResource_store cfg env s inp
      (if inp.frameIndex < 0 then GetIndex s else inp.frameIndex.toNat) = (s1, true) := by
  have hidx : (if inp.frameIndex < 0 then (GetIndex s : Int) else inp.frameIndex).toNat =
      (if inp.frameIndex < 0 then GetIndex s else inp.frameIndex.toNat) := by
    split_ifs <;> simp
  unfold SetResource at h
  simp only [] at h
  rw [hidx] at h
  split_ifs at h with h1 h2 h3 h4 h5 h6 h7
  all_goals first
    | (simp only [Option.some.injEq, Prod.mk.injEq, Bool.false_eq_true, and_false,
         reduceCtorEq] at h
       done)
    | (have hs := Option.some.inj h
       simp only [h2, if_true, if_false]
       refine ⟨?_, hs⟩
       simp only [GetIndex, BUFFER_COUNT] at *
       omega)

/-- A resource that is `ValidNow` or `ValidButMakeCopy` and is not flipped is
stored as `ValidNow`. -/
theorem SetResource_finish_validNow (env : SetResourceEnv) (s s1 : FGState) (inp : VkResource)
    (i : Nat) (fR : VkResource)
    (hv : fR.validity = FG_ResourceValidity.ValidNow ∨
      fR.validity = FG_ResourceValidity.ValidButMakeCopy)
    (h : SetResource_finish env s inp i false fR = (s1, true)) :
    ∃ r, s1._frameResources i inp.type = some r ∧ r.validity = FG_ResourceValidity.ValidNow := by
  rw [SetResource_finish_eq, if_pos ⟨hv, rfl⟩] at h
  split_ifs at h
  · have hs := (Prod.mk.inj h).1
    subst hs
    exact ⟨_, setFrameResource_get _ _ _ _, rfl⟩
  · have h2 := (Prod.mk.inj h).2
    cases h2

theorem SetResource_formats_validNow (env : SetResourceEnv) (s s1 : FGState)
    (inp : VkResource) (i : Nat) (fR : VkResource)
    (hv : fR.validity = FG_ResourceValidity.ValidNow ∨
      fR.validity = FG_ResourceValidity.ValidButMakeCopy)
    (hs : inp.type = FG_ResourceType.UIColor → env.surfaceFormat ≠ -1)
    (h : SetResource_formats env s inp i false fR = (s1, true)) :
    ∃ r, s1._frameResources i inp.type = some r ∧ r.validity = FG_ResourceValidity.ValidNow := by
  have hfc : FormatsCompatible VK_FORMAT_B8G8R8A8_UNORM VK_FORMAT_B8G8R8A8_UNORM = true := by
    decide
  unfold SetResource_formats at h
  simp only [] at h
  split_ifs at h with c1 c2 c3 c4 c5 c6 c7
  all_goals first
    | (refine SetResource_finish_validNow _ _ _ _ _ _ ?_ h
       exact hv)
    | (exfalso
       simp_all)

theorem SetResource_store_validNow (cfg : Config) (env : SetResourceEnv) (s s1 : FGState)
    (inp : VkResource) (i : Nat)
    (hv : inp.validity = FG_ResourceValidity.ValidNow ∨
      inp.validity = FG_ResourceValidity.ValidButMakeCopy)
    (hflip : (env.activeFgInputIsUpscaler && cfg.FGResourceFlip &&
      (inp.type == FG_ResourceType.Velocity || inp.type == FG_ResourceType.Depth)) = false)
    (hs : inp.type = FG_ResourceType.UIColor → env.surfaceFormat ≠ -1)
    (h : SetResource_store cfg env s inp i = (s1, true)) :
    ∃ r, s1._frameResources i inp.type = some r ∧ r.validity = FG_ResourceValidity.ValidNow := by
  unfold SetResource_store at h
  simp only [] at h
  rw [hflip] at h
  simp only [Bool.false_and, Bool.false_eq_true, if_false] at h
  refine SetResource_formats_validNow _ _ _ _ _ _ ?_ hs h
  exact hv

/-! ### `SetResource` writes one entry of the registry -/

theorem frameResourcesExcept_setFrameResource (s : FGState) (i : Nat) (ty : FG_ResourceType)
    (r : VkResource) :
    frameResourcesExcept (setFrameResource s i ty r) i ty = frameResourcesExcept s i ty := by
  funext j t
  unfold frameResourcesExcept setFrameResource
  by_cases hj : j = i
  · subst hj
    by_cases ht : t = ty
    · simp [ht]
    · simp [ht, Function.update]
  · simp [hj, Function.update]

theorem frameResourcesExcept_setResourceCopy (s : FGState) (i0 : Nat) (ty0 : FG_ResourceType)
    (h : Nat) (i : Nat) (ty : FG_ResourceType) :
    frameResourcesExcept (setResourceCopy s i0 ty0 h) i ty = frameResourcesExcept s i ty := rfl

theorem frameResourcesExcept_SetResourceReady (s : FGState) (ty0 : FG_ResourceType) (i0 : Nat)
    (i : Nat) (ty : FG_ResourceType) :
    frameResourcesExcept (SetResourceReady s ty0 i0) i ty = frameResourcesExcept s i ty := rfl

theorem frameResourcesExcept_GetUICommandList (env : UICommandListEnv) (s : FGState)
    (i : Nat) (ty : FG_ResourceType) :
    frameResourcesExcept (GetUICommandList env s).1 i ty = frameResourcesExcept s i ty := by
  unfold GetUICommandList
  split_ifs <;> rfl

theorem frameResourcesExcept_FlipResource (env : FlipEnv) (ui : UICommandListEnv) (s : FGState)
    (r : VkResource) (i : Nat) (ty : FG_ResourceType) :
    frameResourcesExcept (FlipResource env ui s r).1 i ty = frameResourcesExcept s i ty := by
  unfold FlipResource
  simp only []
  split_ifs <;>
    simp only [frameResourcesExcept_GetUICommandList, frameResourcesExcept_setResourceCopy] <;>
    rfl

theorem frameResourcesExcept_UIFormatTransfer (env : FormatTransferEnv) (s : FGState)
    (i0 : Nat) (r : VkResource) (i : Nat) (ty : FG_ResourceType) :
    frameResourcesExcept (UIFormatTransfer env s i0 r).1 i ty = frameResourcesExcept s i ty := by
  unfold UIFormatTransfer
  split_ifs <;> rfl

theorem frameResourcesExcept_HudlessFormatTransfer (env : FormatTransferEnv)
    (ui : UICommandListEnv) (s : FGState) (i0 : Nat) (r : VkResource) (i : Nat)
    (ty : FG_ResourceType) :
    frameResourcesExcept (HudlessFormatTransfer env ui s i0 r).1 i ty =
      frameResourcesExcept s i ty := by
  unfold HudlessFormatTransfer
  simp only []
  split_ifs
  · rfl
  · exact frameResourcesExcept_GetUICommandList ui s i ty
  · rfl

theorem frameResourcesExcept_SetResource_finish (env : SetResourceEnv) (s : FGState)
    (inp : VkResource) (i : Nat) (willFlip : Bool) (r : VkResource) :
    frameResourcesExcept (SetResource_finish env s inp i willFlip r).1 i inp.type =
      frameResourcesExcept s i inp.type := by
  rw [SetResource_finish_eq]
  split_ifs
  · exact frameResourcesExcept_setFrameResource (setResourceCopy s i inp.type _) i inp.type _
  · exact frameResourcesExcept_setFrameResource s i inp.type _
  · exact frameResourcesExcept_setFrameResource s i inp.type _

theorem frameResourcesExcept_with_noUi (s : FGState) (f : Nat → Bool) (i : Nat)
    (ty : FG_ResourceType) :
    frameResourcesExcept { s with _noUi := f } i ty = frameResourcesExcept s i ty := rfl

theorem frameResourcesExcept_with_noDistortionField (s : FGState) (f : Nat → Bool) (i : Nat)
    (ty : FG_ResourceType) :
    frameResourcesExcept { s with _noDistortionField := f } i ty = frameResourcesExcept s i ty :=
  rfl

theorem frameResourcesExcept_with_noHudless (s : FGState) (f : Nat → Bool) (i : Nat)
    (ty : FG_ResourceType) :
    frameResourcesExcept { s with _noHudless := f } i ty = frameResourcesExcept s i ty := rfl

theorem frameResourcesExcept_with_lastHudlessFormat (s : FGState) (f : Int) (i : Nat)
    (ty : FG_ResourceType) :
    frameResourcesExcept { s with _lastHudlessFormat := f } i ty = frameResourcesExcept s i ty :=
  rfl

theorem frameResourcesExcept_SetResource_formats (env : SetResourceEnv) (s : FGState)
    (inp : VkResource) (i : Nat) (willFlip : Bool) (r : VkResource) :
    frameResourcesExcept (SetResource_formats env s inp i willFlip r).1 i inp.type =
      frameResourcesExcept s i inp.type := by
  unfold SetResource_formats
  simp only []
  split_ifs <;>
    (simp only [frameResourcesExcept_SetResource_finish, frameResourcesExcept_setFrameResource,
      frameResourcesExcept_with_noUi, frameResourcesExcept_with_noDistortionField,
      frameResourcesExcept_with_noHudless, frameResourcesExcept_with_lastHudlessFormat,
      frameResourcesExcept_UIFormatTransfer, frameResourcesExcept_GetUICommandList,
      frameResourcesExcept_HudlessFormatTransfer]
     try rfl)

theorem frameResourcesExcept_SetResource_store (cfg : Config) (env : SetResourceEnv)
    (s : FGState) (inp : VkResource) (i : Nat) :
    frameResourcesExcept (SetResource_store cfg env s inp i).1 i inp.type =
      frameResourcesExcept s i inp.type := by
  unfold SetResource_store
  simp only []
  split_ifs
  · exact (frameResourcesExcept_SetResource_formats _ _ _ _ _ _).trans
      ((frameResourcesExcept_FlipResource _ _ _ _ _ _).trans
        (frameResourcesExcept_setFrameResource _ _ _ _))
  · exact (frameResourcesExcept_SetResource_formats _ _ _ _ _ _).trans
      (frameResourcesExcept_setFrameResource _ _ _ _)

/-- The first use of a flip inside `SetResource_store`: the flip is constructed,
the report is stored unflipped as `UntilPresent`, marked ready, and the result
is true. -/
theorem SetResource_store_flip_first_use (cfg : Config) (env : SetResourceEnv) (s : FGState)
    (inp : VkResource) (i : Nat)
    (himg : inp.image ≠ VK_NULL_HANDLE)
    (hty : inp.type = FG_ResourceType.Depth ∨ inp.type = FG_ResourceType.Velocity)
    (hup : env.activeFgInputIsUpscaler = true) (hflip : cfg.FGResourceFlip = true)
    (hdev : s._device ≠ VK_NULL_HANDLE) (hcreate : env.flip.createOk = true)
    (hfirst : (inp.type = FG_ResourceType.Depth → s._depthFlip = false) ∧
      (inp.type = FG_ResourceType.Velocity → s._mvFlip = false)) :
    (SetResource_store cfg env s inp i).2 = true ∧
    (inp.type = FG_ResourceType.Depth → (SetResource_store cfg env s inp i).1._depthFlip = true) ∧
    (inp.type = FG_ResourceType.Velocity →
      (SetResource_store cfg env s inp i).1._mvFlip = true) ∧
    (SetResource_store cfg env s inp i).1._resourceReady i inp.type = some true ∧
    ∃ r, (SetResource_store cfg env s inp i).1._frameResources i inp.type = some r ∧
      r.image = inp.image ∧ r.validity = FG_ResourceValidity.UntilPresent ∧
      r.copy = VK_NULL_HANDLE := by
  obtain ⟨ty, img, tp, lf, w, ht, cb, st, val, iv, cp, cv, fi, we⟩ := inp
  simp only at himg hty hfirst ⊢
  have hd : (s._device == VK_NULL_HANDLE) = false := by simpa using hdev
  have hi : (img == VK_NULL_HANDLE) = false := by simpa using himg
  rcases hty with hty | hty <;> subst hty
  · have hf := hfirst.1 rfl
    simp [SetResource_store, FlipResource, SetResource_formats, SetResource_finish_eq,
      CreateImageResource, CreateImageResourceWithSize, hup, hflip, hd, hdev, himg, hcreate, hi, hf,
      setFrameResource, setResourceCopy, SetResourceReady]
  · have hf := hfirst.2 rfl
    simp [SetResource_store, FlipResource, SetResource_formats, SetResource_finish_eq,
      CreateImageResource, CreateImageResourceWithSize, hup, hflip, hd, hdev, himg, hcreate, hi, hf,
      setFrameResource, setResourceCopy, SetResourceReady]

/-- The guards of `SetResource` let a Depth or Velocity report through to
`SetResource_store` when it has an image, the pipeline is active and not
paused, the slot lies within the ring, the slot holds no `ValidNow` entry of
the type, and a `ValidNow` report comes with a command buffer. -/
theorem SetResource_of_guards (cfg : Config) (env : SetResourceEnv) (s : FGState)
    (inp : VkResource)
    (himg : inp.image ≠ VK_NULL_HANDLE) (hact : IsActive s = true) (hnp : IsPaused s = false)
    (hidx : inp.frameIndex < (BUFFER_COUNT : Int))
    (hfree : (s._frameResources (if inp.frameIndex < 0 then GetIndex s else inp.frameIndex.toNat)
      inp.type).map (fun r => r.validity) ≠ some FG_ResourceValidity.ValidNow)
    (hcmd : ¬ (inp.cmdBuffer = VK_NULL_HANDLE ∧ inp.validity = FG_ResourceValidity.ValidNow))
    (hty : inp.type = FG_ResourceType.Depth ∨ inp.type = FG_ResourceType.Velocity) :
    SetResource cfg env s (some inp) = some (SetResource_store cfg env s inp
      (if inp.frameIndex < 0 then GetIndex s else inp.frameIndex.toNat)) := by
  have hix : (if inp.frameIndex < 0 then (GetIndex s : Int) else inp.frameIndex).toNat =
      (if inp.frameIndex < 0 then GetIndex s else inp.frameIndex.toNat) := by
    split_ifs <;> simp
  have hlt : ¬ ((if inp.frameIndex < 0 then (GetIndex s : Int) else inp.frameIndex) ≥
      (BUFFER_COUNT : Int)) := by
    simp only [GetIndex, BUFFER_COUNT] at *
    split_ifs <;> omega
  have hhud : (inp.type == FG_ResourceType.HudlessColor) = false := by
    rcases hty with h | h <;> rw [h] <;> rfl
  have hui : (inp.type == FG_ResourceType.UIColor) = false := by
    rcases hty with h | h <;> rw [h] <;> rfl
  have hg : (inp.image == VK_NULL_HANDLE || !IsActive s || IsPaused s) = false := by
    simp [hact, hnp, himg]
  have hc : (inp.cmdBuffer == VK_NULL_HANDLE &&
      inp.validity == FG_ResourceValidity.ValidNow) = false := by
    simpa using hcmd
  unfold SetResource
  simp only []
  rw [hix]
  have hf : ((s._frameResources (if inp.frameIndex < 0 then GetIndex s
        else inp.frameIndex.toNat) inp.type).isSome &&
      ((s._frameResources (if inp.frameIndex < 0 then GetIndex s
        else inp.frameIndex.toNat) inp.type).map (fun r => r.validity)) ==
        some FG_ResourceValidity.ValidNow) = false := by
    simp [hfree]
  simp only [hg, hf, hhud, hui, hc, Bool.false_and, Bool.false_eq_true, if_false]
  rw [if_neg hlt]

/-! ## The validity copy law -/

/-- C11: after every `SetResource` call that returns true the slot holds an
entry for the reported type whose validity is `ValidNow` or `UntilPresent`; a
`ValidButMakeCopy` report that is neither flipped nor format-transferred is
stored as `ValidNow`; when the stored validity is `ValidNow` the copy step
succeeded and its image is the entry's copy handle (and the slot's
`_resourceCopy`); when the reported validity is `UntilPresent` the stored
validity is `UntilPresent` and the call does not depend on the copy step, whose
outcome can be replaced by any other without changing the result. -/
theorem SetResource_validity_copy_law (cfg : Config) (env : SetResourceEnv) (s s1 : FGState)
    (inp : VkResource) (h : SetResource cfg env s (some inp) = some (s1, true)) :
    ∃ r, s1._frameResources (if inp.frameIndex < 0 then GetIndex s else inp.frameIndex.toNat)
        inp.type = some r ∧
      (r.validity = FG_ResourceValidity.ValidNow ∨
        r.validity = FG_ResourceValidity.UntilPresent) ∧
      (inp.validity = FG_ResourceValidity.ValidButMakeCopy →
        (env.activeFgInputIsUpscaler && cfg.FGResourceFlip &&
          (inp.type == FG_ResourceType.Velocity || inp.type == FG_ResourceType.Depth)) = false →
        (inp.type = FG_ResourceType.UIColor → env.surfaceFormat ≠ -1) →
        r.validity = FG_ResourceValidity.ValidNow) ∧
      (r.validity = FG_ResourceValidity.ValidNow →
        env.copyCreateOk = true ∧ r.copy = env.copyCreated ∧
        s1._resourceCopy (if inp.frameIndex < 0 then GetIndex s else inp.frameIndex.toNat)
          inp.type = some env.copyCreated) ∧
      (inp.validity = FG_ResourceValidity.UntilPresent →
        r.validity = FG_ResourceValidity.UntilPresent ∧
        ∀ (b : Bool) (c : Nat),
          SetResource cfg { env with copyCreateOk := b, copyCreated := c } s (some inp) =
            some (s1, true)) := by
  obtain ⟨_, hstore⟩ := SetResource_accepted cfg env s s1 inp h
  obtain ⟨r, hr, _, _, hv, hvn⟩ := SetResource_store_law cfg env s s1 inp _ hstore
  refine ⟨r, hr, hv, ?_, ?_, ?_⟩
  · intro hb hflip hs
    obtain ⟨r2, hr2, hv2⟩ :=
      SetResource_store_validNow cfg env s s1 inp _ (Or.inr hb) hflip hs hstore
    rw [hr] at hr2
    rw [Option.some.inj hr2]
    exact hv2
  · intro hn
    exact ⟨(hvn hn).2.1, (hvn hn).2.2.1, (hvn hn).2.2.2.2⟩
  · intro hu
    refine ⟨?_, ?_⟩
    · rcases hv with hn | hn
      · rcases (hvn hn).1 with h1 | h1
        · rw [hu] at h1
          cases h1
        · rw [hu] at h1
          cases h1
      · exact hn
    · intro b c
      rw [SetResource_copy_indep cfg env b c s inp hu]
      exact h

theorem SetResource_validity_copy_law_witness :
    ∃ r, afterDepthReportValidNow._frameResources 1 FG_ResourceType.Depth = some r ∧
      (r.validity = FG_ResourceValidity.ValidNow ∨
        r.validity = FG_ResourceValidity.UntilPresent) :=
  (SetResource_validity_copy_law {} {} activeBehindState afterDepthReportValidNow
    depthReportValidNow (by rfl)).imp (fun _ hr => ⟨hr.1, hr.2.1⟩)

/-! ## The slot of a report -/

/-- C12, as stated, fails: a Depth report without a frame index, accepted at
frame 5 with frame 3 dispatched last, is stored in slot 1, the slot of the
current frame, while `GetIndexWillBeDispatched` returns slot 0, which stays
empty. -/
theorem SetResource_slot_counterexample :
    depthReport.frameIndex = -1 ∧
    (GetIndexWillBeDispatched {} activeBehindState).2 = 0 ∧
    (SetResource {} {} activeBehindState (some depthReport)).map (fun r => r.2) = some true ∧
    afterDepthReport._frameResources 0 FG_ResourceType.Depth = none ∧
    (afterDepthReport._frameResources 1 FG_ResourceType.Depth).map (fun r => r.image) =
      some 7 := by
  decide

/-- C12, amended: an accepted report carrying a frame index >= 0 is stored in
that slot, which then lies within the ring, and an accepted report carrying a
negative frame index is stored in the slot of the current frame,
`_frameCount % BUFFER_COUNT`; no other entry of the registry changes. -/
theorem SetResource_slot (cfg : Config) (env : SetResourceEnv) (s s1 : FGState)
    (inp : VkResource) (h : SetResource cfg env s (some inp) = some (s1, true)) :
    (0 ≤ inp.frameIndex → inp.frameIndex.toNat < BUFFER_COUNT ∧
      ∃ r, s1._frameResources inp.frameIndex.toNat inp.type = some r ∧
        r.type = inp.type ∧ r.image = inp.image) ∧
    (inp.frameIndex < 0 →
      ∃ r, s1._frameResources (s._frameCount % BUFFER_COUNT) inp.type = some r ∧
        r.type = inp.type ∧ r.image = inp.image) ∧
    frameResourcesExcept s1 (if inp.frameIndex < 0 then s._frameCount % BUFFER_COUNT
        else inp.frameIndex.toNat) inp.type =
      frameResourcesExcept s (if inp.frameIndex < 0 then s._frameCount % BUFFER_COUNT
        else inp.frameIndex.toNat) inp.type := by
  obtain ⟨hlt, hstore⟩ := SetResource_accepted cfg env s s1 inp h
  obtain ⟨r, hr, hty, himg, _, _⟩ := SetResource_store_law cfg env s s1 inp _ hstore
  have hfre := frameResourcesExcept_SetResource_store cfg env s inp
    (if inp.frameIndex < 0 then GetIndex s else inp.frameIndex.toNat)
  rw [hstore] at hfre
  refine ⟨?_, ?_, hfre⟩
  · intro h0
    have hn : ¬ inp.frameIndex < 0 := by omega
    rw [if_neg hn] at hlt hr
    exact ⟨hlt, r, hr, hty, himg⟩
  · intro hn
    rw [if_pos hn] at hr
    exact ⟨r, hr, hty, himg⟩

theorem SetResource_slot_witness :
    frameResourcesExcept afterDepthReport 1 FG_ResourceType.Depth =
      frameResourcesExcept activeBehindState 1 FG_ResourceType.Depth :=
  (SetResource_slot {} {} activeBehindState afterDepthReport depthReport (by rfl)).2.2

/-! ## The first use of the flip -/

/-- C20, as stated, fails: with resource flipping in force and no Depth flip
constructed yet, a Depth report makes `SetResource` construct the flip and
still mark Depth ready in the slot and return true. -/
theorem SetResource_flip_first_use_counterexample :
    activeBehindState._depthFlip = false ∧
    (SetResource cfgFlip flipEnv activeBehindState (some depthReport)).map (fun r => r.2) =
      some true ∧
    afterFlippedDepthReport._depthFlip = true ∧
    afterFlippedDepthReport._resourceReady 1 FG_ResourceType.Depth = some true := by
  decide

/-- C20, amended: when resource flipping applies to a Depth or Velocity report
that passes the guards of `SetResource`, the flip for that type has not been
constructed yet and the flip output image can be created, `SetResource`
constructs the flip, stores the report unflipped (no copy handle) with validity
`UntilPresent`, marks the type ready in the slot and returns true. -/
theorem SetResource_flip_first_use (cfg : Config) (env : SetResourceEnv) (s : FGState)
    (inp : VkResource)
    (himg : inp.image ≠ VK_NULL_HANDLE) (hact : IsActive s = true) (hnp : IsPaused s = false)
    (hidx : inp.frameIndex < (BUFFER_COUNT : Int))
    (hfree : (s._frameResources (if inp.frameIndex < 0 then GetIndex s else inp.frameIndex.toNat)
      inp.type).map (fun r => r.validity) ≠ some FG_ResourceValidity.ValidNow)
    (hcmd : ¬ (inp.cmdBuffer = VK_NULL_HANDLE ∧ inp.validity = FG_ResourceValidity.ValidNow))
    (hty : inp.type = FG_ResourceType.Depth ∨ inp.type = FG_ResourceType.Velocity)
    (hup : env.activeFgInputIsUpscaler = true) (hflip : cfg.FGResourceFlip = true)
    (hdev : s._device ≠ VK_NULL_HANDLE) (hcreate : env.flip.createOk = true)
    (hfirst : (inp.type = FG_ResourceType.Depth → s._depthFlip = false) ∧
      (inp.type = FG_ResourceType.Velocity → s._mvFlip = false)) :
    ∃ s1, SetResource cfg env s (some inp) = some (s1, true) ∧
      (inp.type = FG_ResourceType.Depth → s1._depthFlip = true) ∧
      (inp.type = FG_ResourceType.Velocity → s1._mvFlip = true) ∧
      s1._resourceReady (if inp.frameIndex < 0 then GetIndex s else inp.frameIndex.toNat)
        inp.type = some true ∧
      ∃ r, s1._frameResources (if inp.frameIndex < 0 then GetIndex s else inp.frameIndex.toNat)
          inp.type = some r ∧
        r.image = inp.image ∧ r.validity = FG_ResourceValidity.UntilPresent ∧
        r.copy = VK_NULL_HANDLE := by
  obtain ⟨h1, h2, h3, h4, h5⟩ := SetResource_store_flip_first_use cfg env s inp
    (if inp.frameIndex < 0 then GetIndex s else inp.frameIndex.toNat)
    himg hty hup hflip hdev hcreate hfirst
  refine ⟨(SetResource_store cfg env s inp
    (if inp.frameIndex < 0 then GetIndex s else inp.frameIndex.toNat)).1, ?_, h2, h3, h4, h5⟩
  rw [SetResource_of_guards cfg env s inp himg hact hnp hidx hfree hcmd hty, ← h1]

theorem SetResource_flip_first_use_witness :
    ∃ s1, SetResource cfgFlip flipEnv activeBehindState (some depthReport) = some (s1, true) ∧
      s1._resourceReady 1 FG_ResourceType.Depth = some true :=
  (SetResource_flip_first_use cfgFlip flipEnv activeBehindState depthReport
    (by decide) (by decide) (by decide) (by decide) (by decide) (by decide)
    (Or.inl rfl) rfl rfl (by decide) rfl ⟨fun _ => rfl, fun h => by cases h⟩).imp
    (fun _ hs => ⟨hs.1, hs.2.2.2.1⟩)

/-! ## Drift of the dispatched frame -/

/-- The `NewFrame` hook keeps `_lastDispatchedFrame` or resets it to 0, and keeps
it when the pipeline is active. -/
theorem NewFrame_lastDispatched (activateRet : Nat) (s : FGState) :
    ((NewFrame activateRet s)._lastDispatchedFrame = s._lastDispatchedFrame ∨
      (NewFrame activateRet s)._lastDispatchedFrame = 0) ∧
    (s._isActive = true →
      (NewFrame activateRet s)._lastDispatchedFrame = s._lastDispatchedFrame) := by
  unfold NewFrame Activate UpdateTarget
  cases hw : s._waitingNewFrameData <;> cases ha : s._isActive <;> simp
  split_ifs <;> simp

/-- The counters after `StartNewFrame`: `_frameCount` is incremented, and
`_lastDispatchedFrame` is what the counter part left, or 0 after a
re-activation; an active pipeline is never re-activated. -/
theorem StartNewFrame_lastDispatched (activateRet : Nat) (s : FGState) :
    (StartNewFrame activateRet s).1._frameCount = u64add s._frameCount 1 ∧
    ((StartNewFrame activateRet s).1._lastDispatchedFrame =
        spec_StartNewFrame_lastDispatched s._frameCount s._lastDispatchedFrame s._isActive
          s._waitingNewFrameData ∨
      (StartNewFrame activateRet s).1._lastDispatchedFrame = 0) ∧
    (s._isActive = true →
      (StartNewFrame activateRet s).1._lastDispatchedFrame =
        spec_StartNewFrame_lastDispatched s._frameCount s._lastDispatchedFrame s._isActive
          s._waitingNewFrameData) := by
  have hC := StartNewFrame_counters_fields s
  have hL := StartNewFrame_counters_lastDispatched s
  have hN := NewFrame_fields activateRet (StartNewFrame_resetSlot (StartNewFrame_counters s))
  have hNL := NewFrame_lastDispatched activateRet
    (StartNewFrame_resetSlot (StartNewFrame_counters s))
  have hL1 : (StartNewFrame_resetSlot (StartNewFrame_counters s))._lastDispatchedFrame =
      spec_StartNewFrame_lastDispatched s._frameCount s._lastDispatchedFrame s._isActive
        s._waitingNewFrameData := hL
  refine ⟨hN.1.trans hC.1, ?_, ?_⟩
  · rcases hNL.1 with h | h
    · exact Or.inl (h.trans hL1)
    · exact Or.inr h
  · intro ha
    have ha1 : (StartNewFrame_resetSlot (StartNewFrame_counters s))._isActive = true :=
      hC.2.1.trans ha
    exact (hNL.2 ha1).trans hL1

/-- C21: from `_lastDispatchedFrame <= _frameCount`, below the 64-bit wrap and
for every allowed-frames-ahead count, `GetDispatchIndex` leaves
`_lastDispatchedFrame <= _frameCount` and does not move `_lastDispatchedFrame`
down, and `StartNewFrame` (when the increment does not wrap) leaves
`_lastDispatchedFrame <= _frameCount`. -/
theorem drift_invariant_step (cfg : Config) (fgLastFrame w activateRet : Nat) (s : FGState)
    (hlf : s._lastDispatchedFrame ≤ s._frameCount) (hf : s._frameCount < U64_MOD) :
    (GetDispatchIndex cfg fgLastFrame s w).1._lastDispatchedFrame ≤
      (GetDispatchIndex cfg fgLastFrame s w).1._frameCount ∧
    s._lastDispatchedFrame ≤ (GetDispatchIndex cfg fgLastFrame s w).1._lastDispatchedFrame ∧
    (s._frameCount + 1 < U64_MOD →
      (StartNewFrame activateRet s).1._lastDispatchedFrame ≤
        (StartNewFrame activateRet s).1._frameCount) := by
  obtain ⟨g1, -, g3, g4⟩ := GetDispatchIndex_bounds cfg fgLastFrame s w hlf hf
  refine ⟨?_, g3, ?_⟩
  · rw [g1]
    exact g4
  · intro hf1
    obtain ⟨hF, hL, -⟩ := StartNewFrame_lastDispatched activateRet s
    have hb := spec_StartNewFrame_lastDispatched_bounds s._frameCount s._lastDispatchedFrame
      s._isActive s._waitingNewFrameData hlf hf1
    rw [hF, u64add_of_lt hf1]
    rcases hL with h | h
    · rw [h]
      exact hb.2
    · rw [h]
      exact Nat.zero_le _

theorem drift_invariant_step_witness :
    (GetDispatchIndex (cfgAhead 1) 0 (countersState 70 10) 0).1._lastDispatchedFrame ≤
      (GetDispatchIndex (cfgAhead 1) 0 (countersState 70 10) 0).1._frameCount :=
  (drift_invariant_step (cfgAhead 1) 0 0 0 (countersState 70 10) (by decide) (by decide)).1

/-- With the pipeline neither active nor awaiting data and a non-zero
`_lastDispatchedFrame`, one `StartNewFrame` keeps `_lastDispatchedFrame` and both
flags. -/
theorem StartNewFrame_inactive (activateRet : Nat) (s : FGState)
    (hA : IsActive s = false) (hL : s._lastDispatchedFrame ≠ 0) :
    (StartNewFrame activateRet s).1._lastDispatchedFrame = s._lastDispatchedFrame ∧
    IsActive (StartNewFrame activateRet s).1 = false := by
  have ha : s._isActive = false := by
    unfold IsActive at hA
    cases h : s._isActive
    · rfl
    · rw [h] at hA
      simp at hA
  have hw : s._waitingNewFrameData = false := by
    unfold IsActive at hA
    rw [ha] at hA
    simpa using hA
  have hC := StartNewFrame_counters_fields s
  obtain ⟨-, h2, h3⟩ := StartNewFrame_counters_of_not_waiting activateRet s hw
  have hw1 : (StartNewFrame_resetSlot (StartNewFrame_counters s))._waitingNewFrameData = false :=
    hC.2.2.trans hw
  have hact : (StartNewFrame activateRet s).1._isActive = false :=
    ((NewFrame_not_waiting activateRet _ hw1).2.trans hC.2.1).trans ha
  refine ⟨?_, ?_⟩
  · rw [h2]
    unfold spec_StartNewFrame_lastDispatched
    simp [ha, hw, hL]
  · unfold IsActive
    rw [hact, h3]
    rfl

/-- C22: when the pipeline is neither active nor awaiting new frame data and
`_lastDispatchedFrame` is not 0, `StartNewFrame` leaves `_lastDispatchedFrame`
unchanged whatever the gap to `_frameCount`, and so does every further
`StartNewFrame`: after `k` calls `_lastDispatchedFrame` is as before while (below
the wrap) `_frameCount` has grown by `k`. -/
theorem StartNewFrame_frozen_while_inactive (activateRet : Nat → Nat) (s : FGState)
    (hA : IsActive s = false) (hL : s._lastDispatchedFrame ≠ 0) :
    (∀ ret, (StartNewFrame ret s).1._lastDispatchedFrame = s._lastDispatchedFrame) ∧
    (∀ k, (StartNewFrames activateRet s k)._lastDispatchedFrame = s._lastDispatchedFrame) ∧
    (∀ k, s._frameCount + k < U64_MOD →
      (StartNewFrames activateRet s k)._frameCount = s._frameCount + k) := by
  have hw : s._waitingNewFrameData = false := by
    unfold IsActive at hA
    cases h : s._waitingNewFrameData
    · rfl
    · rw [h] at hA
      simp at hA
  refine ⟨fun ret => (StartNewFrame_inactive ret s hA hL).1, ?_, ?_⟩
  · intro k
    have hk : (StartNewFrames activateRet s k)._lastDispatchedFrame = s._lastDispatchedFrame ∧
        IsActive (StartNewFrames activateRet s k) = false := by
      induction k with
      | zero => exact ⟨rfl, hA⟩
      | succ k ih =>
        have hL1 : (StartNewFrames activateRet s k)._lastDispatchedFrame ≠ 0 := by
          rw [ih.1]
          exact hL
        obtain ⟨h1, h2⟩ := StartNewFrame_inactive (activateRet k)
          (StartNewFrames activateRet s k) ih.2 hL1
        exact ⟨h1.trans ih.1, h2⟩
    exact hk.1
  · intro k hk
    exact StartNewFrames_frameCount activateRet s hw k hk

theorem StartNewFrame_frozen_while_inactive_witness :
    (StartNewFrames (fun _ => 0) (countersState 20 10) 50)._lastDispatchedFrame = 10 ∧
    (StartNewFrames (fun _ => 0) (countersState 20 10) 50)._frameCount = 70 :=
  ⟨(StartNewFrame_frozen_while_inactive (fun _ => 0) (countersState 20 10)
      (by decide) (by decide)).2.1 50,
    (StartNewFrame_frozen_while_inactive (fun _ => 0) (countersState 20 10)
      (by decide) (by decide)).2.2 50 (by decide)⟩

/-- C26, as stated, fails: an active pipeline at `_frameCount = 2^64 - 1` with
`_lastDispatchedFrame = 1` takes the jump correction on the next
`StartNewFrame`; `_frameCount` wraps to 0, `_lastDispatchedFrame` becomes
`2^64 - 1`, and the drift in 64-bit unsigned arithmetic is 1, not 5. -/
theorem StartNewFrame_bounded_drift_counterexample :
    wrapActiveState._lastDispatchedFrame ≤ wrapActiveState._frameCount ∧
    wrapActiveState._isActive = true ∧
    (StartNewFrame 0 wrapActiveState).1._frameCount = 0 ∧
    (StartNewFrame 0 wrapActiveState).1._lastDispatchedFrame = U64_MOD - 1 ∧
    u64sub (StartNewFrame 0 wrapActiveState).1._frameCount
      (StartNewFrame 0 wrapActiveState).1._lastDispatchedFrame = 1 := by
  decide

/-- C26, amended: for every state with `_lastDispatchedFrame <= _frameCount`, an
increment of `_frameCount` that does not wrap and the activity flag true, after
`StartNewFrame` the drift `_frameCount - _lastDispatchedFrame` is non-negative
and at most 15; it is 5 after a jump correction (`_lastDispatchedFrame > 0`, gap
above 20), 1 after first-frame initialisation (`_lastDispatchedFrame = 0`), and
at most 10 after a halving correction (`_lastDispatchedFrame > 0`, gap from 16
to 20). -/
theorem StartNewFrame_bounded_drift (activateRet : Nat) (s : FGState)
    (hlf : s._lastDispatchedFrame ≤ s._frameCount) (hf : s._frameCount + 1 < U64_MOD)
    (ha : s._isActive = true) :
    (StartNewFrame activateRet s).1._lastDispatchedFrame ≤
      (StartNewFrame activateRet s).1._frameCount ∧
    (StartNewFrame activateRet s).1._frameCount -
      (StartNewFrame activateRet s).1._lastDispatchedFrame ≤ 15 ∧
    (0 < s._lastDispatchedFrame → 20 < s._frameCount + 1 - s._lastDispatchedFrame →
      (StartNewFrame activateRet s).1._frameCount -
        (StartNewFrame activateRet s).1._lastDispatchedFrame = 5) ∧
    (s._lastDispatchedFrame = 0 →
      (StartNewFrame activateRet s).1._frameCount -
        (StartNewFrame activateRet s).1._lastDispatchedFrame = 1) ∧
    (0 < s._lastDispatchedFrame → 15 < s._frameCount + 1 - s._lastDispatchedFrame →
      s._frameCount + 1 - s._lastDispatchedFrame ≤ 20 →
      (StartNewFrame activateRet s).1._frameCount -
        (StartNewFrame activateRet s).1._lastDispatchedFrame ≤ 10) := by
  obtain ⟨hF, -, hL⟩ := StartNewFrame_lastDispatched activateRet s
  have hL := hL ha
  have hadd : u64add s._frameCount 1 = s._frameCount + 1 := u64add_of_lt hf
  have hgap : u64sub (s._frameCount + 1) s._lastDispatchedFrame =
      s._frameCount + 1 - s._lastDispatchedFrame := u64sub_of_le (by omega) hf
  have h1 : u64sub (s._frameCount + 1) 1 = s._frameCount := by
    rw [u64sub_of_le (by omega) hf]
    omega
  have h5 : 5 < s._frameCount + 1 → u64sub (s._frameCount + 1) 5 = s._frameCount + 1 - 5 :=
    fun h => u64sub_of_le (by omega) hf
  have hhalf : u64add s._lastDispatchedFrame ((s._frameCount + 1 - s._lastDispatchedFrame) / 2) =
      s._lastDispatchedFrame + (s._frameCount + 1 - s._lastDispatchedFrame) / 2 :=
    u64add_of_lt (by omega)
  rw [hF, hL, hadd]
  unfold spec_StartNewFrame_lastDispatched
  simp only [hadd, hgap, h1, hhalf, ha, true_or, if_true, true_and]
  split_ifs with c1 c2 c3 c4
  all_goals
    first
      | (rw [h5 c2]
         omega)
      | omega

theorem StartNewFrame_bounded_drift_witness :
    (StartNewFrame 0 activeJumpState).1._frameCount -
      (StartNewFrame 0 activeJumpState).1._lastDispatchedFrame = 5 :=
  (StartNewFrame_bounded_drift 0 activeJumpState (by decide) (by decide) rfl).2.2.1
    (by decide) (by decide)

/-! ## The format check of the callback -/

/-- C25: when the last hudless format is known, differs from the format of the
present colour, and the hudless format in use is unknown or differs from the
last one, `DispatchCallback` leaves `numGeneratedFrames = 0`, raises `FGchanged`
and `SCchanged`, records the frame id as last seen and returns
`FFX_API_RETURN_OK` without calling the back end's dispatch; in every other case
it calls the back end's dispatch, once, with the descriptor it leaves, records
the frame id and returns the code of that call, raising neither signal. -/
theorem DispatchCallback_format_mismatch (cfg : Config) (dispatchRet : Nat) (g : Globals)
    (s : FGState) (params : ffxDispatchDescFrameGeneration) :
    ((s._lastHudlessFormat ≠ FFX_API_SURFACE_FORMAT_UNKNOWN ∧
        s._lastHudlessFormat ≠ params.presentColorFormat ∧
        (s._usingHudlessFormat = FFX_API_SURFACE_FORMAT_UNKNOWN ∨
          s._usingHudlessFormat ≠ s._lastHudlessFormat)) →
      (DispatchCallback cfg dispatchRet g s params).params.numGeneratedFrames = 0 ∧
      (DispatchCallback cfg dispatchRet g s params).globals.FGchanged = true ∧
      (DispatchCallback cfg dispatchRet g s params).globals.SCchanged = true ∧
      (DispatchCallback cfg dispatchRet g s params).globals.DispatchCallback_lastFrameId =
        params.frameID ∧
      (DispatchCallback cfg dispatchRet g s params).result = FFX_API_RETURN_OK ∧
      (DispatchCallback cfg dispatchRet g s params).forwarded = none) ∧
    (¬ (s._lastHudlessFormat ≠ FFX_API_SURFACE_FORMAT_UNKNOWN ∧
        s._lastHudlessFormat ≠ params.presentColorFormat ∧
        (s._usingHudlessFormat = FFX_API_SURFACE_FORMAT_UNKNOWN ∨
          s._usingHudlessFormat ≠ s._lastHudlessFormat)) →
      (DispatchCallback cfg dispatchRet g s params).forwarded =
        some (DispatchCallback cfg dispatchRet g s params).params ∧
      (DispatchCallback cfg dispatchRet g s params).result = dispatchRet ∧
      (DispatchCallback cfg dispatchRet g s params).globals.DispatchCallback_lastFrameId =
        params.frameID ∧
      (DispatchCallback cfg dispatchRet g s params).globals.FGchanged = g.FGchanged ∧
      (DispatchCallback cfg dispatchRet g s params).globals.SCchanged = g.SCchanged) := by
  have hid := DispatchCallback_guards_frameID cfg g s params
  have hfmt : (DispatchCallback_guards cfg g s params).presentColorFormat =
      params.presentColorFormat := by
    unfold DispatchCallback_guards
    simp only []
    split_ifs <;> rfl
  constructor
  · intro h
    have hc : (s._lastHudlessFormat != FFX_API_SURFACE_FORMAT_UNKNOWN &&
        s._lastHudlessFormat != (DispatchCallback_guards cfg g s params).presentColorFormat &&
        (s._usingHudlessFormat == FFX_API_SURFACE_FORMAT_UNKNOWN ||
          s._usingHudlessFormat != s._lastHudlessFormat)) = true := by
      rw [hfmt]
      simpa [and_assoc] using h
    unfold DispatchCallback
    simp only []
    rw [if_pos hc]
    exact ⟨rfl, rfl, rfl, hid, rfl, rfl⟩
  · intro h
    have hc : ¬ (s._lastHudlessFormat != FFX_API_SURFACE_FORMAT_UNKNOWN &&
        s._lastHudlessFormat != (DispatchCallback_guards cfg g s params).presentColorFormat &&
        (s._usingHudlessFormat == FFX_API_SURFACE_FORMAT_UNKNOWN ||
          s._usingHudlessFormat != s._lastHudlessFormat)) = true := by
      rw [hfmt]
      simpa [and_assoc] using h
    unfold DispatchCallback
    simp only []
    rw [if_neg hc]
    exact ⟨rfl, rfl, hid, rfl, rfl⟩

theorem DispatchCallback_format_mismatch_witness :
    (DispatchCallback {} 7 {} hudlessChangedState callbackParams5).forwarded = none ∧
    (DispatchCallback {} 7 {} hudlessChangedState callbackParams5).result =
      FFX_API_RETURN_OK :=
  ⟨((DispatchCallback_format_mismatch {} 7 {} hudlessChangedState callbackParams5).1
      (by decide)).2.2.2.2.2,
    ((DispatchCallback_format_mismatch {} 7 {} hudlessChangedState callbackParams5).1
      (by decide)).2.2.2.2.1⟩

/-! ## Rejections and failures of `SetResource` -/

/-- Every result of `SetResource` on a descriptor is the record handed back with
false, or the result of `SetResource_store` at the slot of the descriptor, which
then lies within the ring. -/
theorem SetResource_cases (cfg : Config) (env : SetResourceEnv) (s : FGState)
    (inp : VkResource) (r : FGState × Bool)
    (h : SetResource cfg env s (some inp) = some r) :
    r = (s, false) ∨
    ((if inp.frameIndex < 0 then GetIndex s else inp.frameIndex.toNat) < BUFFER_COUNT ∧
      r = SetResource_store cfg env s inp
        (if inp.frameIndex < 0 then GetIndex s else inp.frameIndex.toNat)) := by
  have hidx : (if inp.frameIndex < 0 then (GetIndex s : Int) else inp.frameIndex).toNat =
      (if inp.frameIndex < 0 then GetIndex s else inp.frameIndex.toNat) := by
    split_ifs <;> simp
  unfold SetResource at h
  simp only [] at h
  rw [hidx] at h
  split_ifs at h with h1 h2 h3 h4 h5 h6 h7
  all_goals first
    | (cases h
       done)
    | exact Or.inl (Option.some.inj h).symm
    | (have hs := Option.some.inj h
       simp only [h2, if_true, if_false]
       refine Or.inr ⟨?_, hs.symm⟩
       simp only [GetIndex, BUFFER_COUNT] at *
       omega)

/-- C28: `SetResource` returns false and hands the record back unchanged when the
descriptor is null, when its image handle is null, when `IsActive` is false,
when the pipeline is paused, and (for a frame index within the ring) when the
reported validity is `ValidNow` and no command buffer is supplied. -/
theorem SetResource_admission_guards (cfg : Config) (env : SetResourceEnv) (s : FGState) :
    SetResource cfg env s none = some (s, false) ∧
    (∀ inp : VkResource,
      inp.image = VK_NULL_HANDLE ∨ IsActive s = false ∨ IsPaused s = true →
      SetResource cfg env s (some inp) = some (s, false)) ∧
    (∀ inp : VkResource, inp.frameIndex < (BUFFER_COUNT : Int) →
      inp.validity = FG_ResourceValidity.ValidNow → inp.cmdBuffer = VK_NULL_HANDLE →
      SetResource cfg env s (some inp) = some (s, false)) := by
  refine ⟨rfl, ?_, ?_⟩
  · intro inp h
    have hg : (inp.image == VK_NULL_HANDLE || !IsActive s || IsPaused s) = true := by
      rcases h with h | h | h <;> simp [h]
    unfold SetResource
    simp only []
    rw [if_pos hg]
  · intro inp hidx hv hc
    have hlt : ¬ ((if inp.frameIndex < 0 then (GetIndex s : Int) else inp.frameIndex) ≥
        (BUFFER_COUNT : Int)) := by
      simp only [GetIndex, BUFFER_COUNT] at *
      split_ifs <;> omega
    have hcb : (inp.cmdBuffer == VK_NULL_HANDLE &&
        inp.validity == FG_ResourceValidity.ValidNow) = true := by
      simp [hv, hc]
    unfold SetResource
    simp only []
    rw [if_neg hlt, if_pos hcb]
    split_ifs <;> rfl

theorem SetResource_admission_guards_witness :
    SetResource {} {} initialState (some depthReport) = some (initialState, false) :=
  (SetResource_admission_guards {} {} initialState).2.1 depthReport (Or.inr (Or.inl (by decide)))

/-- The readiness sets after `SetResource_finish`: the reported type has been
marked in the slot when the result is true, and nothing has changed when it is
false. -/
theorem SetResource_finish_resourceReady (env : SetResourceEnv) (s0 s : FGState)
    (inp : VkResource) (i : Nat) (willFlip : Bool) (fR : VkResource)
    (hs : s._resourceReady = s0._resourceReady) :
    ((SetResource_finish env s inp i willFlip fR).2 = true →
      (SetResource_finish env s inp i willFlip fR).1._resourceReady =
        (SetResourceReady s0 inp.type i)._resourceReady) ∧
    ((SetResource_finish env s inp i willFlip fR).2 = false →
      (SetResource_finish env s inp i willFlip fR).1._resourceReady = s0._resourceReady) := by
  have hset : ∀ s1 : FGState, s1._resourceReady = s._resourceReady →
      (SetResourceReady s1 inp.type i)._resourceReady =
        (SetResourceReady s0 inp.type i)._resourceReady := by
    intro s1 h1
    unfold SetResourceReady
    simp only []
    rw [h1, hs]
  rw [SetResource_finish_eq]
  split_ifs
  · refine ⟨fun _ => hset _ rfl, ?_⟩
    intro h
    cases h
  · refine ⟨?_, fun _ => hs⟩
    intro h
    cases h
  · refine ⟨fun _ => hset _ rfl, ?_⟩
    intro h
    cases h

/-- `GetUICommandList` leaves the readiness sets alone. -/
theorem GetUICommandList_resourceReady (env : UICommandListEnv) (s : FGState) :
    (GetUICommandList env s).1._resourceReady = s._resourceReady := by
  unfold GetUICommandList
  split_ifs <;> rfl

/-- `FlipResource` leaves the readiness sets alone. -/
theorem FlipResource_resourceReady (env : FlipEnv) (ui : UICommandListEnv) (s : FGState)
    (r : VkResource) : (FlipResource env ui s r).1._resourceReady = s._resourceReady := by
  unfold FlipResource
  simp only []
  split_ifs <;> simp only [GetUICommandList_resourceReady] <;> rfl

/-- `UIFormatTransfer` leaves the readiness sets alone. -/
theorem UIFormatTransfer_resourceReady (env : FormatTransferEnv) (s : FGState) (i : Nat)
    (r : VkResource) : (UIFormatTransfer env s i r).1._resourceReady = s._resourceReady := by
  unfold UIFormatTransfer
  split_ifs <;> rfl

/-- `HudlessFormatTransfer` leaves the readiness sets alone. -/
theorem HudlessFormatTransfer_resourceReady (env : FormatTransferEnv) (ui : UICommandListEnv)
    (s : FGState) (i : Nat) (r : VkResource) :
    (HudlessFormatTransfer env ui s i r).1._resourceReady = s._resourceReady := by
  unfold HudlessFormatTransfer
  simp only []
  split_ifs
  · rfl
  · exact GetUICommandList_resourceReady ui s
  · rfl

/-- The readiness sets after `SetResource_formats`. -/
theorem SetResource_formats_resourceReady (env : SetResourceEnv) (s0 s : FGState)
    (inp : VkResource) (i : Nat) (willFlip : Bool) (fR : VkResource)
    (hs : s._resourceReady = s0._resourceReady) :
    ((SetResource_formats env s inp i willFlip fR).2 = true →
      (SetResource_formats env s inp i willFlip fR).1._resourceReady =
        (SetResourceReady s0 inp.type i)._resourceReady) ∧
    ((SetResource_formats env s inp i willFlip fR).2 = false →
      (SetResource_formats env s inp i willFlip fR).1._resourceReady = s0._resourceReady) := by
  have hui := fun s1 => UIFormatTransfer_resourceReady env.uiTransfer s1 i fR
  have hhu := fun s1 =>
    HudlessFormatTransfer_resourceReady env.hudlessTransfer env.uiCommandList s1 i fR
  have hgu := GetUICommandList_resourceReady env.uiCommandList
  unfold SetResource_formats
  simp only []
  split_ifs
  all_goals first
    | (refine SetResource_finish_resourceReady env s0 _ inp i willFlip _ ?_
       first
         | exact hs
         | exact ((hui _).trans (hgu s)).trans hs
         | exact (hhu _).trans hs)
    | (refine ⟨?_, ?_⟩
       · intro h
         cases h
       · intro _
         first
           | exact ((hui _).trans (hgu s)).trans hs
           | exact (hhu _).trans hs)

/-- The readiness sets after `SetResource_store`: the reported type has been
marked in the slot when the result is true, and nothing has changed when it is
false. -/
theorem SetResource_store_resourceReady (cfg : Config) (env : SetResourceEnv) (s : FGState)
    (inp : VkResource) (i : Nat) :
    ((SetResource_store cfg env s inp i).2 = true →
      (SetResource_store cfg env s inp i).1._resourceReady =
        (SetResourceReady s inp.type i)._resourceReady) ∧
    ((SetResource_store cfg env s inp i).2 = false →
      (SetResource_store cfg env s inp i).1._resourceReady = s._resourceReady) := by
  unfold SetResource_store
  simp only []
  split_ifs
  · refine SetResource_formats_resourceReady env s _ inp i _ _ ?_
    exact FlipResource_resourceReady _ _ _ _
  · refine SetResource_formats_resourceReady env s _ inp i _ _ ?_
    rfl

/-- Whatever its result, `SetResource_finish` leaves an entry of the reported
type in the slot. -/
theorem SetResource_finish_isSome (env : SetResourceEnv) (s : FGState) (inp : VkResource)
    (i : Nat) (willFlip : Bool) (fR : VkResource) :
    ((SetResource_finish env s inp i willFlip fR).1._frameResources i inp.type).isSome =
      true := by
  rw [SetResource_finish_eq]
  split_ifs
  · exact congrArg Option.isSome (setFrameResource_get _ i inp.type _)
  · exact congrArg Option.isSome (setFrameResource_get _ i inp.type _)
  · exact congrArg Option.isSome (setFrameResource_get _ i inp.type _)

/-- Whatever its result, `SetResource_formats` leaves an entry of the reported
type in the slot. -/
theorem SetResource_formats_isSome (env : SetResourceEnv) (s : FGState) (inp : VkResource)
    (i : Nat) (willFlip : Bool) (fR : VkResource) :
    ((SetResource_formats env s inp i willFlip fR).1._frameResources i inp.type).isSome =
      true := by
  unfold SetResource_formats
  simp only []
  split_ifs
  all_goals first
    | exact SetResource_finish_isSome _ _ _ _ _ _
    | exact congrArg Option.isSome (setFrameResource_get _ i inp.type _)

/-- Whatever its result, `SetResource_store` leaves an entry of the reported type
in the slot. -/
theorem SetResource_store_isSome (cfg : Config) (env : SetResourceEnv) (s : FGState)
    (inp : VkResource) (i : Nat) :
    ((SetResource_store cfg env s inp i).1._frameResources i inp.type).isSome = true := by
  unfold SetResource_store
  simp only []
  split_ifs <;> exact SetResource_formats_isSome _ _ _ _ _ _

/-- C27, as stated, fails: with a failing copy step, a `ValidNow` Depth report to
an active pipeline returns false and leaves a Depth entry in slot 1, which was
empty; the same failure on a UI colour report returns false with the `_noUi`
flag of the slot cleared. -/
theorem SetResource_failure_counterexample :
    (SetResource {} copyFailEnv activeBehindState (some depthReportValidNow)).map
      (fun r => r.2) = some false ∧
    activeBehindState._frameResources 1 FG_ResourceType.Depth = none ∧
    (afterFailedCopy._frameResources 1 FG_ResourceType.Depth).map (fun r => r.image) =
      some 7 ∧
    (SetResource {} copyFailEnv activeBehindState (some uiReportValidNow)).map
      (fun r => r.2) = some false ∧
    activeBehindState._noUi 1 = true ∧ afterFailedUiCopy._noUi 1 = false := by
  decide

/-- C27, amended: if `SetResource` returns false then the readiness sets, the
frame counters and activity flags, and every registry entry other than the one
of the reported type in the target slot are as before the call; either the
whole record is unchanged (the call was rejected by a guard), or the call went
through `SetResource_store` and failed in the copy step or a format transfer,
and then the target slot holds an entry of the reported type, overwritten or
new. -/
theorem SetResource_failure (cfg : Config) (env : SetResourceEnv) (s s1 : FGState)
    (inp : VkResource) (h : SetResource cfg env s (some inp) = some (s1, false)) :
    s1._resourceReady = s._resourceReady ∧
    counters s1 = counters s ∧
    frameResourcesExcept s1 (if inp.frameIndex < 0 then GetIndex s else inp.frameIndex.toNat)
        inp.type =
      frameResourcesExcept s (if inp.frameIndex < 0 then GetIndex s else inp.frameIndex.toNat)
        inp.type ∧
    (s1 = s ∨
      (SetResource_store cfg env s inp
          (if inp.frameIndex < 0 then GetIndex s else inp.frameIndex.toNat) = (s1, false) ∧
        (s1._frameResources (if inp.frameIndex < 0 then GetIndex s else inp.frameIndex.toNat)
          inp.type).isSome = true)) := by
  have hc := counters_SetResource cfg env s (some inp) (s1, false) h
  rcases SetResource_cases cfg env s inp (s1, false) h with h1 | ⟨-, h1⟩
  · have hs : s1 = s := (Prod.mk.inj h1).1
    subst hs
    exact ⟨rfl, rfl, rfl, Or.inl rfl⟩
  · have hrr := (SetResource_store_resourceReady cfg env s inp
      (if inp.frameIndex < 0 then GetIndex s else inp.frameIndex.toNat)).2
    have hfre := frameResourcesExcept_SetResource_store cfg env s inp
      (if inp.frameIndex < 0 then GetIndex s else inp.frameIndex.toNat)
    have hsome := SetResource_store_isSome cfg env s inp
      (if inp.frameIndex < 0 then GetIndex s else inp.frameIndex.toNat)
    rw [← h1] at hrr hfre hsome
    exact ⟨hrr rfl, hc, hfre, Or.inr ⟨h1.symm, hsome⟩⟩

theorem SetResource_failure_witness :
    afterFailedCopy._resourceReady = activeBehindState._resourceReady :=
  (SetResource_failure {} copyFailEnv activeBehindState afterFailedCopy depthReportValidNow
    (by rfl)).1

/-! ## Readiness implies presence -/

/-- A record with the same readiness sets and registry inherits the invariant. -/
theorem readyImpliesPresent_of_eq (s s1 : FGState)
    (h1 : s1._resourceReady = s._resourceReady) (h2 : s1._frameResources = s._frameResources)
    (h : readyImpliesPresent s) : readyImpliesPresent s1 := by
  intro i ty
  rw [h1, h2]
  exact h i ty

/-- The counter part of `StartNewFrame` writes neither readiness sets nor
registry. -/
theorem StartNewFrame_counters_registry (s : FGState) :
    (StartNewFrame_counters s)._resourceReady = s._resourceReady ∧
    (StartNewFrame_counters s)._frameResources = s._frameResources := by
  unfold StartNewFrame_counters
  simp only []
  split_ifs <;> exact ⟨rfl, rfl⟩

/-- The `NewFrame` hook empties the resource map of the current slot and leaves
the other slots as they are. -/
theorem NewFrame_frameResources (activateRet : Nat) (s : FGState) :
    (NewFrame activateRet s)._frameResources =
      Function.update s._frameResources (s._frameCount % BUFFER_COUNT) (fun _ => none) := by
  obtain ⟨a1, -, -, -, -, -, a7, -⟩ := Activate_fields activateRet (UpdateTarget s)
  have u1 : (UpdateTarget s)._frameCount = s._frameCount := rfl
  have u2 : (UpdateTarget s)._frameResources = s._frameResources := rfl
  unfold NewFrame GetIndex
  cases hw : s._waitingNewFrameData
  · simp
  · simp only [if_true]
    rw [a1, a7, u1, u2]

/-- `StartNewFrame` empties the readiness set and the resource map of the slot
it admits and leaves the other slots as they are. -/
theorem StartNewFrame_registry (activateRet : Nat) (s : FGState) :
    (StartNewFrame activateRet s).1._resourceReady =
      Function.update s._resourceReady (u64add s._frameCount 1 % BUFFER_COUNT)
        (fun _ => none) ∧
    (StartNewFrame activateRet s).1._frameResources =
      Function.update s._frameResources (u64add s._frameCount 1 % BUFFER_COUNT)
        (fun _ => none) := by
  have hC := StartNewFrame_counters_fields s
  have hR := StartNewFrame_counters_registry s
  have hN := NewFrame_fields activateRet (StartNewFrame_resetSlot (StartNewFrame_counters s))
  have hNF := NewFrame_frameResources activateRet
    (StartNewFrame_resetSlot (StartNewFrame_counters s))
  have hF : (StartNewFrame_resetSlot (StartNewFrame_counters s))._frameCount =
      u64add s._frameCount 1 := hC.1
  have hFR : (StartNewFrame_resetSlot (StartNewFrame_counters s))._frameResources =
      s._frameResources := hR.2
  have hRR : (StartNewFrame_resetSlot (StartNewFrame_counters s))._resourceReady =
      Function.update s._resourceReady (u64add s._frameCount 1 % BUFFER_COUNT)
        (fun _ => none) := by
    show Function.update (StartNewFrame_counters s)._resourceReady
      (GetIndex (StartNewFrame_counters s)) (fun _ => none) = _
    unfold GetIndex
    rw [hR.1, hC.1]
  refine ⟨?_, ?_⟩
  · exact hN.2.1.trans hRR
  · rw [hF, hFR] at hNF
    exact hNF

/-- `StartNewFrame` keeps the invariant. -/
theorem readyImpliesPresent_StartNewFrame (activateRet : Nat) (s : FGState)
    (h : readyImpliesPresent s) : readyImpliesPresent (StartNewFrame activateRet s).1 := by
  obtain ⟨h1, h2⟩ := StartNewFrame_registry activateRet s
  intro i ty
  rw [h1, h2]
  by_cases hi : i = u64add s._frameCount 1 % BUFFER_COUNT
  · subst hi
    simp
  · simp only [Function.update_noteq hi]
    exact h i ty

/-- `SetResource_store` keeps the invariant, whatever its result. -/
theorem readyImpliesPresent_SetResource_store (cfg : Config) (env : SetResourceEnv)
    (s : FGState) (inp : VkResource) (i : Nat) (h : readyImpliesPresent s) :
    readyImpliesPresent (SetResource_store cfg env s inp i).1 := by
  have hrr := SetResource_store_resourceReady cfg env s inp i
  have hfre := frameResourcesExcept_SetResource_store cfg env s inp i
  have hsome := SetResource_store_isSome cfg env s inp i
  intro j t hready
  by_cases hjt : j = i ∧ t = inp.type
  · rw [hjt.1, hjt.2]
    exact hsome
  · have hfr : (SetResource_store cfg env s inp i).1._frameResources j t =
        s._frameResources j t := by
      have := congrFun (congrFun hfre j) t
      unfold frameResourcesExcept at this
      simpa [hjt] using this
    rw [hfr]
    apply h j t
    cases hb : (SetResource_store cfg env s inp i).2
    · rw [hrr.2 hb] at hready
      exact hready
    · rw [hrr.1 hb] at hready
      unfold SetResourceReady at hready
      simp only [] at hready
      by_cases hj : j = i
      · subst hj
        have ht : t ≠ inp.type := fun e => hjt ⟨rfl, e⟩
        simpa [Function.update, ht] using hready
      · simpa [Function.update, hj] using hready

/-- `SetResource` keeps the invariant, whatever its result. -/
theorem readyImpliesPresent_SetResource (cfg : Config) (env : SetResourceEnv) (s : FGState)
    (inp : Option VkResource) (r : FGState × Bool)
    (hr : SetResource cfg env s inp = some r) (h : readyImpliesPresent s) :
    readyImpliesPresent r.1 := by
  cases inp with
  | none =>
    have : r = (s, false) := (Option.some.inj hr).symm
    rw [this]
    exact h
  | some x =>
    rcases SetResource_cases cfg env s x r hr with h1 | ⟨-, h1⟩
    · rw [h1]
      exact h
    · rw [h1]
      exact readyImpliesPresent_SetResource_store cfg env s x _ h

/-- `GetDispatchIndex` writes neither readiness sets nor registry. -/
theorem GetDispatchIndex_registry (cfg : Config) (fgLastFrame : Nat) (s : FGState) (w : Nat) :
    (GetDispatchIndex cfg fgLastFrame s w).1._resourceReady = s._resourceReady ∧
    (GetDispatchIndex cfg fgLastFrame s w).1._frameResources = s._frameResources := by
  unfold GetDispatchIndex
  split_ifs <;> exact ⟨rfl, rfl⟩

/-- `Deactivate` writes neither readiness sets nor registry. -/
theorem Deactivate_registry (ret : Nat) (s : FGState) :
    (Deactivate ret s)._resourceReady = s._resourceReady ∧
    (Deactivate ret s)._frameResources = s._frameResources := by
  unfold Deactivate
  split_ifs <;> exact ⟨rfl, rfl⟩

/-- `CreateContext` writes neither readiness sets nor registry. -/
theorem CreateContext_registry (env : CreateContextEnv) (s : FGState) :
    (CreateContext env s)._resourceReady = s._resourceReady ∧
    (CreateContext env s)._frameResources = s._frameResources := by
  unfold CreateContext CreateObjects
  simp only []
  split_ifs <;> exact ⟨rfl, rfl⟩

/-- `DestroyFGContext` writes neither readiness sets nor registry. -/
theorem DestroyFGContext_registry (deactivateRet : Nat) (s : FGState) :
    (DestroyFGContext deactivateRet s)._resourceReady = s._resourceReady ∧
    (DestroyFGContext deactivateRet s)._frameResources = s._frameResources := by
  have hd := Deactivate_registry deactivateRet { s with _frameCount := 1 }
  unfold DestroyFGContext ReleaseObjects
  simp only []
  split_ifs <;> exact ⟨hd.1, hd.2⟩

/-- Every call of the pipeline keeps the invariant. -/
theorem readyImpliesPresent_step (cfg : Config) (s s1 : FGState) (op : PipelineOp)
    (h : readyImpliesPresent s) (hstep : step cfg s op = some s1) : readyImpliesPresent s1 := by
  cases op with
  | StartNewFrame ret =>
    obtain rfl := Option.some.inj hstep
    exact readyImpliesPresent_StartNewFrame ret s h
  | GetDispatchIndex fg =>
    obtain rfl := Option.some.inj hstep
    have hg := GetDispatchIndex_registry cfg fg s 0
    exact readyImpliesPresent_of_eq s _ hg.1 hg.2 h
  | Activate ret =>
    obtain rfl := Option.some.inj hstep
    have ha := Activate_fields ret s
    exact readyImpliesPresent_of_eq s _ ha.2.1 ha.2.2.2.2.2.2.1 h
  | Deactivate ret =>
    obtain rfl := Option.some.inj hstep
    have hd := Deactivate_registry ret s
    exact readyImpliesPresent_of_eq s _ hd.1 hd.2 h
  | CreateContext env =>
    obtain rfl := Option.some.inj hstep
    have hc := CreateContext_registry env s
    exact readyImpliesPresent_of_eq s _ hc.1 hc.2 h
  | DestroyFGContext ret =>
    obtain rfl := Option.some.inj hstep
    have hd := DestroyFGContext_registry ret s
    exact readyImpliesPresent_of_eq s _ hd.1 hd.2 h
  | SetResource env inp =>
    have hstep1 : (SetResource cfg env s inp).map (fun r => r.1) = some s1 := hstep
    cases hr : SetResource cfg env s inp with
    | none =>
      rw [hr] at hstep1
      cases hstep1
    | some r =>
      rw [hr] at hstep1
      obtain rfl := Option.some.inj hstep1
      exact readyImpliesPresent_SetResource cfg env s inp r hr h

/-- Every run of the pipeline keeps the invariant. -/
theorem readyImpliesPresent_run (cfg : Config) (ops : List PipelineOp) :
    ∀ (s s1 : FGState), readyImpliesPresent s → run cfg s ops = some s1 →
      readyImpliesPresent s1 := by
  induction ops with
  | nil =>
    intro s s1 hinv hrun
    obtain rfl := Option.some.inj hrun
    exact hinv
  | cons op ops ih =>
    intro s s1 hinv hrun
    cases hstep : step cfg s op with
    | none =>
      unfold run at hrun
      simp [hstep] at hrun
    | some s2 =>
      unfold run at hrun
      simp only [hstep] at hrun
      exact ih s2 s1 (readyImpliesPresent_step cfg s s2 op hinv hstep) hrun



/-! ## The request of a dispatch cycle -/

/-- The shapes of a `Dispatch` call: either nothing is handed to the back end and
the record is the one handed in or the one `GetDispatchIndex` left, or the cycle
has a context, a slot, and Depth and Velocity marked ready there; the
request of `Dispatch_request` is then built from the record `GetDispatchIndex`
left, and the call ends in `Dispatch_prepare` or, when the configure call fails
or the activity flag is false, with that request alone.  The record at that
point differs from the one `GetDispatchIndex` left in `_lastHudlessFormat` at
most. -/
theorem Dispatch_cases (cfg : Config) (env : DispatchEnv) (g : Globals) (s : FGState) :
    ((Dispatch cfg env g s).request = none ∧
      ((Dispatch cfg env g s).state = s ∨
        (Dispatch cfg env g s).state = (GetDispatchIndex cfg env.fgLastFrame s 0).1)) ∨
    (s._fgContext ≠ 0 ∧ ¬ (GetDispatchIndex cfg env.fgLastFrame s 0).2.2 < 0 ∧
      (GetDispatchIndex cfg env.fgLastFrame s 0).1._resourceReady
        (GetDispatchIndex cfg env.fgLastFrame s 0).2.2.toNat FG_ResourceType.Depth =
          some true ∧
      (GetDispatchIndex cfg env.fgLastFrame s 0).1._resourceReady
        (GetDispatchIndex cfg env.fgLastFrame s 0).2.2.toNat FG_ResourceType.Velocity =
          some true ∧
      ∃ (s2 : FGState) (g1 g2 : Globals),
        (s2 = (GetDispatchIndex cfg env.fgLastFrame s 0).1 ∨
          ∃ f, s2 = { (GetDispatchIndex cfg env.fgLastFrame s 0).1 with
            _lastHudlessFormat := f }) ∧
        Dispatch cfg env g s =
          if env.configureRet == FFX_API_RETURN_OK && s2._isActive then
            Dispatch_prepare env g2 s2 (GetDispatchIndex cfg env.fgLastFrame s 0).2.2.toNat
              (GetDispatchIndex cfg env.fgLastFrame s 0).2.1
              (Dispatch_request cfg g1 (GetDispatchIndex cfg env.fgLastFrame s 0).1
                (GetDispatchIndex cfg env.fgLastFrame s 0).2.2.toNat
                (GetDispatchIndex cfg env.fgLastFrame s 0).2.1)
          else
            { state := s2, globals := g2,
              request := some (Dispatch_request cfg g1
                (GetDispatchIndex cfg env.fgLastFrame s 0).1
                (GetDispatchIndex cfg env.fgLastFrame s 0).2.2.toNat
                (GetDispatchIndex cfg env.fgLastFrame s 0).2.1),
              result := false }) := by
  unfold Dispatch
  by_cases hc : s._fgContext = 0
  · have hc1 : (s._fgContext == 0) = true := by simpa using hc
    rw [if_pos hc1]
    exact Or.inl ⟨rfl, Or.inl rfl⟩
  · have hc1 : ¬ (s._fgContext == 0) = true := by simpa using hc
    rw [if_neg hc1]
    simp only []
    by_cases h1 : (GetDispatchIndex cfg env.fgLastFrame s 0).2.2 < 0
    · rw [if_pos h1]
      exact Or.inl ⟨rfl, Or.inr rfl⟩
    · rw [if_neg h1]
      by_cases h2 : (!IsActive (GetDispatchIndex cfg env.fgLastFrame s 0).1 ||
          IsPaused (GetDispatchIndex cfg env.fgLastFrame s 0).1) = true
      · rw [if_pos h2]
        exact Or.inl ⟨rfl, Or.inr rfl⟩
      · rw [if_neg h2]
        by_cases h3 : ((GetDispatchIndex cfg env.fgLastFrame s 0).1._resourceReady
              (GetDispatchIndex cfg env.fgLastFrame s 0).2.2.toNat FG_ResourceType.Depth
                != some true ||
            (GetDispatchIndex cfg env.fgLastFrame s 0).1._resourceReady
              (GetDispatchIndex cfg env.fgLastFrame s 0).2.2.toNat FG_ResourceType.Velocity
                != some true) = true
        · rw [if_pos h3]
          exact Or.inl ⟨rfl, Or.inr rfl⟩
        · rw [if_neg h3]
          have h3a : (GetDispatchIndex cfg env.fgLastFrame s 0).1._resourceReady
              (GetDispatchIndex cfg env.fgLastFrame s 0).2.2.toNat FG_ResourceType.Depth =
                some true ∧
              (GetDispatchIndex cfg env.fgLastFrame s 0).1._resourceReady
                (GetDispatchIndex cfg env.fgLastFrame s 0).2.2.toNat FG_ResourceType.Velocity =
                  some true := by
            simpa using h3
          refine Or.inr ⟨hc, h1, h3a.1, h3a.2, _, _, _, ?_, rfl⟩
          split_ifs <;> first | exact Or.inl rfl | exact Or.inr ⟨_, rfl⟩

/-- `GetResource` at a slot given as a natural number reads the registry there. -/
theorem GetResource_slot (s : FGState) (ty : FG_ResourceType) (i : Nat) :
    GetResource s ty (i : Int) = s._frameResources i ty := by
  unfold GetResource
  have h : ¬ ((i : Int) < 0) := by omega
  simp [h]

/-- `IsResourceReady` at a slot given as a natural number reads the readiness set
there. -/
theorem IsResourceReady_slot (s : FGState) (ty : FG_ResourceType) (i : Nat) :
    IsResourceReady s ty (i : Int) = (s._resourceReady i ty).isSome := by
  unfold IsResourceReady
  have h : ¬ ((i : Int) < 0) := by omega
  simp [h]

/-- `Dispatch_prepare` hands the request on with its `prepare` field at most
changed. -/
theorem Dispatch_prepare_request (env : DispatchEnv) (g : Globals) (s : FGState) (i w : Nat)
    (rq0 : DispatchRequest) :
    ∃ p, (Dispatch_prepare env g s i w rq0).request = some { rq0 with prepare := p } := by
  unfold Dispatch_prepare
  simp only []
  split_ifs <;> first | exact ⟨rq0.prepare, rfl⟩ | exact ⟨_, rfl⟩

/-- With Velocity and Depth present and marked ready in the slot,
`Dispatch_prepare` issues the prepare request: neither abort branch is taken. -/
theorem Dispatch_prepare_issued (env : DispatchEnv) (g : Globals) (s : FGState) (i w : Nat)
    (rq0 : DispatchRequest)
    (hv : (s._frameResources i FG_ResourceType.Velocity).isSome = true)
    (hvr : (s._resourceReady i FG_ResourceType.Velocity).isSome = true)
    (hd : (s._frameResources i FG_ResourceType.Depth).isSome = true)
    (hdr : (s._resourceReady i FG_ResourceType.Depth).isSome = true) :
    ∃ p, (Dispatch_prepare env g s i w rq0).request = some { rq0 with prepare := some p } := by
  unfold Dispatch_prepare
  simp only [GetResource_slot, IsResourceReady_slot, hv, hvr, hd, hdr]
  simp only [Bool.and_self, Bool.not_true, Bool.false_eq_true, if_false]
  split_ifs <;> exact ⟨_, rfl⟩

/-- The request `Dispatch` hands to the back end is the one `Dispatch_request`
builds from the record `GetDispatchIndex` left, up to its `prepare` field and
the process-wide state read. -/
theorem Dispatch_request_of_some (cfg : Config) (env : DispatchEnv) (g : Globals)
    (s : FGState) (rq : DispatchRequest) (h : (Dispatch cfg env g s).request = some rq) :
    ∃ (g1 : Globals) (p : Option PrepareRequest),
      rq = { Dispatch_request cfg g1 (GetDispatchIndex cfg env.fgLastFrame s 0).1
        (GetDispatchIndex cfg env.fgLastFrame s 0).2.2.toNat
        (GetDispatchIndex cfg env.fgLastFrame s 0).2.1 with prepare := p } := by
  rcases Dispatch_cases cfg env g s with ⟨h0, -⟩ | ⟨-, -, -, -, s2, g1, g2, -, hD⟩
  · rw [h0] at h
    cases h
  · rw [hD] at h
    split_ifs at h
    · obtain ⟨p, hp⟩ := Dispatch_prepare_request env g2 s2
        (GetDispatchIndex cfg env.fgLastFrame s 0).2.2.toNat
        (GetDispatchIndex cfg env.fgLastFrame s 0).2.1
        (Dispatch_request cfg g1 (GetDispatchIndex cfg env.fgLastFrame s 0).1
          (GetDispatchIndex cfg env.fgLastFrame s 0).2.2.toNat
          (GetDispatchIndex cfg env.fgLastFrame s 0).2.1)
      rw [hp] at h
      exact ⟨g1, p, (Option.some.inj h).symm⟩
    · exact ⟨g1, none, (Option.some.inj h).symm⟩

/-- Under the invariant, a `Dispatch` that has passed its readiness check, whose
configure call succeeds and whose activity flag is set, issues the prepare
request: the "Velocity is missing" and "Depth is missing" exits are not
taken. -/
theorem Dispatch_prepare_of_invariant (cfg : Config) (env : DispatchEnv) (g : Globals)
    (s : FGState) (rq : DispatchRequest) (hinv : readyImpliesPresent s)
    (h : (Dispatch cfg env g s).request = some rq)
    (hret : env.configureRet = FFX_API_RETURN_OK) (hact : s._isActive = true) :
    rq.prepare.isSome = true := by
  have hreg := GetDispatchIndex_registry cfg env.fgLastFrame s 0
  have hfld := GetDispatchIndex_fields cfg env.fgLastFrame s 0
  rcases Dispatch_cases cfg env g s with ⟨h0, -⟩ | ⟨-, -, hdr, hvr, s2, g1, g2, hs2, hD⟩
  · rw [h0] at h
    cases h
  · have hs2rr : s2._resourceReady = s._resourceReady := by
      rcases hs2 with e | ⟨f, e⟩ <;> rw [e] <;> exact hreg.1
    have hs2fr : s2._frameResources = s._frameResources := by
      rcases hs2 with e | ⟨f, e⟩ <;> rw [e] <;> exact hreg.2
    have hs2a : s2._isActive = true := by
      rcases hs2 with e | ⟨f, e⟩ <;> rw [e] <;> exact hfld.2.2.1.trans hact
    rw [hreg.1] at hdr hvr
    have hdr1 : (s._resourceReady (GetDispatchIndex cfg env.fgLastFrame s 0).2.2.toNat
        FG_ResourceType.Depth).isSome = true := by
      rw [hdr]
      rfl
    have hvr1 : (s._resourceReady (GetDispatchIndex cfg env.fgLastFrame s 0).2.2.toNat
        FG_ResourceType.Velocity).isSome = true := by
      rw [hvr]
      rfl
    have hc : (env.configureRet == FFX_API_RETURN_OK && s2._isActive) = true := by
      simp [hret, hs2a]
    rw [hD, if_pos hc] at h
    obtain ⟨p, hp⟩ := Dispatch_prepare_issued env g2 s2
      (GetDispatchIndex cfg env.fgLastFrame s 0).2.2.toNat
      (GetDispatchIndex cfg env.fgLastFrame s 0).2.1
      (Dispatch_request cfg g1 (GetDispatchIndex cfg env.fgLastFrame s 0).1
        (GetDispatchIndex cfg env.fgLastFrame s 0).2.2.toNat
        (GetDispatchIndex cfg env.fgLastFrame s 0).2.1)
      (by rw [hs2fr]; exact hinv _ _ hvr1) (by rw [hs2rr]; exact hvr1)
      (by rw [hs2fr]; exact hinv _ _ hdr1) (by rw [hs2rr]; exact hdr1)
    rw [hp] at h
    rw [← Option.some.inj h]
    rfl

/-- C30: in every state reached from the initial state by a sequence of
`StartNewFrame` and `SetResource` calls (and of the other calls of the pipeline:
`GetDispatchIndex`, `Activate`, `Deactivate`, `CreateContext`,
`DestroyFGContext`) in which every `SetResource` addresses a slot of the ring,
a type marked in the readiness set of a slot has an entry in the resource map of
that slot; consequently a `Dispatch` from such a state that has passed its
Depth and Velocity readiness check and reaches the prepare step (configure call
succeeded, activity flag set) issues the prepare request, taking neither the
"Velocity is missing" nor the "Depth is missing" exit. -/
theorem ready_implies_present (cfg : Config) (ops : List PipelineOp) (s : FGState)
    (h : run cfg initialState ops = some s) :
    (∀ (i : Nat) (ty : FG_ResourceType),
      (s._resourceReady i ty).isSome = true → (s._frameResources i ty).isSome = true) ∧
    (∀ (i : Nat) (ty : FG_ResourceType),
      s._resourceReady i ty = some true → (s._frameResources i ty).isSome = true) ∧
    (∀ (cfg2 : Config) (env : DispatchEnv) (g : Globals) (rq : DispatchRequest),
      (Dispatch cfg2 env g s).request = some rq → env.configureRet = FFX_API_RETURN_OK →
      s._isActive = true → rq.prepare.isSome = true) := by
  have h0 : readyImpliesPresent initialState := by
    intro i ty hr
    cases hr
  have hinv := readyImpliesPresent_run cfg ops initialState s h0 h
  refine ⟨hinv, ?_, ?_⟩
  · intro i ty hr
    apply hinv i ty
    rw [hr]
    rfl
  · intro cfg2 env g rq hrq hret hact
    exact Dispatch_prepare_of_invariant cfg2 env g s rq hinv hrq hret hact

theorem ready_implies_present_witness :
    readyState._resourceReady 1 FG_ResourceType.Depth = some true ∧
    (readyState._frameResources 1 FG_ResourceType.Depth).isSome = true :=
  ⟨by decide,
    (ready_implies_present {} readyTrace readyState (by rfl)).2.1 1 FG_ResourceType.Depth
      (by decide)⟩

/-! ## The colour input and the generation rectangle -/

/-- The colour inputs of `Dispatch_request`. -/
theorem Dispatch_request_colour (cfg : Config) (g : Globals) (s : FGState) (i w : Nat) :
    (Dispatch_request cfg g s i w).uiResource =
      (if (s._frameResources i FG_ResourceType.UIColor).isSome = true ∧
          (s._resourceReady i FG_ResourceType.UIColor).isSome = true ∧
          cfg.FGDrawUIOverFG = true then
        GetFfxResourceFromVkResource (s._frameResources i FG_ResourceType.UIColor)
      else {}) ∧
    (Dispatch_request cfg g s i w).HUDLessColor =
      (if (s._frameResources i FG_ResourceType.UIColor).isSome = true ∧
          (s._resourceReady i FG_ResourceType.UIColor).isSome = true ∧
          cfg.FGDrawUIOverFG = true then {}
      else if (s._frameResources i FG_ResourceType.HudlessColor).isSome = true ∧
          (s._resourceReady i FG_ResourceType.HudlessColor).isSome = true then
        GetFfxResourceFromVkResource (s._frameResources i FG_ResourceType.HudlessColor)
      else {}) := by
  unfold Dispatch_request
  simp only [GetResource_slot, IsResourceReady_slot]
  constructor <;> split_ifs <;> simp_all

/-- C23: in the request a `Dispatch` hands to the back end for its target slot,
the UI resource is the slot's UI colour and the hudless input is empty when a UI
colour is present and ready in the slot and UI-over-FG compositing is enabled;
otherwise the UI resource is empty and the hudless input is the slot's hudless
colour when that is present and ready; otherwise both are empty.  So a UI
resource that is not empty means the first case, and a hudless input that is
not empty the second; with both colours present and ready, compositing enabled
selects the UI colour and compositing disabled the hudless colour. -/
theorem Dispatch_colour_input (cfg : Config) (env : DispatchEnv) (g : Globals) (s : FGState)
    (rq : DispatchRequest) (h : (Dispatch cfg env g s).request = some rq) :
    (((s._frameResources (GetDispatchIndex cfg env.fgLastFrame s 0).2.2.toNat
          FG_ResourceType.UIColor).isSome = true ∧
        (s._resourceReady (GetDispatchIndex cfg env.fgLastFrame s 0).2.2.toNat
          FG_ResourceType.UIColor).isSome = true ∧ cfg.FGDrawUIOverFG = true) →
      rq.uiResource = GetFfxResourceFromVkResource
        (s._frameResources (GetDispatchIndex cfg env.fgLastFrame s 0).2.2.toNat
          FG_ResourceType.UIColor) ∧
      rq.HUDLessColor = {}) ∧
    (¬ ((s._frameResources (GetDispatchIndex cfg env.fgLastFrame s 0).2.2.toNat
          FG_ResourceType.UIColor).isSome = true ∧
        (s._resourceReady (GetDispatchIndex cfg env.fgLastFrame s 0).2.2.toNat
          FG_ResourceType.UIColor).isSome = true ∧ cfg.FGDrawUIOverFG = true) →
      ((s._frameResources (GetDispatchIndex cfg env.fgLastFrame s 0).2.2.toNat
          FG_ResourceType.HudlessColor).isSome = true ∧
        (s._resourceReady (GetDispatchIndex cfg env.fgLastFrame s 0).2.2.toNat
          FG_ResourceType.HudlessColor).isSome = true) →
      rq.uiResource = {} ∧
      rq.HUDLessColor = GetFfxResourceFromVkResource
        (s._frameResources (GetDispatchIndex cfg env.fgLastFrame s 0).2.2.toNat
          FG_ResourceType.HudlessColor)) ∧
    (¬ ((s._frameResources (GetDispatchIndex cfg env.fgLastFrame s 0).2.2.toNat
          FG_ResourceType.UIColor).isSome = true ∧
        (s._resourceReady (GetDispatchIndex cfg env.fgLastFrame s 0).2.2.toNat
          FG_ResourceType.UIColor).isSome = true ∧ cfg.FGDrawUIOverFG = true) →
      ¬ ((s._frameResources (GetDispatchIndex cfg env.fgLastFrame s 0).2.2.toNat
          FG_ResourceType.HudlessColor).isSome = true ∧
        (s._resourceReady (GetDispatchIndex cfg env.fgLastFrame s 0).2.2.toNat
          FG_ResourceType.HudlessColor).isSome = true) →
      rq.uiResource = {} ∧ rq.HUDLessColor = {}) ∧
    (rq.uiResource ≠ {} →
      (s._frameResources (GetDispatchIndex cfg env.fgLastFrame s 0).2.2.toNat
          FG_ResourceType.UIColor).isSome = true ∧
        (s._resourceReady (GetDispatchIndex cfg env.fgLastFrame s 0).2.2.toNat
          FG_ResourceType.UIColor).isSome = true ∧ cfg.FGDrawUIOverFG = true) ∧
    (rq.HUDLessColor ≠ {} →
      ¬ ((s._frameResources (GetDispatchIndex cfg env.fgLastFrame s 0).2.2.toNat
          FG_ResourceType.UIColor).isSome = true ∧
        (s._resourceReady (GetDispatchIndex cfg env.fgLastFrame s 0).2.2.toNat
          FG_ResourceType.UIColor).isSome = true ∧ cfg.FGDrawUIOverFG = true) ∧
      (s._frameResources (GetDispatchIndex cfg env.fgLastFrame s 0).2.2.toNat
          FG_ResourceType.HudlessColor).isSome = true ∧
        (s._resourceReady (GetDispatchIndex cfg env.fgLastFrame s 0).2.2.toNat
          FG_ResourceType.HudlessColor).isSome = true) := by
  obtain ⟨g1, p, hrq⟩ := Dispatch_request_of_some cfg env g s rq h
  have hreg := GetDispatchIndex_registry cfg env.fgLastFrame s 0
  have hcol := Dispatch_request_colour cfg g1 (GetDispatchIndex cfg env.fgLastFrame s 0).1
    (GetDispatchIndex cfg env.fgLastFrame s 0).2.2.toNat
    (GetDispatchIndex cfg env.fgLastFrame s 0).2.1
  rw [hreg.1, hreg.2] at hcol
  have hui : rq.uiResource = (Dispatch_request cfg g1
      (GetDispatchIndex cfg env.fgLastFrame s 0).1
      (GetDispatchIndex cfg env.fgLastFrame s 0).2.2.toNat
      (GetDispatchIndex cfg env.fgLastFrame s 0).2.1).uiResource := by
    rw [hrq]
  have hhu : rq.HUDLessColor = (Dispatch_request cfg g1
      (GetDispatchIndex cfg env.fgLastFrame s 0).1
      (GetDispatchIndex cfg env.fgLastFrame s 0).2.2.toNat
      (GetDispatchIndex cfg env.fgLastFrame s 0).2.1).HUDLessColor := by
    rw [hrq]
  rw [hui, hhu, hcol.1, hcol.2]
  refine ⟨?_, ?_, ?_, ?_, ?_⟩
  · intro hc
    rw [if_pos hc, if_pos hc]
    exact ⟨rfl, rfl⟩
  · intro hc hh
    rw [if_neg hc, if_neg hc, if_pos hh]
    exact ⟨rfl, rfl⟩
  · intro hc hh
    rw [if_neg hc, if_neg hc, if_neg hh]
    exact ⟨rfl, rfl⟩
  · intro hne
    by_contra hc
    rw [if_neg hc] at hne
    exact hne rfl
  · intro hne
    by_cases hc : (s._frameResources (GetDispatchIndex cfg env.fgLastFrame s 0).2.2.toNat
          FG_ResourceType.UIColor).isSome = true ∧
        (s._resourceReady (GetDispatchIndex cfg env.fgLastFrame s 0).2.2.toNat
          FG_ResourceType.UIColor).isSome = true ∧ cfg.FGDrawUIOverFG = true
    · rw [if_pos hc] at hne
      exact absurd rfl hne
    · refine ⟨hc, ?_⟩
      by_contra hh
      rw [if_neg hc, if_neg hh] at hne
      exact hne rfl

theorem Dispatch_colour_input_witness :
    uiRequest.uiResource.resource = 8 ∧ uiRequest.HUDLessColor = {} ∧
    ((Dispatch {} {} {} dispatchReadyState).request.map
        (fun rq => (rq.uiResource.resource, rq.HUDLessColor.resource)) = some (0, 9)) :=
  ⟨by decide,
    ((Dispatch_colour_input cfgDrawUI {} {} dispatchReadyState uiRequest (by decide)).1
      ⟨by decide, by decide, by decide⟩).2,
    by decide⟩

/-- The generation rectangle of `Dispatch_request`. -/
theorem Dispatch_request_rect (cfg : Config) (g : Globals) (s : FGState) (i w : Nat) :
    (Dispatch_request cfg g s i w).generationRect =
      { left := cfg.FGRectLeft.getD
          (toInt32 (((s._interpolationLeft i).map (fun u => (u : Int))).getD
            ((toInt32 (toInt32 s._swapChainExtentWidth - s._interpolationWidth i)).tdiv 2))),
        top := cfg.FGRectTop.getD
          (toInt32 (((s._interpolationTop i).map (fun u => (u : Int))).getD
            ((toInt32 (toInt32 s._swapChainExtentHeight - s._interpolationHeight i)).tdiv 2))),
        width := cfg.FGRectWidth.getD (toInt32 (s._interpolationWidth i)),
        height := cfg.FGRectHeight.getD (toInt32 (s._interpolationHeight i)) } := rfl

/-- C24: the member `_swapChainExtent` is read by `Dispatch` and by
`CreateContext` and assigned nowhere, so it keeps its initial value of 0 by 0.
After a context is created, the first frame is admitted, Depth and Velocity are
reported for it and an interpolation size of 1280 by 720 is set without a
position, `Dispatch` with no override configured selects slot 1 and hands the
back end the rectangle `left = (0 - 1280) / 2 = -640`,
`top = (0 - 720) / 2 = -360`, `width = 1280`, `height = 720`: the default
position is negative, not the centring
`(displayWidth - interpolationWidth) / 2 >= 0` in the display. -/
theorem Dispatch_generation_rect_zero_extent :
    (run {} initialState rectTrace).isSome = true ∧
    zeroExtentState._swapChainExtentWidth = 0 ∧
    zeroExtentState._swapChainExtentHeight = 0 ∧
    (GetDispatchIndex {} 0 zeroExtentState 0).2 = (1, 1) ∧
    zeroExtentState._interpolationLeft 1 = none ∧
    zeroExtentState._interpolationTop 1 = none ∧
    zeroExtentState._interpolationWidth 1 = 1280 ∧
    zeroExtentState._interpolationHeight 1 = 720 ∧
    (Dispatch {} {} {} zeroExtentState).result = true ∧
    (Dispatch {} {} {} zeroExtentState).request.map
        (fun rq => (rq.generationRect.left, rq.generationRect.top, rq.generationRect.width,
          rq.generationRect.height)) = some (-640, -360, 1280, 720) := by
  decide

/-! ## The automatic pause of `Present` -/

theorem pauseView_GetUICommandList (env : UICommandListEnv) (s : FGState) :
    pauseView (GetUICommandList env s).1 = pauseView s := by
  unfold GetUICommandList
  split_ifs <;> rfl

theorem pauseView_GetDispatchIndex (cfg : Config) (fgLastFrame : Nat) (s : FGState) (w : Nat) :
    pauseView (GetDispatchIndex cfg fgLastFrame s w).1 = pauseView s := by
  unfold GetDispatchIndex
  split_ifs <;> rfl

theorem pauseView_Dispatch_prepare (env : DispatchEnv) (g : Globals) (s : FGState) (i w : Nat)
    (rq : DispatchRequest) :
    pauseView (Dispatch_prepare env g s i w rq).state = pauseView s := by
  unfold Dispatch_prepare ExecuteCommandList SetExecuted
  simp only []
  split_ifs <;> rfl

/-- `Dispatch` writes neither activity flag, neither present id and not the
context. -/
theorem pauseView_Dispatch (cfg : Config) (env : DispatchEnv) (g : Globals) (s : FGState) :
    pauseView (Dispatch cfg env g s).state = pauseView s := by
  have hg := pauseView_GetDispatchIndex cfg env.fgLastFrame s 0
  rcases Dispatch_cases cfg env g s with ⟨-, h0 | h0⟩ | ⟨-, -, -, -, s2, g1, g2, hs2, hD⟩
  · rw [h0]
  · rw [h0]
    exact hg
  · have hs2v : pauseView s2 = pauseView s := by
      rcases hs2 with e | ⟨f, e⟩
      · rw [e]
        exact hg
      · rw [e]
        exact hg
    rw [hD]
    split_ifs
    · rw [pauseView_Dispatch_prepare]
      exact hs2v
    · exact hs2v

/-- The difference of the present ids grows by one, modulo `2^64`, with the
present id. -/
theorem u64sub_u64add_one (a b : Nat) :
    u64sub (u64add a 1) b = (u64sub a b + 1) % U64_MOD := by
  unfold u64sub u64add U64_MOD
  omega

/-- `Present` up to its hudless comparison, which writes none of the members the
automatic pause reads: the pause test, the pause, and the call of `Dispatch` on
the record with the present id incremented. -/
theorem Present_shape (cfg : Config) (env : PresentEnv) (g : Globals) (s : FGState) :
    ∃ s1 : FGState, pauseView s1 = pauseView s ∧
      Present cfg env g s =
        if decide (u64sub s1._fgFramePresentId s1._lastFGFramePresentId > 3) && IsActive s1 &&
            !s1._waitingNewFrameData then
          { state := { Deactivate env.deactivateRet s1 with _waitingNewFrameData := true },
            globals := g, request := none, result := false }
        else
          Dispatch cfg env.dispatch g
            { s1 with _fgFramePresentId := u64add s1._fgFramePresentId 1 } := by
  unfold Present
  simp only []
  refine ⟨_, ?_, rfl⟩
  split_ifs
  all_goals
    first
      | rfl
      | (split
         · first | rfl | exact pauseView_GetUICommandList _ _
         · rfl)

/-- The activity flag `Deactivate` leaves depends on the activity flag and the
context only. -/
theorem Deactivate_isActive (ret : Nat) (s s1 : FGState) (h : pauseView s1 = pauseView s) :
    (Deactivate ret s1)._isActive = (Deactivate ret s)._isActive := by
  have ha : s1._isActive = s._isActive := congrArg (fun v => v.1) h
  have hc : s1._fgContext = s._fgContext := congrArg (fun v => v.2.2.2.2) h
  unfold Deactivate
  rw [ha, hc]
  split_ifs <;> first | rfl | exact ha

/-- One `Present` whose pause test fails: it is a `Dispatch` on a record with the
present id incremented, and it leaves the flags as they were and the present id
incremented. -/
theorem Present_proceeds (cfg : Config) (env : PresentEnv) (g : Globals) (s : FGState)
    (h : ¬ (u64sub s._fgFramePresentId s._lastFGFramePresentId > 3 ∧ IsActive s = true ∧
      s._waitingNewFrameData = false)) :
    (∃ s1 : FGState, s1._fgFramePresentId = u64add s._fgFramePresentId 1 ∧
      Present cfg env g s = Dispatch cfg env.dispatch g s1) ∧
    pauseView (Present cfg env g s).state =
      (s._isActive, s._waitingNewFrameData, u64add s._fgFramePresentId 1,
        s._lastFGFramePresentId, s._fgContext) := by
  obtain ⟨s1, hv, hP⟩ := Present_shape cfg env g s
  have ha : s1._isActive = s._isActive := congrArg (fun v => v.1) hv
  have hw : s1._waitingNewFrameData = s._waitingNewFrameData := congrArg (fun v => v.2.1) hv
  have hi : s1._fgFramePresentId = s._fgFramePresentId := congrArg (fun v => v.2.2.1) hv
  have hl : s1._lastFGFramePresentId = s._lastFGFramePresentId :=
    congrArg (fun v => v.2.2.2.1) hv
  have hc : s1._fgContext = s._fgContext := congrArg (fun v => v.2.2.2.2) hv
  have hIA : IsActive s1 = IsActive s := by
    unfold IsActive
    rw [ha, hw]
  have hcond : ¬ (decide (u64sub s1._fgFramePresentId s1._lastFGFramePresentId > 3) &&
      IsActive s1 && !s1._waitingNewFrameData) = true := by
    rw [hi, hl, hIA, hw]
    simpa [and_assoc] using h
  rw [if_neg hcond] at hP
  refine ⟨⟨_, ?_, hP⟩, ?_⟩
  · show u64add s1._fgFramePresentId 1 = _
    rw [hi]
  · rw [hP, pauseView_Dispatch]
    show (s1._isActive, s1._waitingNewFrameData, u64add s1._fgFramePresentId 1,
      s1._lastFGFramePresentId, s1._fgContext) = _
    rw [ha, hw, hi, hl, hc]

/-- One `Present` whose pause test succeeds: it calls `Deactivate`, sets the
awaiting-data flag, hands nothing to the back end, returns false and leaves the
present ids as they were. -/
theorem Present_pauses (cfg : Config) (env : PresentEnv) (g : Globals) (s : FGState)
    (h : u64sub s._fgFramePresentId s._lastFGFramePresentId > 3 ∧ IsActive s = true ∧
      s._waitingNewFrameData = false) :
    (Present cfg env g s).result = false ∧
    (Present cfg env g s).request = none ∧
    (Present cfg env g s).state._waitingNewFrameData = true ∧
    (Present cfg env g s).state._isActive = (Deactivate env.deactivateRet s)._isActive ∧
    (Present cfg env g s).state._fgFramePresentId = s._fgFramePresentId ∧
    (Present cfg env g s).state._lastFGFramePresentId = s._lastFGFramePresentId := by
  obtain ⟨s1, hv, hP⟩ := Present_shape cfg env g s
  have ha : s1._isActive = s._isActive := congrArg (fun v => v.1) hv
  have hw : s1._waitingNewFrameData = s._waitingNewFrameData := congrArg (fun v => v.2.1) hv
  have hi : s1._fgFramePresentId = s._fgFramePresentId := congrArg (fun v => v.2.2.1) hv
  have hl : s1._lastFGFramePresentId = s._lastFGFramePresentId :=
    congrArg (fun v => v.2.2.2.1) hv
  have hIA : IsActive s1 = IsActive s := by
    unfold IsActive
    rw [ha, hw]
  have hcond : (decide (u64sub s1._fgFramePresentId s1._lastFGFramePresentId > 3) &&
      IsActive s1 && !s1._waitingNewFrameData) = true := by
    rw [hi, hl, hIA, hw]
    simpa [and_assoc] using h
  rw [if_pos hcond] at hP
  have hD := Deactivate_isActive env.deactivateRet s s1 hv
  have hDi : (Deactivate env.deactivateRet s1)._fgFramePresentId = s1._fgFramePresentId ∧
      (Deactivate env.deactivateRet s1)._lastFGFramePresentId = s1._lastFGFramePresentId := by
    unfold Deactivate
    split_ifs <;> exact ⟨rfl, rfl⟩
  rw [hP]
  exact ⟨rfl, rfl, rfl, hD, hDi.1.trans hi, hDi.2.trans hl⟩

/-- The `NewFrame` hook latches the present id and keeps the context. -/
theorem NewFrame_presentIds (activateRet : Nat) (s : FGState) :
    (NewFrame activateRet s)._lastFGFramePresentId = (NewFrame activateRet s)._fgFramePresentId ∧
    (NewFrame activateRet s)._waitingNewFrameData = false := by
  refine ⟨?_, (NewFrame_fields activateRet s).2.2.2.2.2.2.1⟩
  unfold NewFrame
  rfl

/-- After `StartNewFrame` the latched present id is the present id and the
pipeline is not awaiting new frame data. -/
theorem StartNewFrame_presentIds (activateRet : Nat) (s : FGState) :
    (StartNewFrame activateRet s).1._lastFGFramePresentId =
      (StartNewFrame activateRet s).1._fgFramePresentId ∧
    (StartNewFrame activateRet s).1._waitingNewFrameData = false :=
  NewFrame_presentIds activateRet (StartNewFrame_resetSlot (StartNewFrame_counters s))

/-- From a record whose latched present id is the present id and that is not
awaiting new frame data, the first four `Present` calls keep the flags, the
latched id and the context, and the `k`-th leaves the present id `k` ahead of the
latched one. -/
theorem Presents_view (cfg : Config) (envs : Nat → PresentEnv) (g : Globals) (s : FGState)
    (hl : s._lastFGFramePresentId = s._fgFramePresentId) (hw : s._waitingNewFrameData = false)
    (k : Nat) (hk : k ≤ 4) :
    (Presents cfg envs g s k).1._isActive = s._isActive ∧
    (Presents cfg envs g s k).1._waitingNewFrameData = false ∧
    (Presents cfg envs g s k).1._fgContext = s._fgContext ∧
    u64sub (Presents cfg envs g s k).1._fgFramePresentId
      (Presents cfg envs g s k).1._lastFGFramePresentId = k := by
  induction k with
  | zero =>
    refine ⟨rfl, hw, rfl, ?_⟩
    show u64sub s._fgFramePresentId s._lastFGFramePresentId = 0
    rw [hl]
    exact u64sub_self _
  | succ k ih =>
    obtain ⟨i1, i2, i3, i4⟩ := ih (by omega)
    have hno : ¬ (u64sub (Presents cfg envs g s k).1._fgFramePresentId
        (Presents cfg envs g s k).1._lastFGFramePresentId > 3 ∧
        IsActive (Presents cfg envs g s k).1 = true ∧
        (Presents cfg envs g s k).1._waitingNewFrameData = false) := by
      rw [i4]
      omega
    have hv := (Present_proceeds cfg (envs k) (Presents cfg envs g s k).2
      (Presents cfg envs g s k).1 hno).2
    have e1 : (Presents cfg envs g s (k + 1)).1 =
        (Present cfg (envs k) (Presents cfg envs g s k).2 (Presents cfg envs g s k).1).state :=
      rfl
    have ha := congrArg (fun v => v.1) hv
    have hww := congrArg (fun v => v.2.1) hv
    have hi := congrArg (fun v => v.2.2.1) hv
    have hla := congrArg (fun v => v.2.2.2.1) hv
    have hc := congrArg (fun v => v.2.2.2.2) hv
    simp only [pauseView] at ha hww hi hla hc
    rw [e1]
    refine ⟨ha.trans i1, hww.trans i2, hc.trans i3, ?_⟩
    rw [hi, hla, u64sub_u64add_one, i4]
    unfold U64_MOD
    omega

/-- The `StartNewFrame` that follows an automatic pause: it clears the
awaiting-data flag, sets `_targetFrame` ten frames ahead of the new
`_frameCount`, and leaves the activity flag as `Activate` leaves it. -/
theorem StartNewFrame_after_pause (activateRet : Nat) (s : FGState)
    (hw : s._waitingNewFrameData = true) :
    (StartNewFrame activateRet s).1._waitingNewFrameData = false ∧
    (StartNewFrame activateRet s).1._targetFrame = u64add (u64add s._frameCount 1) 10 ∧
    (StartNewFrame activateRet s).1._isActive = (Activate activateRet s)._isActive := by
  have hC := StartNewFrame_counters_fields s
  have hctx : (StartNewFrame_counters s)._fgContext = s._fgContext ∧
      (StartNewFrame_counters s)._swapChain = s._swapChain := by
    unfold StartNewFrame_counters
    simp only []
    split_ifs <;> exact ⟨rfl, rfl⟩
  have hF : (StartNewFrame_resetSlot (StartNewFrame_counters s))._frameCount =
      u64add s._frameCount 1 := hC.1
  have hA : (StartNewFrame_resetSlot (StartNewFrame_counters s))._isActive = s._isActive := hC.2.1
  have hW : (StartNewFrame_resetSlot (StartNewFrame_counters s))._waitingNewFrameData = true :=
    hC.2.2.trans hw
  have hX : (StartNewFrame_resetSlot (StartNewFrame_counters s))._fgContext = s._fgContext :=
    hctx.1
  have hS : (StartNewFrame_resetSlot (StartNewFrame_counters s))._swapChain = s._swapChain :=
    hctx.2
  show (NewFrame activateRet (StartNewFrame_resetSlot (StartNewFrame_counters s)))._waitingNewFrameData
      = false ∧
    (NewFrame activateRet (StartNewFrame_resetSlot (StartNewFrame_counters s)))._targetFrame = _ ∧
    (NewFrame activateRet (StartNewFrame_resetSlot (StartNewFrame_counters s)))._isActive = _
  generalize StartNewFrame_resetSlot (StartNewFrame_counters s) = u at hF hA hW hX hS
  unfold NewFrame Activate UpdateTarget
  simp only [hW, if_true, hA, hX, hS, hF]
  split_ifs <;> simp

/-- C29, as stated, fails: when the configure call made by `Deactivate` fails,
the fifth consecutive `Present` of an active pipeline returns false and sets the
awaiting-data flag, but the activity flag stays true: the pipeline has not been
deactivated. -/
theorem Present_automatic_pause_counterexample :
    IsActive (StartNewFrame 0 presentedState).1 = true ∧
    u64sub fourPresents.1._fgFramePresentId fourPresents.1._lastFGFramePresentId = 4 ∧
    (Present {} failingDeactivateEnv fourPresents.2 fourPresents.1).result = false ∧
    (Present {} failingDeactivateEnv fourPresents.2
      fourPresents.1).state._waitingNewFrameData = true ∧
    (Present {} failingDeactivateEnv fourPresents.2 fourPresents.1).state._isActive = true := by
  decide

/-- C29, amended: counting from a `StartNewFrame` that leaves the pipeline active,
each of the first four `Present` calls is a `Dispatch` on the record with the
present id incremented, and leaves the present id incremented; before the fifth the
present id is 4 ahead of the id latched at the new frame, and the fifth calls
`Deactivate` (the activity flag is cleared when the configure call succeeds),
sets the awaiting-data flag, hands nothing to the back end, returns false and
leaves the present id as it was; the `StartNewFrame` after it clears the
awaiting-data flag, sets `_targetFrame` ten frames ahead of the new
`_frameCount`, so that (below the wrap) the pipeline is paused, and calls
`Activate`. -/
theorem Present_automatic_pause (cfg : Config) (envs : Nat → PresentEnv) (g : Globals)
    (activateRet : Nat) (s : FGState) (hA : IsActive (StartNewFrame activateRet s).1 = true) :
    (∀ k, k < 4 →
      (∃ s1 : FGState,
        s1._fgFramePresentId = u64add
          (Presents cfg envs g (StartNewFrame activateRet s).1 k).1._fgFramePresentId 1 ∧
        Present cfg (envs k) (Presents cfg envs g (StartNewFrame activateRet s).1 k).2
            (Presents cfg envs g (StartNewFrame activateRet s).1 k).1 =
          Dispatch cfg (envs k).dispatch
            (Presents cfg envs g (StartNewFrame activateRet s).1 k).2 s1) ∧
      (Presents cfg envs g (StartNewFrame activateRet s).1 (k + 1)).1._fgFramePresentId =
        u64add (Presents cfg envs g (StartNewFrame activateRet s).1 k).1._fgFramePresentId 1) ∧
    u64sub (Presents cfg envs g (StartNewFrame activateRet s).1 4).1._fgFramePresentId
      (Presents cfg envs g (StartNewFrame activateRet s).1 4).1._lastFGFramePresentId = 4 ∧
    (Present cfg (envs 4) (Presents cfg envs g (StartNewFrame activateRet s).1 4).2
      (Presents cfg envs g (StartNewFrame activateRet s).1 4).1).result = false ∧
    (Present cfg (envs 4) (Presents cfg envs g (StartNewFrame activateRet s).1 4).2
      (Presents cfg envs g (StartNewFrame activateRet s).1 4).1).request = none ∧
    (Present cfg (envs 4) (Presents cfg envs g (StartNewFrame activateRet s).1 4).2
      (Presents cfg envs g (StartNewFrame activateRet s).1 4).1).state._waitingNewFrameData =
        true ∧
    (Present cfg (envs 4) (Presents cfg envs g (StartNewFrame activateRet s).1 4).2
      (Presents cfg envs g (StartNewFrame activateRet s).1 4).1).state._isActive =
        (Deactivate (envs 4).deactivateRet
          (Presents cfg envs g (StartNewFrame activateRet s).1 4).1)._isActive ∧
    ((envs 4).deactivateRet = FFX_API_RETURN_OK →
      (Present cfg (envs 4) (Presents cfg envs g (StartNewFrame activateRet s).1 4).2
        (Presents cfg envs g (StartNewFrame activateRet s).1 4).1).state._isActive = false) ∧
    (Present cfg (envs 4) (Presents cfg envs g (StartNewFrame activateRet s).1 4).2
      (Presents cfg envs g (StartNewFrame activateRet s).1 4).1).state._fgFramePresentId =
        (Presents cfg envs g (StartNewFrame activateRet s).1 4).1._fgFramePresentId ∧
    (∀ (ret : Nat) (t : FGState), t._waitingNewFrameData = true →
      (StartNewFrame ret t).1._waitingNewFrameData = false ∧
      (StartNewFrame ret t).1._targetFrame = u64add (u64add t._frameCount 1) 10 ∧
      (t._frameCount + 11 < U64_MOD → IsPaused (StartNewFrame ret t).1 = true) ∧
      (StartNewFrame ret t).1._isActive = (Activate ret t)._isActive) := by
  obtain ⟨hl, hw⟩ := StartNewFrame_presentIds activateRet s
  have hview := Presents_view cfg envs g (StartNewFrame activateRet s).1 hl hw
  have hact : ∀ k, k ≤ 4 →
      IsActive (Presents cfg envs g (StartNewFrame activateRet s).1 k).1 = true := by
    intro k hk
    obtain ⟨v1, v2, -, -⟩ := hview k hk
    unfold IsActive at hA ⊢
    rw [v1, v2, ← hw]
    exact hA
  have h4 := hview 4 (Nat.le_refl 4)
  have hp := Present_pauses cfg (envs 4)
    (Presents cfg envs g (StartNewFrame activateRet s).1 4).2
    (Presents cfg envs g (StartNewFrame activateRet s).1 4).1
    ⟨by rw [h4.2.2.2]; decide, hact 4 (Nat.le_refl 4), h4.2.1⟩
  refine ⟨?_, h4.2.2.2, hp.1, hp.2.1, hp.2.2.1, hp.2.2.2.1, ?_, hp.2.2.2.2.1, ?_⟩
  · intro k hk
    obtain ⟨-, -, -, v4⟩ := hview k (by omega)
    have hno : ¬ (u64sub (Presents cfg envs g (StartNewFrame activateRet s).1 k).1._fgFramePresentId
        (Presents cfg envs g (StartNewFrame activateRet s).1 k).1._lastFGFramePresentId > 3 ∧
        IsActive (Presents cfg envs g (StartNewFrame activateRet s).1 k).1 = true ∧
        (Presents cfg envs g (StartNewFrame activateRet s).1 k).1._waitingNewFrameData = false) := by
      rw [v4]
      omega
    have hpr := Present_proceeds cfg (envs k)
      (Presents cfg envs g (StartNewFrame activateRet s).1 k).2
      (Presents cfg envs g (StartNewFrame activateRet s).1 k).1 hno
    exact ⟨hpr.1, congrArg (fun v => v.2.2.1) hpr.2⟩
  · intro hret
    rw [hp.2.2.2.1, hret]
    exact (Deactivate_ok_flags _).1
  · intro ret t ht
    obtain ⟨a1, a2, a3⟩ := StartNewFrame_after_pause ret t ht
    refine ⟨a1, a2, ?_, a3⟩
    intro hlt
    have hF : (StartNewFrame ret t).1._frameCount = u64add t._frameCount 1 :=
      (StartNewFrame_lastDispatched ret t).1
    rw [IsPaused_iff, a2, hF]
    have e1 : u64add t._frameCount 1 = t._frameCount + 1 := u64add_of_lt (by omega)
    rw [e1]
    have e2 : u64add (t._frameCount + 1) 10 = t._frameCount + 1 + 10 := u64add_of_lt (by omega)
    rw [e2]
    omega

theorem Present_automatic_pause_witness :
    (Present {} {} fourPresents.2 fourPresents.1).result = false ∧
    (Present {} {} fourPresents.2 fourPresents.1).state._isActive = false ∧
    (Present {} {} fourPresents.2 fourPresents.1).state._waitingNewFrameData = true :=
  ⟨(Present_automatic_pause {} (fun _ => {}) {} 0 presentedState (by decide)).2.2.1,
    (Present_automatic_pause {} (fun _ => {}) {} 0 presentedState (by decide)).2.2.2.2.2.2.1 rfl,
    (Present_automatic_pause {} (fun _ => {}) {} 0 presentedState (by decide)).2.2.2.2.1⟩

end OptiScaler
